import Mathlib

/-!
# OnsetDetector: a shallow embedding of the signal-processing core

The C++ sources (`Smooth.cpp`, `EnvelopeFollower.cpp`, `Resonator.cpp`,
`OnsetBuffer.h`, `OnsetDetector.cpp`) are embedded as pure functions over an
arbitrary linearly ordered field `α`: `float` and `double` values are read as
exact numbers, casts between them are the identity, and the `<cmath>`
functions (`std::exp`, `std::sqrt`, `std::cos`, `std::log2`, `std::pow`) are
passed in as arguments, so every definition is computable and can be run on
`ℚ`.  Statements that need the analytic meaning of a library function are
stated over `ℝ` with `Real.sqrt`, `Real.exp`.  Where the finite range of the
formats decides the behaviour (overflow of `freqHzToNote`, underflow of the
exponential in `Resonator2::update`), the section on the range of `float` and
`double` gives a second embedding with infinities and not-a-number.

`int` members (`timer`, `length`, `numBands`, `onset`) are integers of `ℤ`;
signed overflow is undefined behaviour in C++ and is not part of the model.
Fixed-size arrays are total functions of the index, a `for` loop over
`0 .. n-1` is `forLoop n`.
-/

namespace dsp

/-- The loop `for (auto s = 0; s < n; ++s) st = body(s, st)`. -/
def forLoop {σ : Type} (n : Nat) (body : Nat → σ → σ) (init : σ) : σ :=
  match n with
  | 0 => init
  | k + 1 => body k (forLoop k body init)

section Model

variable {α : Type} [LinearOrderedField α]

/-! ## Smooth.cpp / Smooth.h -/

/-- The literal `3.14159265358979323846` of the sources. -/
def Pi : α := 314159265358979323846 / 100000000000000000000

/-- The constant `TauD = 2. * Pi`. -/
def TauD : α := 2 * Pi

/-- The members `double a0, b1, y1, startVal` of `struct Lowpass`. -/
structure Lowpass (α : Type) where
  a0 : α
  b1 : α
  y1 : α
  startVal : α

namespace Lowpass

/-- Static `Lowpass::getXFromFc`. -/
def getXFromFc (exp : α → α) (fc : α) : α :=
  exp (-TauD * fc)

/-- Static `Lowpass::getXFromHz`. -/
def getXFromHz (exp : α → α) (hz Fs : α) : α :=
  getXFromFc exp (hz / Fs)

/-- Static `Lowpass::getXFromSamples`. -/
def getXFromSamples (exp : α → α) (lengthSamples : α) : α :=
  let dInv := -1 / lengthSamples
  let dExp := exp dInv
  dExp

/-- Static `Lowpass::getXFromSecs`. -/
def getXFromSecs (exp : α → α) (secs Fs : α) : α :=
  let lengthSamples := secs * Fs
  getXFromSamples exp lengthSamples

/-- Static `Lowpass::getXFromMs`. -/
def getXFromMs (exp : α → α) (ms Fs : α) : α :=
  let secs := ms * (1 / 1000)
  getXFromSecs exp secs Fs

/-- The constructor `Lowpass::Lowpass(double _startVal)`. -/
def construct (_startVal : α) : Lowpass α :=
  { a0 := 1, b1 := 0, y1 := _startVal, startVal := _startVal }

/-- Source `Lowpass::setX`. -/
def setX (lp : Lowpass α) (x : α) : Lowpass α :=
  { lp with a0 := 1 - x, b1 := x }

/-- Source `Lowpass::makeFromDecayInSamples`. -/
def makeFromDecayInSamples (exp : α → α) (lp : Lowpass α) (d : α) : Lowpass α :=
  if d = 0 then
    { lp with a0 := 1, b1 := 0 }
  else
    let dInv := -1 / d
    let dExp := exp dInv
    lp.setX dExp

/-- Source `Lowpass::makeFromDecayInFc`. -/
def makeFromDecayInFc (exp : α → α) (lp : Lowpass α) (fc : α) : Lowpass α :=
  lp.setX (getXFromFc exp fc)

/-- Source `Lowpass::makeFromDecayInHz`. -/
def makeFromDecayInHz (exp : α → α) (lp : Lowpass α) (hz Fs : α) : Lowpass α :=
  lp.setX (getXFromHz exp hz Fs)

/-- Source `Lowpass::makeFromDecayInSecs` (the `float` overload forwards to it). -/
def makeFromDecayInSecs (exp : α → α) (lp : Lowpass α) (d Fs : α) : Lowpass α :=
  makeFromDecayInSamples exp lp (d * Fs)

/-- Source `Lowpass::makeFromDecayInMs` (the `float` overload forwards to it). -/
def makeFromDecayInMs (exp : α → α) (lp : Lowpass α) (d Fs : α) : Lowpass α :=
  makeFromDecayInSecs exp lp (d * (1 / 1000)) Fs

/-- Source `Lowpass::copyCutoffFrom`. -/
def copyCutoffFrom (lp other : Lowpass α) : Lowpass α :=
  { lp with a0 := other.a0, b1 := other.b1 }

/-- Source `Lowpass::reset(double v)`. -/
def resetTo (lp : Lowpass α) (v : α) : Lowpass α :=
  { lp with y1 := v }

/-- Source `Lowpass::reset()`. -/
def reset (lp : Lowpass α) : Lowpass α :=
  lp.resetTo lp.startVal

/-- Source `Lowpass::processSample`: the new state and the returned value. -/
def processSample (lp : Lowpass α) (x0 : α) : Lowpass α × α :=
  let y := x0 * lp.a0 + lp.y1 * lp.b1
  ({ lp with y1 := y }, y)

/-- Source `Lowpass::operator()(double sample)`. -/
def operatorCall (lp : Lowpass α) (sample : α) : Lowpass α × α :=
  lp.processSample sample

/-- The state after `n` calls of `processSample(c)`. -/
def iterateSample (lp : Lowpass α) (c : α) (n : Nat) : Lowpass α :=
  forLoop n (fun _ st => (st.processSample c).1) lp

/-- The operations of a `Lowpass` object that change its members. -/
inductive Op (α : Type) where
  | setX (x : α)
  | makeFromDecayInSamples (d : α)
  | makeFromDecayInFc (fc : α)
  | makeFromDecayInHz (hz Fs : α)
  | makeFromDecayInSecs (d Fs : α)
  | makeFromDecayInMs (d Fs : α)
  | copyCutoffFrom (other : Lowpass α)
  | reset
  | resetTo (v : α)
  | processSample (x0 : α)

/-- One operation applied to a `Lowpass`. -/
def applyOp (exp : α → α) (lp : Lowpass α) : Op α → Lowpass α
  | .setX x => lp.setX x
  | .makeFromDecayInSamples d => makeFromDecayInSamples exp lp d
  | .makeFromDecayInFc fc => makeFromDecayInFc exp lp fc
  | .makeFromDecayInHz hz Fs => makeFromDecayInHz exp lp hz Fs
  | .makeFromDecayInSecs d Fs => makeFromDecayInSecs exp lp d Fs
  | .makeFromDecayInMs d Fs => makeFromDecayInMs exp lp d Fs
  | .copyCutoffFrom other => lp.copyCutoffFrom other
  | .reset => lp.reset
  | .resetTo v => lp.resetTo v
  | .processSample x0 => (lp.processSample x0).1

/-- A sequence of operations applied from left to right. -/
def applyOps (exp : α → α) (lp : Lowpass α) (ops : List (Op α)) : Lowpass α :=
  ops.foldl (applyOp exp) lp

/-- The coefficient invariant `a0 + b1 == 1`. -/
def CoeffInv (lp : Lowpass α) : Prop :=
  lp.a0 + lp.b1 = 1

/-- An operation whose argument, if it is another `Lowpass`, satisfies the
coefficient invariant. -/
def Op.Admissible : Op α → Prop
  | .copyCutoffFrom other => other.CoeffInv
  | _ => True

/-- The Lowpass `l` is the identity filter made from `lp`: `a0 = 1`, `b1 = 0`,
`y1` and `startVal` are those of `lp`, and `processSample(x)` returns and
stores `x`. -/
def IdentityFrom (lp l : Lowpass α) (x : α) : Prop :=
  l.a0 = 1 ∧ l.b1 = 0 ∧ l.y1 = lp.y1 ∧ l.startVal = lp.startVal
    ∧ (l.processSample x).2 = x ∧ (l.processSample x).1.y1 = x

/-- The quotient `a / b` as the source evaluates it, with the division by zero
made visible: `none` when the divisor is `0`. -/
def checkedDiv (a b : α) : Option α :=
  if b = 0 then none else some (a / b)

/-- Static `Lowpass::getXFromSamples` with its division checked: `none` when
the call divides by zero. -/
def getXFromSamplesChecked (exp : α → α) (lengthSamples : α) : Option α :=
  (checkedDiv (-1) lengthSamples).map fun dInv => exp dInv

/-- Static `Lowpass::getXFromSecs` with the division of `getXFromSamples`
checked. -/
def getXFromSecsChecked (exp : α → α) (secs Fs : α) : Option α :=
  let lengthSamples := secs * Fs
  getXFromSamplesChecked exp lengthSamples

/-- Static `Lowpass::getXFromMs` with the division of `getXFromSamples`
checked. -/
def getXFromMsChecked (exp : α → α) (ms Fs : α) : Option α :=
  let secs := ms * (1 / 1000)
  getXFromSecsChecked exp secs Fs

/-- Source `Lowpass::makeFromDecayInSamples` with its division checked: the
branch `d == 0.` returns before the division. -/
def makeFromDecayInSamplesChecked (exp : α → α) (lp : Lowpass α) (d : α) :
    Option (Lowpass α) :=
  if d = 0 then
    some { lp with a0 := 1, b1 := 0 }
  else
    (checkedDiv (-1) d).map fun dInv => lp.setX (exp dInv)

end Lowpass

/-! ## EnvelopeFollower.cpp -/

/-- The members of `EnvelopeFollower::Params`. -/
structure EnvelopeFollower.Params (α : Type) where
  sampleRate : α
  atkMs : α
  dcyMs : α
  atk : α
  dcy : α

namespace EnvelopeFollower.Params

/-- The constructor `Params::Params(float _atkMs, float _dcyMs)`. -/
def construct (_atkMs _dcyMs : α) : Params α :=
  { sampleRate := 1, atkMs := _atkMs, dcyMs := _dcyMs, atk := 0, dcy := 0 }

/-- Source `Params::setAtk`. -/
def setAtk (exp : α → α) (p : Params α) (ms : α) : Params α :=
  let p1 := { p with atkMs := ms }
  { p1 with atk := Lowpass.getXFromMs exp p1.atkMs p1.sampleRate }

/-- Source `Params::setDcy`. -/
def setDcy (exp : α → α) (p : Params α) (ms : α) : Params α :=
  let p1 := { p with dcyMs := ms }
  { p1 with dcy := Lowpass.getXFromMs exp p1.dcyMs p1.sampleRate }

/-- Source `Params::prepare`. -/
def prepare (exp : α → α) (p : Params α) (_sampleRate : α) : Params α :=
  let p1 := { p with sampleRate := _sampleRate }
  let p2 := p1.setAtk exp p1.atkMs
  p2.setDcy exp p2.dcyMs

end EnvelopeFollower.Params

/-- The function `double dbToAmp(double db)` (and its `float` twin in
`OnsetDetector.cpp`): `std::pow(10., db / 20.)`. -/
def dbToAmp (pow : α → α → α) (db : α) : α :=
  pow 10 (db / 20)

/-- The members of `EnvelopeFollower`; `buffer` is the array of tracked
values. -/
structure EnvelopeFollower (α : Type) where
  params : EnvelopeFollower.Params α
  buffer : Nat → α
  MinDb : α
  envLP : Lowpass α
  attackState : Bool

namespace EnvelopeFollower

/-- The constructor `EnvelopeFollower::EnvelopeFollower()`.  The default
arguments of `Params` are declared in `EnvelopeFollower.h`, which is not
among the sources, and are taken as parameters. -/
def construct (pow : α → α → α) (atkMsDefault dcyMsDefault : α) : EnvelopeFollower α :=
  { params := Params.construct atkMsDefault dcyMsDefault
    buffer := fun _ => 0
    MinDb := dbToAmp pow (-60)
    envLP := Lowpass.construct 0
    attackState := false }

/-- Source `EnvelopeFollower::reset(double v)`. -/
def reset (e : EnvelopeFollower α) (v : α) : EnvelopeFollower α :=
  let e1 := { e with envLP := e.envLP.resetTo v }
  { e1 with attackState := false }

/-- Source `EnvelopeFollower::prepare`. -/
def prepare (exp : α → α) (e : EnvelopeFollower α) (sampleRate : α) : EnvelopeFollower α :=
  let e1 := { e with params := e.params.prepare exp sampleRate }
  e1.reset (-120)

/-- Source `EnvelopeFollower::setAttack`. -/
def setAttack (exp : α → α) (e : EnvelopeFollower α) (ms : α) : EnvelopeFollower α :=
  { e with params := e.params.setAtk exp ms }

/-- Source `EnvelopeFollower::setDecay`. -/
def setDecay (exp : α → α) (e : EnvelopeFollower α) (ms : α) : EnvelopeFollower α :=
  { e with params := e.params.setDcy exp ms }

/-- Source `EnvelopeFollower::isSleepy`. -/
def isSleepy (e : EnvelopeFollower α) : Bool :=
  !e.attackState && decide (e.envLP.y1 < e.MinDb)

/-- Source `EnvelopeFollower::operator[]`. -/
def get (e : EnvelopeFollower α) (i : Nat) : α :=
  e.buffer i

/-- Source `EnvelopeFollower::copyMid`. -/
def copyMid (e : EnvelopeFollower α) (samples : Nat → Nat → α) (numChannels : Int)
    (numSamples : Nat) : EnvelopeFollower α :=
  let e1 := forLoop numSamples
    (fun s (st : EnvelopeFollower α) =>
      { st with buffer := Function.update st.buffer s (samples 0 s) }) e
  if numChannels > 1 then
    forLoop numSamples
      (fun s (st : EnvelopeFollower α) =>
        let b1 := Function.update st.buffer s (st.buffer s + samples 1 s)
        { st with buffer := Function.update b1 s (b1 s * (1 / 2)) }) e1
  else e1

/-- Source `EnvelopeFollower::rectify`. -/
def rectify (e : EnvelopeFollower α) (smpls : Nat → α) (numSamples : Nat) :
    EnvelopeFollower α :=
  forLoop numSamples
    (fun s (st : EnvelopeFollower α) =>
      { st with buffer := Function.update st.buffer s |smpls s| }) e

mutual

/-- Source `EnvelopeFollower::processAttack`: the new state and the returned value. -/
def processAttack (e : EnvelopeFollower α) (s0 s1 : α) : EnvelopeFollower α × α :=
  if h : s0 ≤ s1 then
    let r := e.envLP.operatorCall s1
    ({ e with envLP := r.1 }, r.2)
  else
    let e1 := { e with attackState := false }
    let e2 := { e1 with envLP := e1.envLP.setX e1.params.dcy }
    processDecay e2 s0 s1
termination_by (if s1 < s0 then 1 else 0 : Nat)
decreasing_by
  have h1 : s1 < s0 := not_le.mp h
  simp [h1, not_lt.mpr h1.le]

/-- Source `EnvelopeFollower::processDecay`: the new state and the returned value. -/
def processDecay (e : EnvelopeFollower α) (s0 s1 : α) : EnvelopeFollower α × α :=
  if h : s0 ≥ s1 then
    let r := e.envLP.operatorCall s1
    ({ e with envLP := r.1 }, r.2)
  else
    let e1 := { e with attackState := true }
    let e2 := { e1 with envLP := e1.envLP.setX e1.params.atk }
    processAttack e2 s0 s1
termination_by (if s0 < s1 then 1 else 0 : Nat)
decreasing_by
  have h1 : s0 < s1 := not_le.mp h
  simp [h1, not_lt.mpr h1.le]

end

/-- What one call of `processAttack` or `processDecay` has done: the number
of calls to the other function, of state switches and of Lowpass steps. -/
structure CallCount where
  crossCalls : Nat
  switches : Nat
  lowpassSteps : Nat

/-- The functions `processAttack` (`attack = true`) and `processDecay`
(`attack = false`) run with a bound `fuel` on the depth of the calls, counting
what they do; `none` when the bound is reached. -/
def processCounted (fuel : Nat) (attack : Bool) (e : EnvelopeFollower α) (s0 s1 : α) :
    Option ((EnvelopeFollower α × α) × CallCount) :=
  match fuel with
  | 0 => none
  | k + 1 =>
    if attack then
      if s0 ≤ s1 then
        let r := e.envLP.operatorCall s1
        some (({ e with envLP := r.1 }, r.2), { crossCalls := 0, switches := 0, lowpassSteps := 1 })
      else
        let e1 := { e with attackState := false }
        let e2 := { e1 with envLP := e1.envLP.setX e1.params.dcy }
        (processCounted k false e2 s0 s1).map fun r =>
          (r.1, { crossCalls := r.2.crossCalls + 1, switches := r.2.switches + 1,
                  lowpassSteps := r.2.lowpassSteps })
    else
      if s0 ≥ s1 then
        let r := e.envLP.operatorCall s1
        some (({ e with envLP := r.1 }, r.2), { crossCalls := 0, switches := 0, lowpassSteps := 1 })
      else
        let e1 := { e with attackState := true }
        let e2 := { e1 with envLP := e1.envLP.setX e1.params.atk }
        (processCounted k true e2 s0 s1).map fun r =>
          (r.1, { crossCalls := r.2.crossCalls + 1, switches := r.2.switches + 1,
                  lowpassSteps := r.2.lowpassSteps })

/-- The Lowpass coefficients are those of `setX(params.atk)` when
`attackState` is true and those of `setX(params.dcy)` when it is false. -/
def CoeffsMatchState (e : EnvelopeFollower α) : Prop :=
  e.envLP.a0 = 1 - (if e.attackState then e.params.atk else e.params.dcy)
    ∧ e.envLP.b1 = if e.attackState then e.params.atk else e.params.dcy

/-- The body of the loop of `EnvelopeFollower::synthesizeEnvelope` at index
`s`. -/
def synthesizeStep (e : EnvelopeFollower α) (s : Nat) : EnvelopeFollower α :=
  let s0 := e.envLP.y1
  let s1 := e.buffer s
  if e.attackState then
    let r := e.processAttack s0 s1
    { r.1 with buffer := Function.update r.1.buffer s r.2 }
  else
    let r := e.processDecay s0 s1
    { r.1 with buffer := Function.update r.1.buffer s r.2 }

/-- Source `EnvelopeFollower::synthesizeEnvelope`. -/
def synthesizeEnvelope (e : EnvelopeFollower α) (numSamples : Nat) : EnvelopeFollower α :=
  forLoop numSamples (fun s st => st.synthesizeStep s) e

/-- Source `EnvelopeFollower::operator()(float* smpls, int numSamples)`. -/
def operatorCall (e : EnvelopeFollower α) (smpls : Nat → α) (numSamples : Nat) :
    EnvelopeFollower α :=
  (e.rectify smpls numSamples).synthesizeEnvelope numSamples

/-- Source `EnvelopeFollower::operator()(float** samples, int numChannels, int
numSamples)`. -/
def operatorCallMid (e : EnvelopeFollower α) (samples : Nat → Nat → α) (numChannels : Int)
    (numSamples : Nat) : EnvelopeFollower α :=
  let e1 := e.copyMid samples numChannels numSamples
  e1.operatorCall e1.buffer numSamples

/-- The calls a client can make on an `EnvelopeFollower`. -/
inductive Op (α : Type) where
  | prepare (sampleRate : α)
  | setAttack (ms : α)
  | setDecay (ms : α)
  | reset (v : α)
  | process (smpls : Nat → α) (numSamples : Nat)

/-- One client call applied to an `EnvelopeFollower`. -/
def applyOp (exp : α → α) (e : EnvelopeFollower α) : Op α → EnvelopeFollower α
  | .prepare sampleRate => e.prepare exp sampleRate
  | .setAttack ms => e.setAttack exp ms
  | .setDecay ms => e.setDecay exp ms
  | .reset v => e.reset v
  | .process smpls numSamples => e.operatorCall smpls numSamples

/-- The active feedback coefficient matches `attackState`. -/
def CoeffMatchesState (e : EnvelopeFollower α) : Prop :=
  e.envLP.b1 = if e.attackState then e.params.atk else e.params.dcy

end EnvelopeFollower

/-! ## Resonator.cpp -/

/-- The members of `Resonator2`, those of its base `ResonatorBase` (`fc`,
`bw`) included. -/
structure Resonator2 (α : Type) where
  fc : α
  bw : α
  b2 : α
  b1 : α
  a0 : α
  z1 : α
  z2 : α

/-- Source `ResonatorBase::distort`. -/
def distort (y : α) : α :=
  if y > 1 then 1 else if y < -1 then -1 else y

namespace Resonator2

/-- The constructor `Resonator2::Resonator2()`. -/
def construct : Resonator2 α :=
  { fc := 0, bw := 0, b2 := 0, b1 := 0, a0 := 0, z1 := 0, z2 := 0 }

/-- Source `ResonatorBase::setCutoffFc`. -/
def setCutoffFc (r : Resonator2 α) (_fc : α) : Resonator2 α :=
  { r with fc := _fc }

/-- Source `ResonatorBase::setBandwidth`. -/
def setBandwidth (r : Resonator2 α) (_bw : α) : Resonator2 α :=
  { r with bw := _bw }

/-- Source `Resonator2::reset`. -/
def reset (r : Resonator2 α) : Resonator2 α :=
  { r with z1 := 0, z2 := 0 }

/-- Source `Resonator2::update`. -/
def update (exp cos sqrt : α → α) (r : Resonator2 α) : Resonator2 α :=
  let b2 := exp (-TauD * r.bw)
  let fcTau := TauD * r.fc
  let b2_4 := 4 * b2
  let cosFc := cos fcTau
  let b1 := (-b2_4 / (1 + b2)) * cosFc
  let sqrtVal := 1 - b1 * b1 / b2_4
  let a0 := (1 - b2) * sqrt sqrtVal
  { r with b2 := b2, b1 := b1, a0 := a0 }

/-- Source `Resonator2::copyFrom`. -/
def copyFrom (r other : Resonator2 α) : Resonator2 α :=
  { r with b2 := other.b2, b1 := other.b1, a0 := other.a0 }

/-- Source `Resonator2::operator()`: the new state and the returned value. -/
def operatorCall (r : Resonator2 α) (x : α) : Resonator2 α × α :=
  let y := r.a0 * x - r.b1 * r.z1 - r.b2 * r.z2
  let y := distort y
  ({ r with z2 := r.z1, z1 := y }, y)

/-- The resonator driven by a sequence of inputs: the final state and the
outputs in order. -/
def run (r : Resonator2 α) : List α → Resonator2 α × List α
  | [] => (r, [])
  | x :: xs =>
    let p := r.operatorCall x
    let q := run p.1 xs
    (q.1, p.2 :: q.2)

/-- Both delay registers lie in `[-1, 1]`. -/
def Bounded (r : Resonator2 α) : Prop :=
  (-1 ≤ r.z1 ∧ r.z1 ≤ 1) ∧ (-1 ≤ r.z2 ∧ r.z2 ≤ 1)

end Resonator2

/-- The members of `Resonator3`: a `Resonator2` and the Lowpass `lp`. -/
structure Resonator3 (α : Type) where
  base : Resonator2 α
  lp : Lowpass α

namespace Resonator3

/-- Source `Resonator3::reset`. -/
def reset (r : Resonator3 α) : Resonator3 α :=
  { base := r.base.reset, lp := r.lp.reset }

/-- Source `Resonator3::update`. -/
def update (exp cos sqrt : α → α) (r : Resonator3 α) : Resonator3 α :=
  let b := r.base.update exp cos sqrt
  { base := b, lp := Lowpass.makeFromDecayInFc exp r.lp b.fc }

/-- Source `Resonator3::copyFrom`. -/
def copyFrom (r other : Resonator3 α) : Resonator3 α :=
  { base := r.base.copyFrom other.base, lp := r.lp.copyCutoffFrom other.lp }

/-- Source `Resonator3::operator()`: the new state and the returned value. -/
def operatorCall (r : Resonator3 α) (x : α) : Resonator3 α × α :=
  let p := r.base.operatorCall x
  let q := r.lp.operatorCall p.2
  ({ base := p.1, lp := q.1 }, p.2 - q.2)

end Resonator3

/-! ## OnsetBuffer.h -/

/-- The member `std::array<float, BlockSize> buffer` of `OnsetBuffer`. -/
structure OnsetBuffer (α : Type) where
  buffer : Nat → α

namespace OnsetBuffer

/-- The constructor `OnsetBuffer::OnsetBuffer()`: a zero-filled array. -/
def construct : OnsetBuffer α :=
  { buffer := fun _ => 0 }

/-- Source `OnsetBuffer::operator[]` read. -/
def get (b : OnsetBuffer α) (i : Nat) : α :=
  b.buffer i

/-- Source `OnsetBuffer::operator[]` write. -/
def set (b : OnsetBuffer α) (i : Nat) (v : α) : OnsetBuffer α :=
  { buffer := Function.update b.buffer i v }

/-- Source `OnsetBuffer::copyFrom`. -/
def copyFrom (b other : OnsetBuffer α) (numSamples : Nat) : OnsetBuffer α :=
  forLoop numSamples (fun s st => st.set s (other.get s)) b

/-- Source `OnsetBuffer::getMaxMag`. -/
def getMaxMag (b : OnsetBuffer α) (numSamples : Nat) : α :=
  forLoop numSamples (fun s mx => if mx < b.get s then b.get s else mx) 0

/-- Source `OnsetBuffer::rectify`. -/
def rectify (b : OnsetBuffer α) (numSamples : Nat) : OnsetBuffer α :=
  forLoop numSamples (fun s st => st.set s |st.get s|) b

/-- Source `OnsetBuffer::copyFromMid`. -/
def copyFromMid (b : OnsetBuffer α) (samples : Nat → Nat → α) (numChannels : Int)
    (numSamples : Nat) : OnsetBuffer α :=
  let b1 := forLoop numSamples (fun i st => st.set i (samples 0 i)) b
  if numChannels ≠ 2 then b1
  else
    forLoop numSamples
      (fun i (st : OnsetBuffer α) =>
        let st1 := st.set i (st.get i + samples 1 i)
        st1.set i (st1.get i * (1 / 2))) b1

end OnsetBuffer

/-! ## OnsetDetector.cpp -/

/-- The constants of `OnsetAxiom.h` and the default arguments of
`EnvelopeFollower::Params`, declared in headers that are not among the
sources; they are parameters of the constructors. -/
structure OnsetConsts (α : Type) where
  EnvFolAtkMsDefault : α
  EnvFolDcyMsDefault : α
  OnsetAtkDefault : α
  OnsetDcyDefault : α
  OnsetHoldDefault : α
  OnsetLowestFreqHz : α
  OnsetHighestFreqHz : α
  OnsetThresholdDefault : α
  OnsetTiltDefault : α
  OnsetNumBandsDefault : Int
  OnsetBandwidthDefault : α
  OnsetDecay0Percent : α

/-- Source `freqHzToSamples`. -/
def freqHzToSamples (freqHz sampleRate : α) : α :=
  sampleRate / freqHz

/-- Source `samplesToMs`. -/
def samplesToMs (samples sampleRateInv : α) : α :=
  samples * 1000 * sampleRateInv

/-- Source `freqHzToFc`. -/
def freqHzToFc (freqHz sampleRate : α) : α :=
  freqHz / sampleRate

/-- Source `msToSamples`. -/
def msToSamples (ms sampleRate : α) : α :=
  (ms * (1 / 1000)) * sampleRate

/-- Source `freqHzToNote`. -/
def freqHzToNote (pow : α → α → α) (freqHz : α) : α :=
  440 * pow 2 ((freqHz - 69) / 12)

/-- Source `noteToFreqHz`. -/
def noteToFreqHz (log2 : α → α) (note : α) : α :=
  69 + 12 * log2 (note / 440)

/-- The conversion `static_cast<int>` of a `double`: truncation towards
zero. -/
def truncToInt [FloorRing α] (x : α) : Int :=
  if 0 ≤ x then Int.floor x else Int.ceil x

/-- The members of `OnsetCore`.  The two envelope followers `envFols[0]` and
`envFols[1]` are indexed by `Fin 2`; the resonator `reso` is modelled as a
`Resonator2` (its declaration is in `OnsetDetector.h`). -/
structure OnsetCore (α : Type) where
  reso : Resonator2 α
  envFols : Fin 2 → EnvelopeFollower α
  buffer : OnsetBuffer α
  sampleRate : α
  freqHz : α
  bwHz : α
  bwPercent : α
  attack : α
  decay : α
  gain : α

namespace OnsetCore

/-- The constructor `OnsetCore::OnsetCore()`. -/
def construct (pow : α → α → α) (k : OnsetConsts α) : OnsetCore α :=
  { reso := Resonator2.construct
    envFols := fun _ => EnvelopeFollower.construct pow k.EnvFolAtkMsDefault k.EnvFolDcyMsDefault
    buffer := OnsetBuffer.construct
    sampleRate := 1
    freqHz := 5000
    bwHz := 5000
    bwPercent := 1
    attack := k.OnsetAtkDefault
    decay := k.OnsetDcyDefault
    gain := 1 }

/-- Source `OnsetCore::setAttack`. -/
def setAttack (exp : α → α) (c : OnsetCore α) (a : α) : OnsetCore α :=
  let c1 := { c with attack := a }
  let sampleRateInv := 1 / c1.sampleRate
  let waveLength := freqHzToSamples c1.freqHz c1.sampleRate
  let ms := samplesToMs waveLength sampleRateInv
  { c1 with envFols := Function.update c1.envFols 1 ((c1.envFols 1).setAttack exp (ms * c1.attack)) }

/-- Source `OnsetCore::setDecay`. -/
def setDecay (exp : α → α) (c : OnsetCore α) (d : α) (i : Fin 2) : OnsetCore α :=
  let c1 := { c with decay := d }
  let sampleRateInv := 1 / c1.sampleRate
  let waveLength := freqHzToSamples c1.freqHz c1.sampleRate
  let ms := samplesToMs waveLength sampleRateInv
  { c1 with envFols := Function.update c1.envFols i ((c1.envFols i).setDecay exp (ms * c1.decay)) }

/-- Source `OnsetCore::updateBandwidth`. -/
def updateBandwidth (c : OnsetCore α) : OnsetCore α :=
  let b := c.bwHz * c.bwPercent
  { c with reso := c.reso.setBandwidth (freqHzToFc b c.sampleRate) }

/-- Source `OnsetCore::setBandwidth`. -/
def setBandwidth (c : OnsetCore α) (q : α) : OnsetCore α :=
  updateBandwidth { c with bwHz := q }

/-- Source `OnsetCore::setBandwidthPercent`. -/
def setBandwidthPercent (c : OnsetCore α) (p : α) : OnsetCore α :=
  updateBandwidth { c with bwPercent := p }

/-- Source `OnsetCore::setGain`. -/
def setGain (c : OnsetCore α) (g : α) : OnsetCore α :=
  { c with gain := g }

/-- Source `OnsetCore::setFreqHz`. -/
def setFreqHz (c : OnsetCore α) (f : α) : OnsetCore α :=
  let c1 := { c with freqHz := f }
  { c1 with reso := c1.reso.setCutoffFc (freqHzToFc c1.freqHz c1.sampleRate) }

/-- Source `OnsetCore::updateFilter`. -/
def updateFilter (exp cos sqrt : α → α) (c : OnsetCore α) : OnsetCore α :=
  { c with reso := c.reso.update exp cos sqrt }

/-- Source `OnsetCore::prepare`. -/
def prepare (exp cos sqrt : α → α) (c : OnsetCore α) (_sampleRate : α) : OnsetCore α :=
  let c1 := { c with sampleRate := _sampleRate }
  let c2 := { c1 with envFols := fun i => (c1.envFols i).prepare exp c1.sampleRate }
  let c3 := c2.setFreqHz c2.freqHz
  let c4 := c3.setBandwidth c3.bwHz
  let c5 := c4.updateFilter exp cos sqrt
  let c6 := { c5 with reso := c5.reso.reset }
  let c7 := c6.setAttack exp c6.attack
  let c8 := c7.setDecay exp c7.decay 0
  c8.setDecay exp c8.decay 1

/-- Source `OnsetCore::copyFrom`. -/
def copyFrom (c : OnsetCore α) (other : OnsetBuffer α) (numSamples : Nat) : OnsetCore α :=
  { c with buffer := c.buffer.copyFrom other numSamples }

/-- Source `OnsetCore::resonate`. -/
def resonate (c : OnsetCore α) (numSamples : Nat) : OnsetCore α :=
  forLoop numSamples
    (fun s (st : OnsetCore α) =>
      let r := st.reso.operatorCall (st.buffer.get s)
      { st with reso := r.1, buffer := st.buffer.set s r.2 }) c

/-- Source `OnsetCore::synthesizeEnvelopeFollowers`. -/
def synthesizeEnvelopeFollowers (c : OnsetCore α) (numSamples : Nat) : OnsetCore α :=
  { c with envFols := fun i => (c.envFols i).operatorCall c.buffer.buffer numSamples }

/-- The value `gain * v0 / (v1 + 1e-6f)` computed by `OnsetCore::operator()`,
`addTo` and `processSample` at sample `s`. -/
def strengthAt (c : OnsetCore α) (s : Nat) : α :=
  let v0 := (c.envFols 0).get s
  let v1 := (c.envFols 1).get s
  let v2 := v1 + 1 / 1000000
  c.gain * v0 / v2

/-- Source `OnsetCore::operator()(int numSamples)`. -/
def operatorCall (c : OnsetCore α) (numSamples : Nat) : OnsetCore α :=
  forLoop numSamples
    (fun s (st : OnsetCore α) => { st with buffer := st.buffer.set s (st.strengthAt s) }) c

/-- Source `OnsetCore::addTo`. -/
def addTo (c : OnsetCore α) (_buffer : OnsetBuffer α) (s : Nat) : OnsetBuffer α :=
  _buffer.set s (_buffer.get s + c.strengthAt s)

/-- Source `OnsetCore::processSample(int s)`, which writes to the band's own
buffer: the new state and the returned value. -/
def processSample (c : OnsetCore α) (s : Nat) : OnsetCore α × α :=
  let y := c.strengthAt s
  ({ c with buffer := c.buffer.set s y }, y)

/-- Source `OnsetCore::operator[]`. -/
def get (c : OnsetCore α) (i : Nat) : α :=
  c.buffer.get i

/-- Source `OnsetCore::getMaxMag`. -/
def getMaxMag (c : OnsetCore α) (numSamples : Nat) : α :=
  c.buffer.getMaxMag numSamples

/-- The band `c` is the band `c'` up to the contents of its sample buffer. -/
def SameStrength (c c' : OnsetCore α) : Prop :=
  c = { c' with buffer := c.buffer }

end OnsetCore

/-- The members of `OnsetStrongHold`. -/
structure OnsetStrongHold (α : Type) where
  sampleRate : α
  lengthD : α
  timer : Int
  length : Int

namespace OnsetStrongHold

/-- The constructor `OnsetStrongHold::OnsetStrongHold()`. -/
def construct (k : OnsetConsts α) : OnsetStrongHold α :=
  { sampleRate := 1, lengthD := k.OnsetHoldDefault, timer := 0, length := 0 }

/-- Source `OnsetStrongHold::setLength`. -/
def setLength [FloorRing α] (h : OnsetStrongHold α) (l : α) : OnsetStrongHold α :=
  let h1 := { h with lengthD := l }
  let h2 := { h1 with length := truncToInt (msToSamples h1.lengthD h1.sampleRate) }
  { h2 with timer := 0 }

/-- Source `OnsetStrongHold::prepare`. -/
def prepare [FloorRing α] (h : OnsetStrongHold α) (_sampleRate : α) : OnsetStrongHold α :=
  let h1 := { h with sampleRate := _sampleRate }
  h1.setLength h1.lengthD

/-- Source `OnsetStrongHold::reset`. -/
def reset (h : OnsetStrongHold α) : OnsetStrongHold α :=
  { h with timer := 0 }

/-- Source `OnsetStrongHold::operator()(int numSamples)`. -/
def operatorCall (h : OnsetStrongHold α) (numSamples : Int) : OnsetStrongHold α :=
  { h with timer := h.timer + numSamples }

/-- Source `OnsetStrongHold::youShallNotPass`. -/
def youShallNotPass (h : OnsetStrongHold α) : Bool :=
  decide (h.timer < h.length)

/-- Source `OnsetStrongHold::youShallPass`. -/
def youShallPass (h : OnsetStrongHold α) : Bool :=
  !h.youShallNotPass

end OnsetStrongHold

/-- The members of `OnsetDetector` (the callback `onOnset` apart).
`detectors` is the fixed-size array of bands. -/
structure OnsetDetector (α : Type) where
  buffer : OnsetBuffer α
  detectors : Nat → OnsetCore α
  strongHold : OnsetStrongHold α
  sampleRate : α
  lowestPitch : α
  highestPitch : α
  threshold : α
  tilt : α
  numBands : Int
  onset : Int
  onsetOut : Int

/-- One call of `OnsetDetector::operator()`: the channel pointers, the channel
count and the number of samples. -/
structure Block (α : Type) where
  samples : Nat → Nat → α
  numChannels : Int
  numSamples : Nat

namespace OnsetDetector

/-- The value `pitch` that the loop body of `updatePitchRange` computes for
band `i`. -/
def bandPitch (d : OnsetDetector α) (i : Nat) : α :=
  let rangePitch := d.highestPitch - d.lowestPitch
  let iF : α := (i : α)
  let iR := iF / ((d.numBands - 1 : Int) : α)
  d.lowestPitch + iR * rangePitch

/-- Source `OnsetDetector::updatePitchRange`. -/
def updatePitchRange (exp cos sqrt log2 : α → α) (d : OnsetDetector α) : OnsetDetector α :=
  let rangePitch := d.highestPitch - d.lowestPitch
  forLoop d.numBands.toNat
    (fun i (st : OnsetDetector α) =>
      let iF : α := (i : α)
      let iR := iF / ((st.numBands - 1 : Int) : α)
      let pitch := st.lowestPitch + iR * rangePitch
      let freqHz := noteToFreqHz log2 pitch
      let pitchLow := pitch - 1 / 2
      let pitchHigh := pitch + 1 / 2
      let freqLow := noteToFreqHz log2 pitchLow
      let freqHigh := noteToFreqHz log2 pitchHigh
      let bwHz := freqHigh - freqLow
      let detector := st.detectors i
      let detector := detector.setFreqHz freqHz
      let detector := detector.setBandwidth bwHz
      let detector := detector.updateFilter exp cos sqrt
      { st with detectors := Function.update st.detectors i detector }) d

/-- Source `OnsetDetector::updateTilt`. -/
def updateTilt (pow : α → α → α) (d : OnsetDetector α) : OnsetDetector α :=
  let lowestGain := dbToAmp pow (-d.tilt)
  let highestGain := dbToAmp pow d.tilt
  let rangeGain := highestGain - lowestGain
  let numBandsInv := 1 / (d.numBands : α)
  let bandCompensate := numBandsInv * numBandsInv
  forLoop d.numBands.toNat
    (fun i (st : OnsetDetector α) =>
      let iF : α := (i : α)
      let iR := iF / (st.numBands : α)
      let gain := lowestGain + iR * rangeGain
      { st with detectors :=
          Function.update st.detectors i ((st.detectors i).setGain (gain * bandCompensate)) }) d

/-- Source `OnsetDetector::setAttack`. -/
def setAttack (exp : α → α) (d : OnsetDetector α) (x : α) : OnsetDetector α :=
  { d with detectors := fun i => (d.detectors i).setAttack exp x }

/-- Source `OnsetDetector::setDecay`; `decay0Percent` is the constant
`OnsetDecay0Percent`. -/
def setDecay (exp : α → α) (decay0Percent : α) (d : OnsetDetector α) (x : α) :
    OnsetDetector α :=
  let d1 := { d with detectors := fun i => (d.detectors i).setDecay exp x 1 }
  let dd := decay0Percent * x
  { d1 with detectors := fun i => (d1.detectors i).setDecay exp dd 0 }

/-- Source `OnsetDetector::setTilt`. -/
def setTilt (pow : α → α → α) (d : OnsetDetector α) (db : α) : OnsetDetector α :=
  updateTilt pow { d with tilt := db }

/-- Source `OnsetDetector::setThreshold`. -/
def setThreshold (pow : α → α → α) (d : OnsetDetector α) (db : α) : OnsetDetector α :=
  { d with threshold := dbToAmp pow db }

/-- Source `OnsetDetector::setHoldLength`. -/
def setHoldLength [FloorRing α] (d : OnsetDetector α) (ms : α) : OnsetDetector α :=
  { d with strongHold := d.strongHold.setLength ms }

/-- Source `OnsetDetector::setBandwidth`. -/
def setBandwidth (d : OnsetDetector α) (b : α) : OnsetDetector α :=
  { d with detectors := fun i => (d.detectors i).setBandwidthPercent b }

/-- Source `OnsetDetector::setNumBands`. -/
def setNumBands (exp cos sqrt log2 : α → α) (pow : α → α → α) (d : OnsetDetector α)
    (n : Int) : OnsetDetector α :=
  updateTilt pow (updatePitchRange exp cos sqrt log2 { d with numBands := n })

/-- Source `OnsetDetector::setLowestPitch`. -/
def setLowestPitch (exp cos sqrt log2 : α → α) (d : OnsetDetector α) (p : α) :
    OnsetDetector α :=
  updatePitchRange exp cos sqrt log2 { d with lowestPitch := p }

/-- Source `OnsetDetector::setHighestPitch`. -/
def setHighestPitch (exp cos sqrt log2 : α → α) (d : OnsetDetector α) (p : α) :
    OnsetDetector α :=
  updatePitchRange exp cos sqrt log2 { d with highestPitch := p }

/-- The constructor `OnsetDetector::OnsetDetector()`. -/
def construct (exp : α → α) (pow : α → α → α) (k : OnsetConsts α) : OnsetDetector α :=
  let d : OnsetDetector α :=
    { buffer := OnsetBuffer.construct
      detectors := fun _ => OnsetCore.construct pow k
      strongHold := OnsetStrongHold.construct k
      sampleRate := 1
      lowestPitch := freqHzToNote pow k.OnsetLowestFreqHz
      highestPitch := freqHzToNote pow k.OnsetHighestFreqHz
      threshold := k.OnsetThresholdDefault
      tilt := k.OnsetTiltDefault
      numBands := k.OnsetNumBandsDefault
      onset := -1
      onsetOut := -1 }
  let bwPercentDefault := pow 2 k.OnsetBandwidthDefault
  let d1 := d.setBandwidth bwPercentDefault
  let d2 := d1.setDecay exp k.OnsetDecay0Percent k.OnsetDcyDefault
  d2.setTilt pow k.OnsetTiltDefault

/-- Source `OnsetDetector::prepare`. -/
def prepare [FloorRing α] (exp cos sqrt log2 : α → α) (d : OnsetDetector α)
    (_sampleRate : α) : OnsetDetector α :=
  let d1 := { d with sampleRate := _sampleRate }
  let d2 := d1.updatePitchRange exp cos sqrt log2
  let d3 := { d2 with detectors := fun i => (d2.detectors i).prepare exp cos sqrt d2.sampleRate }
  { d3 with strongHold := d3.strongHold.prepare d3.sampleRate }

/-- The body of the first loop over the bands of `OnsetDetector::operator()`,
for band `i`. -/
def analyseStep (numSamples i : Nat) (st : OnsetDetector α) : OnsetDetector α :=
  let detector := st.detectors i
  let detector := detector.copyFrom st.buffer numSamples
  let detector := detector.resonate numSamples
  let detector := detector.synthesizeEnvelopeFollowers numSamples
  { st with detectors := Function.update st.detectors i detector }

/-- The first four statements of `OnsetDetector::operator()`: `onset = -1`,
`strongHold(numSamples)`, `buffer.copyFromMid`, `buffer.rectify`. -/
def analyseInit (d : OnsetDetector α) (samples : Nat → Nat → α) (numChannels : Int)
    (numSamples : Nat) : OnsetDetector α :=
  let d1 := { d with onset := -1 }
  let d2 := { d1 with strongHold := d1.strongHold.operatorCall numSamples }
  let d3 := { d2 with buffer := d2.buffer.copyFromMid samples numChannels numSamples }
  { d3 with buffer := d3.buffer.rectify numSamples }

/-- The first part of `OnsetDetector::operator()`, up to and including the
loop over the bands that resonates and runs the envelope followers. -/
def analyse (d : OnsetDetector α) (samples : Nat → Nat → α) (numChannels : Int)
    (numSamples : Nat) : OnsetDetector α :=
  let d4 := d.analyseInit samples numChannels numSamples
  forLoop d4.numBands.toNat (analyseStep numSamples) d4

/-- The body of the inner loop over the bands at sample `s`, for band `i`:
`detector.processSample(s); val += detector[s];`. -/
def bandStep (s i : Nat) (acc : OnsetDetector α × α) : OnsetDetector α × α :=
  let detector := ((acc.1.detectors i).processSample s).1
  let st := { acc.1 with detectors := Function.update acc.1.detectors i detector }
  (st, acc.2 + (st.detectors i).get s)

/-- The inner loop over the bands at sample `s`: every band's
`processSample(s)` and the accumulated `val`. -/
def sumBands (d : OnsetDetector α) (s : Nat) : OnsetDetector α × α :=
  forLoop d.numBands.toNat (bandStep s) (d, 0)

/-- The body of the sample loop of `OnsetDetector::operator()` at sample
`s`. -/
def sampleStep (sqrt : α → α) (d : OnsetDetector α) (s : Nat) : OnsetDetector α :=
  let r := d.sumBands s
  let val := sqrt (r.2 / (r.1.numBands : α))
  if val > r.1.threshold then
    let d1 := if r.1.strongHold.youShallPass then { r.1 with onset := (s : Int) } else r.1
    { d1 with strongHold := d1.strongHold.reset }
  else r.1

/-- The sample loop of `OnsetDetector::operator()`. -/
def detect (sqrt : α → α) (d : OnsetDetector α) (numSamples : Nat) : OnsetDetector α :=
  forLoop numSamples (fun s st => st.sampleStep sqrt s) d

/-- Source `OnsetDetector::operator()(float** samples, int numChannels, int
numSamples)`. -/
def operatorCall (sqrt : α → α) (d : OnsetDetector α) (samples : Nat → Nat → α)
    (numChannels : Int) (numSamples : Nat) : OnsetDetector α :=
  (d.analyse samples numChannels numSamples).detect sqrt numSamples

/-- The band loop of `analyse` applied to one band: `copyFrom`, `resonate`,
`synthesizeEnvelopeFollowers`. -/
def analyseBand (c : OnsetCore α) (buffer : OnsetBuffer α) (numSamples : Nat) : OnsetCore α :=
  ((c.copyFrom buffer numSamples).resonate numSamples).synthesizeEnvelopeFollowers numSamples

/-- The sum over the bands of `gain * fast[s] / (slow[s] + 1e-6)`. -/
def bandSum (d : OnsetDetector α) (s : Nat) : α :=
  forLoop d.numBands.toNat (fun i acc => acc + (d.detectors i).strengthAt s) 0

/-- The value `val = std::sqrt(val / numBands)` that the sample loop compares
with the threshold at sample `s`, computed in state `d`. -/
def strength (sqrt : α → α) (d : OnsetDetector α) (s : Nat) : α :=
  let r := d.sumBands s
  sqrt (r.2 / (r.1.numBands : α))

/-- Sample `s` qualifies in the sample loop started in state `a`: when the
loop reaches `s`, the strength exceeds the threshold and the hold gate is
open. -/
def QualifiesAt (sqrt : α → α) (a : OnsetDetector α) (s : Nat) : Prop :=
  (a.detect sqrt s).strength sqrt s > (a.detect sqrt s).threshold
    ∧ (a.detect sqrt s).strongHold.youShallPass = true

instance (sqrt : α → α) (a : OnsetDetector α) (s : Nat) : Decidable (a.QualifiesAt sqrt s) :=
  inferInstanceAs (Decidable (_ ∧ _))

/-- The detector after processing a sequence of blocks in order. -/
def processBlocks (sqrt : α → α) (d : OnsetDetector α) (blocks : List (Block α)) :
    OnsetDetector α :=
  blocks.foldl (fun st b => st.operatorCall sqrt b.samples b.numChannels b.numSamples) d

/-- The onset index reported for block `i` of a sequence of blocks. -/
def onsetOfBlock (sqrt : α → α) (d : OnsetDetector α) (blocks : List (Block α)) (i : Nat) :
    Int :=
  (d.processBlocks sqrt (blocks.take (i + 1))).onset

/-- Every band's gain multiplied by `k`. -/
def scaleGains (k : α) (d : OnsetDetector α) : OnsetDetector α :=
  { d with detectors := fun i => (d.detectors i).setGain (k * (d.detectors i).gain) }

/-- The first sample index below `numSamples` at which the strength of the
analysed block exceeds the threshold. -/
def firstCrossing (sqrt : α → α) (a : OnsetDetector α) (numSamples : Nat) : Option Nat :=
  (List.range numSamples).find? fun s => decide (a.threshold < a.strength sqrt s)

end OnsetDetector

/-- The absolute sample position at which block `i` of a sequence starts. -/
def blockStart (blocks : List (Block α)) (i : Nat) : Int :=
  (((blocks.take i).map fun b => b.numSamples).sum : Nat)

/-! ## The range of `float` and `double`

The definitions above read `float` and `double` values as exact numbers.  The
definitions of this section keep the range of the two formats: a value is a
finite number, an infinity or not-a-number, every operation overflows to an
infinity, the library functions `std::exp` and `std::pow`, whose exact result
can lie far below the format, underflow to zero, and the special values
follow IEEE 754.  The rounding of a finite non-zero result (the gradual
underflow of products and quotients included) and the sign of a zero are not
modelled. -/

/-- A value of type `float` or `double`: a finite number, an infinity or
not-a-number.  Every zero is `+0`. -/
inductive FloatVal (α : Type) where
  | finite (x : α)
  | posInf
  | negInf
  | nan

/-- The range of a binary floating-point format: an exact result of magnitude
`overflow` or more rounds to an infinity, an exact library result of
magnitude `underflow` or less rounds to zero. -/
structure FloatFormat (α : Type) where
  overflow : α
  underflow : α

namespace FloatFormat

/-- The stored result of an arithmetic operation whose exact value is `x`. -/
def round (f : FloatFormat α) (x : α) : FloatVal α :=
  if f.overflow ≤ x then FloatVal.posInf
  else if x ≤ -f.overflow then FloatVal.negInf
  else FloatVal.finite x

/-- The stored result of a library function whose exact value is `x`. -/
def roundLib (f : FloatFormat α) (x : α) : FloatVal α :=
  if |x| ≤ f.underflow then FloatVal.finite 0 else f.round x

end FloatFormat

namespace FloatVal

/-- The function `std::sqrt`. -/
def sqrt (f : FloatFormat α) (sqrtFn : α → α) : FloatVal α → FloatVal α
  | finite x => if x < 0 then nan else f.round (sqrtFn x)
  | posInf => posInf
  | negInf => nan
  | nan => nan

/-- The function `std::exp`. -/
def exp (f : FloatFormat α) (expFn : α → α) : FloatVal α → FloatVal α
  | finite x => f.roundLib (expFn x)
  | posInf => posInf
  | negInf => finite 0
  | nan => nan

/-- The function `std::cos`. -/
def cos (f : FloatFormat α) (cosFn : α → α) : FloatVal α → FloatVal α
  | finite x => f.round (cosFn x)
  | posInf => nan
  | negInf => nan
  | nan => nan

/-- The function `std::log2`. -/
def log2 (f : FloatFormat α) (log2Fn : α → α) : FloatVal α → FloatVal α
  | finite x => if x < 0 then nan else if x = 0 then negInf else f.round (log2Fn x)
  | posInf => posInf
  | negInf => nan
  | nan => nan

/-- The function `std::pow` with a finite base `b > 1`, as in
`std::pow(2.f, x)`. -/
def pow (f : FloatFormat α) (powFn : α → α → α) (b : α) : FloatVal α → FloatVal α
  | finite y => f.roundLib (powFn b y)
  | posInf => posInf
  | negInf => finite 0
  | nan => nan

end FloatVal

/-- A follower as `prepare` leaves it, with attack coefficient `atk`, decay
coefficient `dcy` and tracked level `level`: decay state, Lowpass coefficients
still those of the constructor. -/
def exampleFollower (atk dcy level : α) : EnvelopeFollower α :=
  { params := { sampleRate := 1, atkMs := 0, dcyMs := 0, atk := atk, dcy := dcy }
    buffer := fun _ => 0
    MinDb := 1 / 1000
    envLP := { a0 := 1, b1 := 0, y1 := level, startVal := 0 }
    attackState := false }

/-- A band with a reset resonator with coefficients `(a0, b1, b2) = (3/4, 0,
1/4)`, a fast follower (`envFols[0]`, attack `1/2`, decay `3/4`) and a slow
follower (`envFols[1]`, attack `3/4`, decay `7/8`), both at `level`. -/
def exampleCore (level gain : α) : OnsetCore α :=
  { reso := { fc := 1 / 4, bw := 1 / 4, b2 := 1 / 4, b1 := 0, a0 := 3 / 4, z1 := 0, z2 := 0 }
    envFols := fun i =>
      if i = 0 then exampleFollower (1 / 2) (3 / 4) level
      else exampleFollower (3 / 4) (7 / 8) level
    buffer := OnsetBuffer.construct
    sampleRate := 1
    freqHz := 5000
    bwHz := 5000
    bwPercent := 1
    attack := 1
    decay := 1
    gain := gain }

/-- A detector with one active band, the hold timer at `0`, and the given
follower level, hold length, band gain and threshold. -/
def exampleDetector (level : α) (length : Int) (gain threshold : α) : OnsetDetector α :=
  { buffer := OnsetBuffer.construct
    detectors := fun _ => exampleCore level gain
    strongHold := { sampleRate := 1, lengthD := 0, timer := 0, length := length }
    sampleRate := 1
    lowestPitch := 0
    highestPitch := 0
    threshold := threshold
    tilt := 0
    numBands := 1
    onset := -1
    onsetOut := -1 }

/-- A detector with two active bands, both in the state `prepare` leaves them
in (follower levels `-120`, resonator registers `0`), the hold timer at `0`. -/
def preparedDetector (length : Int) (gain threshold : α) : OnsetDetector α :=
  { exampleDetector (-120) length gain threshold with numBands := 2 }

/-- The example detector with `numBands` active bands, lowest pitch `40` and
highest pitch `100`. -/
def exampleDetectorBands (numBands : Int) : OnsetDetector α :=
  { exampleDetector 0 0 1 1 with numBands := numBands, lowestPitch := 40, highestPitch := 100 }

/-- Example values for the constants of `OnsetAxiom.h` and for the default
arguments of `EnvelopeFollower::Params`: three bands between `100` Hz and
`10000` Hz, `OnsetDecay0Percent = 2`. -/
def exampleConsts : OnsetConsts α :=
  { EnvFolAtkMsDefault := 1
    EnvFolDcyMsDefault := 10
    OnsetAtkDefault := 1
    OnsetDcyDefault := 10
    OnsetHoldDefault := 50
    OnsetLowestFreqHz := 100
    OnsetHighestFreqHz := 10000
    OnsetThresholdDefault := 1
    OnsetTiltDefault := 0
    OnsetNumBandsDefault := 3
    OnsetBandwidthDefault := 0
    OnsetDecay0Percent := 2 }

/-- A block whose sample `0` is `2/375000` and whose other samples are `1`. -/
def rampBlock : Nat → Nat → α :=
  fun _ s => if s = 0 then 2 / 375000 else 1

/-- A block of samples `1`. -/
def constBlock : Nat → Nat → α :=
  fun _ _ => 1

/-- A block of silence. -/
def silentBlock : Nat → Nat → α :=
  fun _ _ => 0

/-- The ramp block followed by a block of ones, two samples each, one
channel. -/
def exampleBlocks : List (Block α) :=
  [{ samples := rampBlock, numChannels := 1, numSamples := 2 },
    { samples := constBlock, numChannels := 1, numSamples := 2 }]

end Model

end dsp

/-! # Theorems -/

namespace dsp

section Lemmas

variable {α : Type} [LinearOrderedField α]

theorem forLoop_succ {σ : Type} (n : Nat) (body : Nat → σ → σ) (init : σ) :
    forLoop (n + 1) body init = body n (forLoop n body init) := rfl

theorem forLoop_zero {σ : Type} (body : Nat → σ → σ) (init : σ) :
    forLoop 0 body init = init := rfl

/-! ## Lowpass -/

theorem Lowpass.coeffInv_setX (lp : Lowpass α) (x : α) : (lp.setX x).CoeffInv := by
  simp [Lowpass.CoeffInv, Lowpass.setX]

theorem Lowpass.coeffInv_makeFromDecayInSamples (exp : α → α) (lp : Lowpass α) (d : α) :
    (Lowpass.makeFromDecayInSamples exp lp d).CoeffInv := by
  unfold Lowpass.makeFromDecayInSamples
  split
  · simp [Lowpass.CoeffInv]
  · exact Lowpass.coeffInv_setX _ _

theorem Lowpass.coeffInv_applyOp (exp : α → α) (lp : Lowpass α) (op : Lowpass.Op α)
    (hlp : lp.CoeffInv) (hop : op.Admissible) : (Lowpass.applyOp exp lp op).CoeffInv := by
  cases op with
  | setX x => exact Lowpass.coeffInv_setX _ _
  | makeFromDecayInSamples d => exact Lowpass.coeffInv_makeFromDecayInSamples _ _ _
  | makeFromDecayInFc fc => exact Lowpass.coeffInv_setX _ _
  | makeFromDecayInHz hz Fs => exact Lowpass.coeffInv_setX _ _
  | makeFromDecayInSecs d Fs => exact Lowpass.coeffInv_makeFromDecayInSamples _ _ _
  | makeFromDecayInMs d Fs => exact Lowpass.coeffInv_makeFromDecayInSamples _ _ _
  | copyCutoffFrom other => exact hop
  | reset => exact hlp
  | resetTo v => exact hlp
  | processSample x0 => exact hlp

theorem Lowpass.iterateSample_succ (lp : Lowpass α) (c : α) (n : Nat) :
    lp.iterateSample c (n + 1) = ((lp.iterateSample c n).processSample c).1 := rfl

theorem Lowpass.iterateSample_coeffs (lp : Lowpass α) (c : α) (n : Nat) :
    (lp.iterateSample c n).a0 = lp.a0 ∧ (lp.iterateSample c n).b1 = lp.b1 := by
  induction n with
  | zero => exact ⟨rfl, rfl⟩
  | succ k ih =>
    rw [Lowpass.iterateSample_succ]
    exact ih

theorem Lowpass.iterateSample_closed_form (lp : Lowpass α) (x c : α) (n : Nat) :
    ((lp.setX x).iterateSample c n).y1 = c + x ^ n * (lp.y1 - c) := by
  induction n with
  | zero => simp [Lowpass.iterateSample, forLoop, Lowpass.setX]
  | succ k ih =>
    rw [Lowpass.iterateSample_succ]
    have hc := Lowpass.iterateSample_coeffs (lp.setX x) c k
    simp only [Lowpass.processSample, hc.1, hc.2, ih]
    simp only [Lowpass.setX]
    ring

/-! ## Resonator -/

theorem distort_mem (y : α) : -1 ≤ distort y ∧ distort y ≤ 1 := by
  unfold distort
  split_ifs with h1 h2
  · constructor <;> norm_num
  · constructor <;> norm_num
  · exact ⟨not_lt.mp h2, not_lt.mp h1⟩

theorem distort_of_mem (y : α) (h1 : -1 ≤ y) (h2 : y ≤ 1) : distort y = y := by
  unfold distort
  rw [if_neg (not_lt.mpr h2), if_neg (not_lt.mpr h1)]

theorem Resonator2.bounded_operatorCall (r : Resonator2 α) (x : α) (h : r.Bounded) :
    (r.operatorCall x).1.Bounded :=
  ⟨distort_mem _, h.1⟩

theorem Resonator2.bounded_run (r : Resonator2 α) (xs : List α) (h : r.Bounded) :
    (r.run xs).1.Bounded := by
  induction xs generalizing r with
  | nil => exact h
  | cons x rest ih => exact ih _ (Resonator2.bounded_operatorCall r x h)

theorem Resonator2.run_outputs_mem (r : Resonator2 α) (xs : List α) :
    ∀ y ∈ (r.run xs).2, -1 ≤ y ∧ y ≤ 1 := by
  induction xs generalizing r with
  | nil => intro y hy; simp [Resonator2.run] at hy
  | cons x rest ih =>
    intro y hy
    simp only [Resonator2.run, List.mem_cons] at hy
    rcases hy with h | h
    · rw [h]; exact distort_mem _
    · exact ih _ y h

/-! ## The sample loop of the detector -/

theorem forLoop_induction {σ : Type} (P : σ → Prop) (n : Nat) (body : Nat → σ → σ) (init : σ)
    (h0 : P init) (hstep : ∀ i st, P st → P (body i st)) : P (forLoop n body init) := by
  induction n with
  | zero => exact h0
  | succ k ih => exact hstep k _ ih

/-- The members that the band loop of a sample leaves unchanged. -/
theorem OnsetDetector.sumBands_frame (d : OnsetDetector α) (s : Nat) :
    (d.sumBands s).1.strongHold = d.strongHold ∧ (d.sumBands s).1.threshold = d.threshold
      ∧ (d.sumBands s).1.numBands = d.numBands ∧ (d.sumBands s).1.onset = d.onset := by
  unfold OnsetDetector.sumBands
  exact forLoop_induction
    (fun acc : OnsetDetector α × α => acc.1.strongHold = d.strongHold
      ∧ acc.1.threshold = d.threshold ∧ acc.1.numBands = d.numBands ∧ acc.1.onset = d.onset)
    _ _ _ ⟨rfl, rfl, rfl, rfl⟩ (fun i st h => h)

theorem OnsetDetector.sampleStep_length (sqrt : α → α) (d : OnsetDetector α) (s : Nat) :
    (d.sampleStep sqrt s).strongHold.length = d.strongHold.length := by
  have hf := d.sumBands_frame s
  unfold OnsetDetector.sampleStep
  simp only []
  split_ifs <;> simp [OnsetStrongHold.reset, hf.1]

theorem OnsetDetector.sampleStep_threshold (sqrt : α → α) (d : OnsetDetector α) (s : Nat) :
    (d.sampleStep sqrt s).threshold = d.threshold := by
  have hf := d.sumBands_frame s
  unfold OnsetDetector.sampleStep
  simp only []
  split_ifs <;> simp [hf.2.1]

/-- The timer after one sample: reset when the strength exceeds the
threshold, unchanged otherwise. -/
theorem OnsetDetector.sampleStep_timer (sqrt : α → α) (d : OnsetDetector α) (s : Nat) :
    (d.sampleStep sqrt s).strongHold.timer
      = if d.strength sqrt s > d.threshold then 0 else d.strongHold.timer := by
  have hf := d.sumBands_frame s
  unfold OnsetDetector.sampleStep OnsetDetector.strength
  simp only [hf.2.1]
  split_ifs <;> simp [OnsetStrongHold.reset, hf.1]

/-- The onset index after one sample: `s` when the strength exceeds the
threshold while the gate is open, unchanged otherwise. -/
theorem OnsetDetector.sampleStep_onset (sqrt : α → α) (d : OnsetDetector α) (s : Nat) :
    (d.sampleStep sqrt s).onset
      = if d.strength sqrt s > d.threshold ∧ d.strongHold.youShallPass = true then (s : Int)
        else d.onset := by
  have hf := d.sumBands_frame s
  unfold OnsetDetector.sampleStep OnsetDetector.strength
  simp only [hf.2.1, hf.1]
  by_cases h1 : sqrt ((d.sumBands s).2 / ((d.sumBands s).1.numBands : α)) > d.threshold
  · by_cases h2 : d.strongHold.youShallPass = true
    · simp [h1, h2]
    · simp [h1, h2, hf.2.2.2]
  · simp [h1, hf.2.2.2]

theorem OnsetDetector.detect_succ (sqrt : α → α) (a : OnsetDetector α) (m : Nat) :
    a.detect sqrt (m + 1) = (a.detect sqrt m).sampleStep sqrt m := rfl

theorem OnsetDetector.detect_length (sqrt : α → α) (a : OnsetDetector α) (m : Nat) :
    (a.detect sqrt m).strongHold.length = a.strongHold.length := by
  induction m with
  | zero => rfl
  | succ k ih => rw [OnsetDetector.detect_succ, OnsetDetector.sampleStep_length, ih]

theorem OnsetDetector.detect_onset_succ (sqrt : α → α) (a : OnsetDetector α) (m : Nat) :
    (a.detect sqrt (m + 1)).onset = if a.QualifiesAt sqrt m then (m : Int)
      else (a.detect sqrt m).onset := by
  rw [OnsetDetector.detect_succ, OnsetDetector.sampleStep_onset]
  rfl

theorem OnsetDetector.detect_timer_succ (sqrt : α → α) (a : OnsetDetector α) (m : Nat) :
    (a.detect sqrt (m + 1)).strongHold.timer
      = if (a.detect sqrt m).strength sqrt m > (a.detect sqrt m).threshold then 0
        else (a.detect sqrt m).strongHold.timer := by
  rw [OnsetDetector.detect_succ, OnsetDetector.sampleStep_timer]

/-- During the sample loop the timer is the one the loop started with, or it
has been reset. -/
theorem OnsetDetector.detect_timer_cases (sqrt : α → α) (a : OnsetDetector α) (m : Nat) :
    (a.detect sqrt m).strongHold.timer = a.strongHold.timer
      ∨ (a.detect sqrt m).strongHold.timer = 0 := by
  induction m with
  | zero => exact Or.inl rfl
  | succ k ih =>
    rw [OnsetDetector.detect_timer_succ]
    split_ifs
    · exact Or.inr rfl
    · exact ih

/-- Once a sample has exceeded the threshold the timer is `0` for the rest of
the loop. -/
theorem OnsetDetector.detect_timer_zero_of_above (sqrt : α → α) (a : OnsetDetector α)
    (t m : Nat) (htm : t < m)
    (habove : (a.detect sqrt t).strength sqrt t > (a.detect sqrt t).threshold) :
    (a.detect sqrt m).strongHold.timer = 0 := by
  induction m with
  | zero => exact absurd htm (Nat.not_lt_zero _)
  | succ k ih =>
    rw [OnsetDetector.detect_timer_succ]
    split_ifs with h
    · rfl
    · rcases Nat.lt_succ_iff_lt_or_eq.mp htm with h1 | h1
      · exact ih h1
      · subst h1
        exact absurd habove h

/-- With a hold length of at least one sample, at most one sample of a block
qualifies. -/
theorem OnsetDetector.qualifiesAt_unique (sqrt : α → α) (a : OnsetDetector α)
    (hlen : 1 ≤ a.strongHold.length) (s t : Nat) (hs : a.QualifiesAt sqrt s)
    (ht : a.QualifiesAt sqrt t) : s = t := by
  have key : ∀ u v : Nat, u < v → a.QualifiesAt sqrt u → a.QualifiesAt sqrt v → False := by
    intro u v huv hu hv
    have h0 := OnsetDetector.detect_timer_zero_of_above sqrt a u v huv hu.1
    have hl := OnsetDetector.detect_length sqrt a v
    have hp := hv.2
    simp only [OnsetStrongHold.youShallPass, OnsetStrongHold.youShallNotPass, h0, hl,
      Bool.not_eq_true', decide_eq_false_iff_not, not_lt] at hp
    omega
  rcases Nat.lt_trichotomy s t with h | h | h
  · exact (key s t h hs ht).elim
  · exact h
  · exact (key t s h ht hs).elim

/-- The onset index after `m` samples is the last qualifying sample below `m`,
or the initial one when there is none. -/
theorem OnsetDetector.detect_onset_none (sqrt : α → α) (a : OnsetDetector α) (m : Nat)
    (hnone : ∀ s, s < m → ¬ a.QualifiesAt sqrt s) : (a.detect sqrt m).onset = a.onset := by
  induction m with
  | zero => rfl
  | succ k ih =>
    rw [OnsetDetector.detect_onset_succ, if_neg (hnone k (Nat.lt_succ_self k))]
    exact ih (fun s hs => hnone s (Nat.lt_succ_of_lt hs))

theorem OnsetDetector.detect_onset_last (sqrt : α → α) (a : OnsetDetector α) (m s : Nat)
    (hs : s < m) (hq : a.QualifiesAt sqrt s)
    (hlater : ∀ t, s < t → t < m → ¬ a.QualifiesAt sqrt t) : (a.detect sqrt m).onset = s := by
  induction m with
  | zero => exact absurd hs (Nat.not_lt_zero _)
  | succ k ih =>
    rw [OnsetDetector.detect_onset_succ]
    rcases Nat.lt_succ_iff_lt_or_eq.mp hs with h1 | h1
    · rw [if_neg (hlater k h1 (Nat.lt_succ_self k))]
      exact ih h1 (fun t h2 h3 => hlater t h2 (Nat.lt_succ_of_lt h3))
    · subst h1
      rw [if_pos hq]

/-- The members of the detector that `analyse` sets or keeps. -/
theorem OnsetDetector.analyse_frame (d : OnsetDetector α) (samples : Nat → Nat → α)
    (numChannels : Int) (numSamples : Nat) :
    (d.analyse samples numChannels numSamples).onset = -1
      ∧ (d.analyse samples numChannels numSamples).strongHold.timer
          = d.strongHold.timer + numSamples
      ∧ (d.analyse samples numChannels numSamples).strongHold.length = d.strongHold.length
      ∧ (d.analyse samples numChannels numSamples).threshold = d.threshold
      ∧ (d.analyse samples numChannels numSamples).numBands = d.numBands := by
  unfold OnsetDetector.analyse
  exact forLoop_induction
    (fun st : OnsetDetector α => st.onset = -1
      ∧ st.strongHold.timer = d.strongHold.timer + numSamples
      ∧ st.strongHold.length = d.strongHold.length ∧ st.threshold = d.threshold
      ∧ st.numBands = d.numBands)
    _ _ _ ⟨rfl, rfl, rfl, rfl, rfl⟩ (fun i st h => h)

/-- What the sample loop has done to the onset index and the timer after `m`
samples: nothing to the onset index, or an onset below `m` was accepted
with the gate open, after which the timer is `0`. -/
theorem OnsetDetector.detect_onset_cases (sqrt : α → α) (a : OnsetDetector α) (m : Nat) :
    (a.detect sqrt m).onset = a.onset
      ∨ (0 ≤ (a.detect sqrt m).onset ∧ (a.detect sqrt m).onset < m
          ∧ (a.detect sqrt m).strongHold.timer = 0
          ∧ (a.strongHold.length ≤ a.strongHold.timer ∨ a.strongHold.length ≤ 0)) := by
  induction m with
  | zero => exact Or.inl rfl
  | succ k ih =>
    rw [OnsetDetector.detect_onset_succ, OnsetDetector.detect_timer_succ]
    by_cases hq : a.QualifiesAt sqrt k
    · right
      rw [if_pos hq, if_pos hq.1]
      refine ⟨by omega, by push_cast; omega, rfl, ?_⟩
      have hp := hq.2
      have hl := OnsetDetector.detect_length sqrt a k
      simp only [OnsetStrongHold.youShallPass, OnsetStrongHold.youShallNotPass, hl,
        Bool.not_eq_true', decide_eq_false_iff_not, not_lt] at hp
      rcases OnsetDetector.detect_timer_cases sqrt a k with h | h
      · left; omega
      · right; omega
    · rw [if_neg hq]
      rcases ih with h | ⟨h1, h2, h3, h4⟩
      · exact Or.inl h
      · right
        refine ⟨h1, by push_cast; omega, ?_, h4⟩
        split_ifs
        · rfl
        · exact h3

theorem OnsetDetector.operatorCall_length (sqrt : α → α) (d : OnsetDetector α)
    (samples : Nat → Nat → α) (numChannels : Int) (numSamples : Nat) :
    (d.operatorCall sqrt samples numChannels numSamples).strongHold.length
      = d.strongHold.length := by
  unfold OnsetDetector.operatorCall
  rw [OnsetDetector.detect_length, (d.analyse_frame samples numChannels numSamples).2.2.1]

/-- After a block the timer is `0` or the timer before the block plus the
block size. -/
theorem OnsetDetector.operatorCall_timer_cases (sqrt : α → α) (d : OnsetDetector α)
    (samples : Nat → Nat → α) (numChannels : Int) (numSamples : Nat) :
    (d.operatorCall sqrt samples numChannels numSamples).strongHold.timer
        = d.strongHold.timer + numSamples
      ∨ (d.operatorCall sqrt samples numChannels numSamples).strongHold.timer = 0 := by
  unfold OnsetDetector.operatorCall
  rcases OnsetDetector.detect_timer_cases sqrt (d.analyse samples numChannels numSamples)
    numSamples with h | h
  · left; rw [h, (d.analyse_frame samples numChannels numSamples).2.1]
  · exact Or.inr h

/-- A block reports no onset, or an index of the block; in the second case the
timer is `0` afterwards and the gate was open for the block. -/
theorem OnsetDetector.operatorCall_onset_cases (sqrt : α → α) (d : OnsetDetector α)
    (samples : Nat → Nat → α) (numChannels : Int) (numSamples : Nat) :
    (d.operatorCall sqrt samples numChannels numSamples).onset = -1
      ∨ (0 ≤ (d.operatorCall sqrt samples numChannels numSamples).onset
          ∧ (d.operatorCall sqrt samples numChannels numSamples).onset < numSamples
          ∧ (d.operatorCall sqrt samples numChannels numSamples).strongHold.timer = 0
          ∧ (d.strongHold.length ≤ d.strongHold.timer + numSamples
              ∨ d.strongHold.length ≤ 0)) := by
  have hf := d.analyse_frame samples numChannels numSamples
  unfold OnsetDetector.operatorCall
  rcases OnsetDetector.detect_onset_cases sqrt (d.analyse samples numChannels numSamples)
    numSamples with h | h
  · left; rw [h, hf.1]
  · right
    rw [hf.2.1, hf.2.2.1] at h
    exact h

theorem OnsetDetector.processBlocks_take_succ (sqrt : α → α) (d : OnsetDetector α)
    (blocks : List (Block α)) (k : Nat) (hk : k < blocks.length) :
    d.processBlocks sqrt (blocks.take (k + 1))
      = (d.processBlocks sqrt (blocks.take k)).operatorCall sqrt blocks[k].samples
          blocks[k].numChannels blocks[k].numSamples := by
  unfold OnsetDetector.processBlocks
  rw [← List.take_concat_get' blocks k hk, List.foldl_append]
  rfl

omit [LinearOrderedField α] in
theorem blockStart_succ (blocks : List (Block α)) (k : Nat) (hk : k < blocks.length) :
    blockStart blocks (k + 1) = blockStart blocks k + blocks[k].numSamples := by
  unfold blockStart
  rw [← List.take_concat_get' blocks k hk]
  simp only [List.map_append, List.sum_append, List.map_cons, List.map_nil, List.sum_cons,
    List.sum_nil, Nat.cast_add, add_zero]

omit [LinearOrderedField α] in
theorem blockStart_mono (blocks : List (Block α)) (i j : Nat) (hij : i ≤ j)
    (hj : j ≤ blocks.length) : blockStart blocks i ≤ blockStart blocks j := by
  induction j with
  | zero =>
    have : i = 0 := Nat.le_zero.mp hij
    rw [this]
  | succ k ih =>
    rcases Nat.lt_or_ge i (k + 1) with h | h
    · have h1 := ih (Nat.lt_succ_iff.mp h) (Nat.le_of_succ_le hj)
      rw [blockStart_succ blocks k hj]
      omega
    · have : i = k + 1 := Nat.le_antisymm hij h
      rw [this]

theorem OnsetDetector.processBlocks_length (sqrt : α → α) (d : OnsetDetector α)
    (blocks : List (Block α)) :
    (d.processBlocks sqrt blocks).strongHold.length = d.strongHold.length := by
  unfold OnsetDetector.processBlocks
  induction blocks generalizing d with
  | nil => rfl
  | cons b rest ih =>
    rw [List.foldl_cons, ih, OnsetDetector.operatorCall_length]

/-- After an onset in block `i`, the timer after `k > i` blocks is at most the
number of samples of the blocks `i+1 .. k-1`. -/
theorem OnsetDetector.timer_le_since_onset (sqrt : α → α) (d : OnsetDetector α)
    (blocks : List (Block α)) (i : Nat)
    (hon : d.onsetOfBlock sqrt blocks i ≠ -1) (k : Nat) (hik : i + 1 ≤ k)
    (hk : k ≤ blocks.length) :
    (d.processBlocks sqrt (blocks.take k)).strongHold.timer
      ≤ blockStart blocks k - blockStart blocks (i + 1) := by
  induction k with
  | zero => omega
  | succ n ih =>
    rcases Nat.lt_or_ge i n with h | h
    · have h1 := ih h (Nat.le_of_succ_le hk)
      have hm := blockStart_mono blocks (i + 1) n h (Nat.le_of_succ_le hk)
      rw [OnsetDetector.processBlocks_take_succ sqrt d blocks n hk, blockStart_succ blocks n hk]
      rcases OnsetDetector.operatorCall_timer_cases sqrt (d.processBlocks sqrt (blocks.take n))
        blocks[n].samples blocks[n].numChannels blocks[n].numSamples with h2 | h2
      · rw [h2]; omega
      · rw [h2]; omega
    · have hin : i = n := by omega
      subst hin
      unfold OnsetDetector.onsetOfBlock at hon
      rw [OnsetDetector.processBlocks_take_succ sqrt d blocks i hk] at hon ⊢
      rcases OnsetDetector.operatorCall_onset_cases sqrt (d.processBlocks sqrt (blocks.take i))
        blocks[i].samples blocks[i].numChannels blocks[i].numSamples with h2 | h2
      · exact absurd h2 hon
      · rw [h2.2.2.1]; omega

/-! ## The strength signal -/

theorem OnsetCore.SameStrength.strengthAt_eq {c c' : OnsetCore α} (h : c.SameStrength c')
    (s : Nat) : c.strengthAt s = c'.strengthAt s := by
  unfold OnsetCore.SameStrength at h
  rw [h]
  rfl

omit [LinearOrderedField α] in
theorem OnsetCore.SameStrength.trans {c c' c'' : OnsetCore α} (h : c.SameStrength c')
    (h' : c'.SameStrength c'') : c.SameStrength c'' := by
  unfold OnsetCore.SameStrength at h h' ⊢
  cases c
  cases c'
  cases c''
  simp only [OnsetCore.mk.injEq] at h h' ⊢
  obtain ⟨h1, h2, _, h4, h5, h6, h7, h8, h9, h10⟩ := h
  obtain ⟨g1, g2, _, g4, g5, g6, g7, g8, g9, g10⟩ := h'
  exact ⟨h1.trans g1, h2.trans g2, trivial, h4.trans g4, h5.trans g5, h6.trans g6, h7.trans g7,
    h8.trans g8, h9.trans g9, h10.trans g10⟩

theorem OnsetDetector.bandStep_sameStrength (s i : Nat) (acc : OnsetDetector α × α)
    (j : Nat) : ((OnsetDetector.bandStep s i acc).1.detectors j).SameStrength
      (acc.1.detectors j) := by
  unfold OnsetDetector.bandStep
  by_cases hj : j = i
  · subst hj
    simp only [Function.update_same]
    rfl
  · simp only [Function.update_noteq hj]
    rfl

theorem OnsetDetector.bandStep_snd (s i : Nat) (acc : OnsetDetector α × α) :
    (OnsetDetector.bandStep s i acc).2 = acc.2 + (acc.1.detectors i).strengthAt s := by
  simp [OnsetDetector.bandStep, OnsetCore.get, OnsetCore.processSample, OnsetBuffer.get,
    OnsetBuffer.set]

/-- The band loop of a sample changes nothing but the bands' own buffers, and
accumulates the sum of the band strengths. -/
theorem OnsetDetector.sumBands_loop (d : OnsetDetector α) (s n : Nat) :
    (∀ j, ((forLoop n (OnsetDetector.bandStep s) (d, 0)).1.detectors j).SameStrength
          (d.detectors j))
      ∧ (forLoop n (OnsetDetector.bandStep s) (d, 0)).2
        = forLoop n (fun i acc => acc + (d.detectors i).strengthAt s) 0 := by
  induction n with
  | zero => exact ⟨fun j => rfl, rfl⟩
  | succ k ih =>
    obtain ⟨ih1, ih2⟩ := ih
    rw [forLoop_succ, forLoop_succ]
    constructor
    · intro j
      exact (OnsetDetector.bandStep_sameStrength s k
        (forLoop k (OnsetDetector.bandStep s) (d, 0)) j).trans (ih1 j)
    · rw [OnsetDetector.bandStep_snd, ih2, (ih1 k).strengthAt_eq s]

theorem OnsetDetector.sumBands_snd (d : OnsetDetector α) (s : Nat) :
    (d.sumBands s).2 = d.bandSum s :=
  (OnsetDetector.sumBands_loop d s d.numBands.toNat).2

theorem OnsetDetector.sumBands_sameStrength (d : OnsetDetector α) (s j : Nat) :
    ((d.sumBands s).1.detectors j).SameStrength (d.detectors j) :=
  (OnsetDetector.sumBands_loop d s d.numBands.toNat).1 j

theorem OnsetDetector.strength_eq (sqrt : α → α) (d : OnsetDetector α) (s : Nat) :
    d.strength sqrt s = sqrt (d.bandSum s / (d.numBands : α)) := by
  unfold OnsetDetector.strength
  simp only [OnsetDetector.sumBands_snd, (d.sumBands_frame s).2.2.1]

theorem OnsetDetector.sampleStep_numBands (sqrt : α → α) (d : OnsetDetector α) (s : Nat) :
    (d.sampleStep sqrt s).numBands = d.numBands := by
  have hf := d.sumBands_frame s
  unfold OnsetDetector.sampleStep
  simp only []
  split_ifs <;> simp [hf.2.2.1]

theorem OnsetDetector.sampleStep_sameStrength (sqrt : α → α) (d : OnsetDetector α)
    (s j : Nat) : ((d.sampleStep sqrt s).detectors j).SameStrength (d.detectors j) := by
  have hf := d.sumBands_sameStrength s j
  unfold OnsetDetector.sampleStep
  simp only []
  split_ifs <;> exact hf

theorem OnsetDetector.detect_numBands (sqrt : α → α) (a : OnsetDetector α) (m : Nat) :
    (a.detect sqrt m).numBands = a.numBands := by
  induction m with
  | zero => rfl
  | succ k ih => rw [OnsetDetector.detect_succ, OnsetDetector.sampleStep_numBands, ih]

theorem OnsetDetector.detect_threshold (sqrt : α → α) (a : OnsetDetector α) (m : Nat) :
    (a.detect sqrt m).threshold = a.threshold := by
  induction m with
  | zero => rfl
  | succ k ih => rw [OnsetDetector.detect_succ, OnsetDetector.sampleStep_threshold, ih]

theorem OnsetDetector.detect_sameStrength (sqrt : α → α) (a : OnsetDetector α) (m j : Nat) :
    ((a.detect sqrt m).detectors j).SameStrength (a.detectors j) := by
  induction m with
  | zero => rfl
  | succ k ih =>
    rw [OnsetDetector.detect_succ]
    exact (OnsetDetector.sampleStep_sameStrength sqrt (a.detect sqrt k) k j).trans ih

theorem OnsetDetector.bandSum_congr (d d' : OnsetDetector α) (hn : d.numBands = d'.numBands)
    (hs : ∀ j, (d.detectors j).SameStrength (d'.detectors j)) (s : Nat) :
    d.bandSum s = d'.bandSum s := by
  unfold OnsetDetector.bandSum
  rw [hn]
  congr 1
  funext i acc
  rw [(hs i).strengthAt_eq s]

/-- The strength at sample `s` is the same in every state of the sample
loop. -/
theorem OnsetDetector.detect_strength (sqrt : α → α) (a : OnsetDetector α) (m s : Nat) :
    (a.detect sqrt m).strength sqrt s = a.strength sqrt s := by
  rw [OnsetDetector.strength_eq, OnsetDetector.strength_eq,
    OnsetDetector.bandSum_congr _ a (OnsetDetector.detect_numBands sqrt a m)
      (OnsetDetector.detect_sameStrength sqrt a m) s,
    OnsetDetector.detect_numBands]

/-- Sample `s` qualifies iff the strength of the analysed block exceeds the
threshold and the timer, as the loop has left it, is at least the hold
length. -/
theorem OnsetDetector.qualifiesAt_iff (sqrt : α → α) (a : OnsetDetector α) (s : Nat) :
    a.QualifiesAt sqrt s ↔ (a.threshold < a.strength sqrt s
      ∧ a.strongHold.length ≤ (a.detect sqrt s).strongHold.timer) := by
  unfold OnsetDetector.QualifiesAt
  rw [OnsetDetector.detect_strength, OnsetDetector.detect_threshold]
  simp [OnsetStrongHold.youShallPass, OnsetStrongHold.youShallNotPass,
    OnsetDetector.detect_length]

theorem OnsetDetector.detect_timer_succ' (sqrt : α → α) (a : OnsetDetector α) (m : Nat) :
    (a.detect sqrt (m + 1)).strongHold.timer
      = if a.threshold < a.strength sqrt m then 0 else (a.detect sqrt m).strongHold.timer := by
  rw [OnsetDetector.detect_timer_succ, OnsetDetector.detect_strength,
    OnsetDetector.detect_threshold]

/-! ## Envelope follower steps without recursion -/

theorem EnvelopeFollower.processAttack_eq (e : EnvelopeFollower α) (s0 s1 : α) :
    e.processAttack s0 s1 = if s0 ≤ s1 then
      ({ e with envLP := (e.envLP.operatorCall s1).1 }, (e.envLP.operatorCall s1).2)
    else
      ({ e with attackState := false, envLP := ((e.envLP.setX e.params.dcy).operatorCall s1).1 },
        ((e.envLP.setX e.params.dcy).operatorCall s1).2) := by
  rw [EnvelopeFollower.processAttack]
  split_ifs with h
  · rfl
  · rw [EnvelopeFollower.processDecay, dif_pos (not_le.mp h).le]

theorem EnvelopeFollower.processDecay_eq (e : EnvelopeFollower α) (s0 s1 : α) :
    e.processDecay s0 s1 = if s1 ≤ s0 then
      ({ e with envLP := (e.envLP.operatorCall s1).1 }, (e.envLP.operatorCall s1).2)
    else
      ({ e with attackState := true, envLP := ((e.envLP.setX e.params.atk).operatorCall s1).1 },
        ((e.envLP.setX e.params.atk).operatorCall s1).2) := by
  rw [EnvelopeFollower.processDecay]
  split_ifs with h
  · rfl
  · rw [EnvelopeFollower.processAttack, dif_pos (not_le.mp h).le]

/-! ## Blocks of one and two samples -/

theorem OnsetDetector.strength_single_band (sqrt : α → α) (a : OnsetDetector α) (s : Nat)
    (hn : a.numBands = 1) : a.strength sqrt s = sqrt ((a.detectors 0).strengthAt s) := by
  rw [OnsetDetector.strength_eq]
  unfold OnsetDetector.bandSum
  rw [hn]
  simp [forLoop]

theorem OnsetDetector.operatorCall_threshold (sqrt : α → α) (d : OnsetDetector α)
    (samples : Nat → Nat → α) (numChannels : Int) (numSamples : Nat) :
    (d.operatorCall sqrt samples numChannels numSamples).threshold = d.threshold := by
  unfold OnsetDetector.operatorCall
  rw [OnsetDetector.detect_threshold, (d.analyse_frame samples numChannels numSamples).2.2.2.1]

theorem OnsetDetector.operatorCall_numBands (sqrt : α → α) (d : OnsetDetector α)
    (samples : Nat → Nat → α) (numChannels : Int) (numSamples : Nat) :
    (d.operatorCall sqrt samples numChannels numSamples).numBands = d.numBands := by
  unfold OnsetDetector.operatorCall
  rw [OnsetDetector.detect_numBands, (d.analyse_frame samples numChannels numSamples).2.2.2.2]

/-- The onset index and the timer after a block of one sample. -/
theorem OnsetDetector.operatorCall_one (sqrt : α → α) (d : OnsetDetector α)
    (samples : Nat → Nat → α) (numChannels : Int) :
    (d.operatorCall sqrt samples numChannels 1).onset
        = (if d.threshold < (d.analyse samples numChannels 1).strength sqrt 0
              ∧ d.strongHold.length ≤ d.strongHold.timer + 1 then 0 else -1)
      ∧ (d.operatorCall sqrt samples numChannels 1).strongHold.timer
        = (if d.threshold < (d.analyse samples numChannels 1).strength sqrt 0 then 0
            else d.strongHold.timer + 1) := by
  have hf := d.analyse_frame samples numChannels 1
  unfold OnsetDetector.operatorCall
  rw [OnsetDetector.detect_onset_succ, OnsetDetector.detect_timer_succ']
  simp only [OnsetDetector.qualifiesAt_iff]
  have h0 : (d.analyse samples numChannels 1).detect sqrt 0 = d.analyse samples numChannels 1 :=
    rfl
  rw [h0, hf.1, hf.2.1, hf.2.2.1, hf.2.2.2.1]
  simp

/-- The onset index and the timer after a block of two samples. -/
theorem OnsetDetector.operatorCall_two (sqrt : α → α) (d : OnsetDetector α)
    (samples : Nat → Nat → α) (numChannels : Int) :
    (d.operatorCall sqrt samples numChannels 2).onset
        = (if d.threshold < (d.analyse samples numChannels 2).strength sqrt 1
              ∧ d.strongHold.length
                ≤ (if d.threshold < (d.analyse samples numChannels 2).strength sqrt 0 then 0
                    else d.strongHold.timer + 2) then 1
            else if d.threshold < (d.analyse samples numChannels 2).strength sqrt 0
              ∧ d.strongHold.length ≤ d.strongHold.timer + 2 then 0 else -1)
      ∧ (d.operatorCall sqrt samples numChannels 2).strongHold.timer
        = (if d.threshold < (d.analyse samples numChannels 2).strength sqrt 1 then 0
            else if d.threshold < (d.analyse samples numChannels 2).strength sqrt 0 then 0
            else d.strongHold.timer + 2) := by
  have hf := d.analyse_frame samples numChannels 2
  unfold OnsetDetector.operatorCall
  rw [OnsetDetector.detect_onset_succ, OnsetDetector.detect_onset_succ,
    OnsetDetector.detect_timer_succ', OnsetDetector.detect_timer_succ']
  simp only [OnsetDetector.qualifiesAt_iff, OnsetDetector.detect_timer_succ']
  have h0 : (d.analyse samples numChannels 2).detect sqrt 0 = d.analyse samples numChannels 2 :=
    rfl
  rw [h0, hf.1, hf.2.1, hf.2.2.1, hf.2.2.2.1]
  simp

/-! ## The example detector on concrete blocks -/

/-- The band strengths of the example detector on the ramp block. -/
theorem example_ramp_strength (length : Int) (gain threshold : α) :
    (((exampleDetector 0 length gain threshold).analyse rampBlock 1 2).detectors 0).strengthAt 0
        = gain
      ∧ (((exampleDetector 0 length gain threshold).analyse rampBlock 1 2).detectors 0).strengthAt 1
        = gain * (375001 / 1000000) / (750007 / 4000000) := by
  constructor
  · norm_num [OnsetDetector.analyse, OnsetDetector.analyseInit, OnsetDetector.analyseStep,
    exampleDetector, forLoop,
    OnsetStrongHold.operatorCall, OnsetBuffer.copyFromMid, OnsetBuffer.rectify, OnsetBuffer.set,
    OnsetBuffer.get, OnsetCore.copyFrom, OnsetBuffer.copyFrom, OnsetCore.resonate,
    OnsetCore.synthesizeEnvelopeFollowers, exampleCore, Resonator2.operatorCall, distort,
    EnvelopeFollower.operatorCall, EnvelopeFollower.rectify, EnvelopeFollower.synthesizeEnvelope,
    EnvelopeFollower.synthesizeStep, exampleFollower, OnsetBuffer.construct,
    EnvelopeFollower.processDecay_eq, EnvelopeFollower.processAttack_eq, Lowpass.operatorCall,
    Lowpass.processSample, Lowpass.setX, OnsetCore.strengthAt, EnvelopeFollower.get, rampBlock,
    constBlock, silentBlock, abs_div, abs_mul]
  · norm_num [OnsetDetector.analyse, OnsetDetector.analyseInit, OnsetDetector.analyseStep,
    exampleDetector, forLoop,
    OnsetStrongHold.operatorCall, OnsetBuffer.copyFromMid, OnsetBuffer.rectify, OnsetBuffer.set,
    OnsetBuffer.get, OnsetCore.copyFrom, OnsetBuffer.copyFrom, OnsetCore.resonate,
    OnsetCore.synthesizeEnvelopeFollowers, exampleCore, Resonator2.operatorCall, distort,
    EnvelopeFollower.operatorCall, EnvelopeFollower.rectify, EnvelopeFollower.synthesizeEnvelope,
    EnvelopeFollower.synthesizeStep, exampleFollower, OnsetBuffer.construct,
    EnvelopeFollower.processDecay_eq, EnvelopeFollower.processAttack_eq, Lowpass.operatorCall,
    Lowpass.processSample, Lowpass.setX, OnsetCore.strengthAt, EnvelopeFollower.get, rampBlock,
    constBlock, silentBlock, abs_div, abs_mul]

/-- The band strength at sample `0` of a block of ones that follows the ramp
block. -/
theorem example_second_strength (length : Int) (gain threshold : α) (d1 : OnsetDetector α)
    (hn : d1.numBands = 1)
    (hs : (d1.detectors 0).SameStrength
      (((exampleDetector 0 length gain threshold).analyse rampBlock 1 2).detectors 0)) :
    ((d1.analyse constBlock 1 2).detectors 0).strengthAt 0
      = gain * (9 / 16) / (21 / 64 + 21 / 16000000) := by
  unfold OnsetCore.SameStrength at hs
  generalize (d1.detectors 0).buffer = B at hs
  norm_num [hn, hs, OnsetDetector.analyse, OnsetDetector.analyseInit, OnsetDetector.analyseStep,
    exampleDetector, forLoop,
    OnsetStrongHold.operatorCall, OnsetBuffer.copyFromMid, OnsetBuffer.rectify, OnsetBuffer.set,
    OnsetBuffer.get, OnsetCore.copyFrom, OnsetBuffer.copyFrom, OnsetCore.resonate,
    OnsetCore.synthesizeEnvelopeFollowers, exampleCore, Resonator2.operatorCall, distort,
    EnvelopeFollower.operatorCall, EnvelopeFollower.rectify, EnvelopeFollower.synthesizeEnvelope,
    EnvelopeFollower.synthesizeStep, exampleFollower, OnsetBuffer.construct,
    EnvelopeFollower.processDecay_eq, EnvelopeFollower.processAttack_eq, Lowpass.operatorCall,
    Lowpass.processSample, Lowpass.setX, OnsetCore.strengthAt, EnvelopeFollower.get, rampBlock,
    constBlock, silentBlock, abs_div, abs_mul]

/-- The strength of both bands of the prepared detector on one sample of
silence. -/
theorem prepared_silence_strength (length : Int) (gain threshold : α) :
    ((((preparedDetector length gain threshold).analyse silentBlock 1 1).detectors
        0).strengthAt 0 = gain * (-60) / (-90 + 1 / 1000000))
      ∧ ((((preparedDetector length gain threshold).analyse silentBlock 1 1).detectors
        1).strengthAt 0 = gain * (-60) / (-90 + 1 / 1000000)) := by
  constructor
  · norm_num [preparedDetector, OnsetDetector.analyse, OnsetDetector.analyseInit, OnsetDetector.analyseStep,
    exampleDetector, forLoop,
    OnsetStrongHold.operatorCall, OnsetBuffer.copyFromMid, OnsetBuffer.rectify, OnsetBuffer.set,
    OnsetBuffer.get, OnsetCore.copyFrom, OnsetBuffer.copyFrom, OnsetCore.resonate,
    OnsetCore.synthesizeEnvelopeFollowers, exampleCore, Resonator2.operatorCall, distort,
    EnvelopeFollower.operatorCall, EnvelopeFollower.rectify, EnvelopeFollower.synthesizeEnvelope,
    EnvelopeFollower.synthesizeStep, exampleFollower, OnsetBuffer.construct,
    EnvelopeFollower.processDecay_eq, EnvelopeFollower.processAttack_eq, Lowpass.operatorCall,
    Lowpass.processSample, Lowpass.setX, OnsetCore.strengthAt, EnvelopeFollower.get, rampBlock,
    constBlock, silentBlock, abs_div, abs_mul]
  · norm_num [preparedDetector, OnsetDetector.analyse, OnsetDetector.analyseInit, OnsetDetector.analyseStep,
    exampleDetector, forLoop,
    OnsetStrongHold.operatorCall, OnsetBuffer.copyFromMid, OnsetBuffer.rectify, OnsetBuffer.set,
    OnsetBuffer.get, OnsetCore.copyFrom, OnsetBuffer.copyFrom, OnsetCore.resonate,
    OnsetCore.synthesizeEnvelopeFollowers, exampleCore, Resonator2.operatorCall, distort,
    EnvelopeFollower.operatorCall, EnvelopeFollower.rectify, EnvelopeFollower.synthesizeEnvelope,
    EnvelopeFollower.synthesizeStep, exampleFollower, OnsetBuffer.construct,
    EnvelopeFollower.processDecay_eq, EnvelopeFollower.processAttack_eq, Lowpass.operatorCall,
    Lowpass.processSample, Lowpass.setX, OnsetCore.strengthAt, EnvelopeFollower.get, rampBlock,
    constBlock, silentBlock, abs_div, abs_mul]

theorem OnsetDetector.strength_two_bands (sqrt : α → α) (a : OnsetDetector α) (s : Nat)
    (hn : a.numBands = 2)
    (h : (a.detectors 1).strengthAt s = (a.detectors 0).strengthAt s) :
    a.strength sqrt s = sqrt ((a.detectors 0).strengthAt s) := by
  rw [OnsetDetector.strength_eq]
  unfold OnsetDetector.bandSum
  rw [hn]
  have h2 : (2 : Int).toNat = 2 := rfl
  rw [h2, forLoop_succ, forLoop_succ, forLoop_zero, h]
  congr 1
  push_cast
  ring

theorem example_analyse_numBands (level : α) (length : Int) (gain threshold : α)
    (samples : Nat → Nat → α) (numChannels : Int) (numSamples : Nat) :
    ((exampleDetector level length gain threshold).analyse samples numChannels
      numSamples).numBands = 1 :=
  ((exampleDetector level length gain threshold).analyse_frame samples numChannels
    numSamples).2.2.2.2

/-- The example detector with hold length `2`, gain `1` and threshold `6/5`
reports the onset index `1` for the ramp block and leaves the timer at `0`. -/
theorem example_run_first :
    ((exampleDetector (0 : ℝ) 2 1 (6 / 5)).operatorCall Real.sqrt rampBlock 1 2).onset = 1
      ∧ ((exampleDetector (0 : ℝ) 2 1 (6 / 5)).operatorCall Real.sqrt rampBlock 1
          2).strongHold.timer = 0 := by
  have hn := example_analyse_numBands (0 : ℝ) 2 1 (6 / 5) rampBlock 1 2
  have hv := example_ramp_strength (2 : Int) (1 : ℝ) (6 / 5)
  have h0 : ¬ ((6 / 5 : ℝ) < Real.sqrt 1) := by
    rw [Real.sqrt_one]; norm_num
  have h1 : (6 / 5 : ℝ) < Real.sqrt (1 * (375001 / 1000000) / (750007 / 4000000)) :=
    (Real.lt_sqrt (by norm_num)).mpr (by norm_num)
  have h2 := OnsetDetector.operatorCall_two Real.sqrt (exampleDetector (0 : ℝ) 2 1 (6 / 5))
    rampBlock 1
  rw [OnsetDetector.strength_single_band _ _ _ hn, OnsetDetector.strength_single_band _ _ _ hn,
    hv.1, hv.2] at h2
  have ht : (exampleDetector (0 : ℝ) 2 1 (6 / 5)).threshold = 6 / 5 := rfl
  have hl : (exampleDetector (0 : ℝ) 2 1 (6 / 5)).strongHold.length = 2 := rfl
  have hT : (exampleDetector (0 : ℝ) 2 1 (6 / 5)).strongHold.timer = 0 := rfl
  rw [ht, hl, hT] at h2
  rw [h2.1, h2.2, if_pos ⟨h1, by rw [if_neg h0]; norm_num⟩, if_pos h1]
  exact ⟨rfl, rfl⟩

/-- The block of ones that follows reports the onset index `0`. -/
theorem example_run_second :
    (((exampleDetector (0 : ℝ) 2 1 (6 / 5)).operatorCall Real.sqrt rampBlock 1 2).operatorCall
      Real.sqrt constBlock 1 2).onset = 0 := by
  have hf := example_run_first
  have hn1 : ((exampleDetector (0 : ℝ) 2 1 (6 / 5)).operatorCall Real.sqrt rampBlock 1
      2).numBands = 1 := OnsetDetector.operatorCall_numBands _ _ _ _ _
  have hs := OnsetDetector.detect_sameStrength Real.sqrt
    ((exampleDetector (0 : ℝ) 2 1 (6 / 5)).analyse rampBlock 1 2) 2 0
  have hv := example_second_strength (2 : Int) (1 : ℝ) (6 / 5) _ hn1 hs
  have hn : (((exampleDetector (0 : ℝ) 2 1 (6 / 5)).operatorCall Real.sqrt rampBlock 1
      2).analyse constBlock 1 2).numBands = 1 := by
    rw [(OnsetDetector.analyse_frame _ _ _ _).2.2.2.2]; exact hn1
  have h1 : (6 / 5 : ℝ) < Real.sqrt (1 * (9 / 16) / (21 / 64 + 21 / 16000000)) :=
    (Real.lt_sqrt (by norm_num)).mpr (by norm_num)
  have h2 := OnsetDetector.operatorCall_two Real.sqrt
    ((exampleDetector (0 : ℝ) 2 1 (6 / 5)).operatorCall Real.sqrt rampBlock 1 2) constBlock 1
  rw [OnsetDetector.strength_single_band _ _ 0 hn, hv, OnsetDetector.operatorCall_threshold,
    OnsetDetector.operatorCall_length, hf.2] at h2
  have ht : (exampleDetector (0 : ℝ) 2 1 (6 / 5)).threshold = 6 / 5 := rfl
  have hl : (exampleDetector (0 : ℝ) 2 1 (6 / 5)).strongHold.length = 2 := rfl
  rw [ht, hl] at h2
  rw [h2.1, if_neg (fun h => by rw [if_pos h1] at h; exact absurd h.2 (by norm_num)),
    if_pos ⟨h1, by norm_num⟩]

/-! ## Scaling the band gains -/

theorem forLoop_comm {σ τ : Type} (f : σ → τ) (n : Nat) (body : Nat → σ → σ)
    (body' : Nat → τ → τ) (init : σ) (h : ∀ i st, f (body i st) = body' i (f st)) :
    f (forLoop n body init) = forLoop n body' (f init) := by
  induction n with
  | zero => rfl
  | succ k ih => rw [forLoop_succ, forLoop_succ, h, ih]

theorem OnsetCore.resonate_setGain (c : OnsetCore α) (g : α) (numSamples : Nat) :
    (c.setGain g).resonate numSamples = (c.resonate numSamples).setGain g := by
  unfold OnsetCore.resonate
  exact (forLoop_comm (fun st : OnsetCore α => st.setGain g) numSamples _ _ c
    (fun i st => rfl)).symm

theorem OnsetCore.resonate_gain (c : OnsetCore α) (numSamples : Nat) :
    (c.resonate numSamples).gain = c.gain := by
  unfold OnsetCore.resonate
  exact forLoop_induction (fun st : OnsetCore α => st.gain = c.gain) _ _ _ rfl
    (fun i st h => h)

theorem OnsetDetector.analyseStep_scaleGains (k : α) (numSamples i : Nat)
    (st : OnsetDetector α) :
    OnsetDetector.analyseStep numSamples i (OnsetDetector.scaleGains k st)
      = OnsetDetector.scaleGains k (OnsetDetector.analyseStep numSamples i st) := by
  unfold OnsetDetector.analyseStep OnsetDetector.scaleGains
  simp only [OnsetDetector.mk.injEq, and_true, true_and]
  funext j
  by_cases hj : j = i
  · subst hj
    simp only [Function.update_same]
    have h1 : ((st.detectors j).setGain (k * (st.detectors j).gain)).copyFrom st.buffer numSamples
        = ((st.detectors j).copyFrom st.buffer numSamples).setGain (k * (st.detectors j).gain) :=
      rfl
    rw [h1, OnsetCore.resonate_setGain]
    have h2 : ((((st.detectors j).copyFrom st.buffer numSamples).resonate
        numSamples).synthesizeEnvelopeFollowers numSamples).gain = (st.detectors j).gain := by
      show (((st.detectors j).copyFrom st.buffer numSamples).resonate numSamples).gain = _
      rw [OnsetCore.resonate_gain]
      rfl
    rw [h2]
    rfl
  · simp only [Function.update_noteq hj]

theorem OnsetDetector.analyse_scaleGains (k : α) (d : OnsetDetector α)
    (samples : Nat → Nat → α) (numChannels : Int) (numSamples : Nat) :
    (OnsetDetector.scaleGains k d).analyse samples numChannels numSamples
      = OnsetDetector.scaleGains k (d.analyse samples numChannels numSamples) := by
  have h := forLoop_comm (OnsetDetector.scaleGains k)
    (d.analyseInit samples numChannels numSamples).numBands.toNat
    (OnsetDetector.analyseStep numSamples) (OnsetDetector.analyseStep numSamples)
    (d.analyseInit samples numChannels numSamples)
    (fun i st => (OnsetDetector.analyseStep_scaleGains k numSamples i st).symm)
  exact h.symm

theorem OnsetDetector.analyse_setThreshold (t : α) (d : OnsetDetector α)
    (samples : Nat → Nat → α) (numChannels : Int) (numSamples : Nat) :
    ({ d with threshold := t } : OnsetDetector α).analyse samples numChannels numSamples
      = { d.analyse samples numChannels numSamples with threshold := t } := by
  have h := forLoop_comm (fun st : OnsetDetector α => { st with threshold := t })
    (d.analyseInit samples numChannels numSamples).numBands.toNat
    (OnsetDetector.analyseStep numSamples) (OnsetDetector.analyseStep numSamples)
    (d.analyseInit samples numChannels numSamples) (fun i st => rfl)
  exact h.symm

theorem OnsetCore.strengthAt_setGain (c : OnsetCore α) (k : α) (s : Nat) :
    (c.setGain (k * c.gain)).strengthAt s = k * c.strengthAt s := by
  unfold OnsetCore.strengthAt OnsetCore.setGain
  simp only []
  ring

theorem OnsetDetector.bandSum_scaleGains (k : α) (a : OnsetDetector α) (s : Nat) :
    (OnsetDetector.scaleGains k a).bandSum s = k * a.bandSum s := by
  unfold OnsetDetector.bandSum
  have hn : (OnsetDetector.scaleGains k a).numBands = a.numBands := rfl
  rw [hn]
  generalize a.numBands.toNat = n
  induction n with
  | zero => simp [forLoop]
  | succ m ih =>
    rw [forLoop_succ, forLoop_succ, ih]
    have h : ((OnsetDetector.scaleGains k a).detectors m).strengthAt s
        = k * (a.detectors m).strengthAt s := OnsetCore.strengthAt_setGain _ k s
    rw [h]
    ring

theorem OnsetDetector.strength_scaleGains (k : ℝ) (hk : 0 ≤ k) (a : OnsetDetector ℝ) (s : Nat) :
    (OnsetDetector.scaleGains k a).strength Real.sqrt s
      = Real.sqrt k * a.strength Real.sqrt s := by
  rw [OnsetDetector.strength_eq, OnsetDetector.strength_eq, OnsetDetector.bandSum_scaleGains,
    mul_div_assoc, Real.sqrt_mul hk]
  rfl

theorem OnsetDetector.strength_setThreshold (sqrt : α → α) (t : α) (a : OnsetDetector α)
    (s : Nat) :
    ({ a with threshold := t } : OnsetDetector α).strength sqrt s = a.strength sqrt s := by
  rw [OnsetDetector.strength_eq, OnsetDetector.strength_eq]
  rfl

/-- Two sample loops that agree on which samples exceed the threshold, and
start with the same timer, hold length and onset index, produce the same
onset index and timer. -/
theorem OnsetDetector.detect_congr (sqrt : α → α) (a b : OnsetDetector α)
    (hthr : ∀ s, a.threshold < a.strength sqrt s ↔ b.threshold < b.strength sqrt s)
    (hl : a.strongHold.length = b.strongHold.length)
    (ht : a.strongHold.timer = b.strongHold.timer) (ho : a.onset = b.onset) (m : Nat) :
    (a.detect sqrt m).onset = (b.detect sqrt m).onset
      ∧ (a.detect sqrt m).strongHold.timer = (b.detect sqrt m).strongHold.timer := by
  induction m with
  | zero => exact ⟨ho, ht⟩
  | succ k ih =>
    rw [OnsetDetector.detect_onset_succ, OnsetDetector.detect_onset_succ,
      OnsetDetector.detect_timer_succ', OnsetDetector.detect_timer_succ']
    simp only [OnsetDetector.qualifiesAt_iff, hthr, hl, ih.1, ih.2, and_self]

theorem example_scaleGains (k level : α) (length : Int) (gain threshold : α) :
    OnsetDetector.scaleGains k (exampleDetector level length gain threshold)
      = exampleDetector level length (k * gain) threshold := rfl

/-! ## Loops that update one band per iteration -/

omit [LinearOrderedField α] in
/-- A loop whose body replaces band `i` by `f i` of it, and keeps an invariant
`P`, leaves band `j` as `f j` of the initial band for `j < n` and untouched
otherwise. -/
theorem forLoop_detectors (n : Nat) (body : Nat → OnsetDetector α → OnsetDetector α)
    (init : OnsetDetector α) (f : Nat → OnsetCore α → OnsetCore α)
    (P : OnsetDetector α → Prop) (h0 : P init) (hP : ∀ i st, P st → P (body i st))
    (hb : ∀ i st, P st →
      (body i st).detectors = Function.update st.detectors i (f i (st.detectors i))) :
    P (forLoop n body init)
      ∧ ∀ j, (forLoop n body init).detectors j
          = if j < n then f j (init.detectors j) else init.detectors j := by
  induction n with
  | zero => exact ⟨h0, fun j => by simp [forLoop]⟩
  | succ k ih =>
    obtain ⟨ihP, ihd⟩ := ih
    refine ⟨hP k _ ihP, fun j => ?_⟩
    rw [forLoop_succ, hb k _ ihP]
    by_cases hj : j = k
    · subst hj
      rw [Function.update_same, ihd j, if_neg (Nat.lt_irrefl j), if_pos (Nat.lt_succ_self j)]
    · rw [Function.update_noteq hj, ihd j]
      have hiff : j < k + 1 ↔ j < k := by omega
      simp only [hiff]

/-! ## Decay times and tilt gains -/

/-- The decay times that `OnsetDetector::setDecay` stores in the two followers
of band `i`. -/
theorem OnsetDetector.setDecay_dcyMs (exp : α → α) (decay0Percent : α) (d : OnsetDetector α)
    (x : α) (i : Nat) (hsr : (d.detectors i).sampleRate ≠ 0) :
    (((d.setDecay exp decay0Percent x).detectors i).envFols 0).params.dcyMs
        = decay0Percent * x * (1000 / (d.detectors i).freqHz)
      ∧ (((d.setDecay exp decay0Percent x).detectors i).envFols 1).params.dcyMs
        = x * (1000 / (d.detectors i).freqHz) := by
  have hms : samplesToMs (freqHzToSamples (d.detectors i).freqHz (d.detectors i).sampleRate)
      (1 / (d.detectors i).sampleRate) = 1000 / (d.detectors i).freqHz := by
    unfold samplesToMs freqHzToSamples
    by_cases hf : (d.detectors i).freqHz = 0
    · simp [hf]
    · field_simp
      ring
  have h10 : (1 : Fin 2) ≠ 0 := by decide
  constructor
  · simp only [OnsetDetector.setDecay, OnsetCore.setDecay, EnvelopeFollower.setDecay,
      EnvelopeFollower.Params.setDcy, Function.update_same, hms]
    ring
  · simp only [OnsetDetector.setDecay, OnsetCore.setDecay, EnvelopeFollower.setDecay,
      EnvelopeFollower.Params.setDcy, Function.update_same, Function.update_noteq h10, hms]
    ring

/-- The gain that `OnsetDetector::updateTilt` gives band `i`. -/
theorem OnsetDetector.updateTilt_gain (pow : α → α → α) (d : OnsetDetector α) (i : Nat)
    (hi : i < d.numBands.toNat) :
    ((d.updateTilt pow).detectors i).gain
      = (dbToAmp pow (-d.tilt)
          + (i : α) / (d.numBands : α) * (dbToAmp pow d.tilt - dbToAmp pow (-d.tilt)))
        * (1 / (d.numBands : α) * (1 / (d.numBands : α))) := by
  have key := forLoop_detectors d.numBands.toNat
    (fun i (st : OnsetDetector α) =>
      { st with detectors :=
          (Function.update st.detectors i
            ((st.detectors i).setGain
              ((dbToAmp pow (-d.tilt)
                  + (i : α) / (st.numBands : α) * (dbToAmp pow d.tilt - dbToAmp pow (-d.tilt)))
                * (1 / (d.numBands : α) * (1 / (d.numBands : α)))))) })
    d
    (fun i c => c.setGain
      ((dbToAmp pow (-d.tilt)
          + (i : α) / (d.numBands : α) * (dbToAmp pow d.tilt - dbToAmp pow (-d.tilt)))
        * (1 / (d.numBands : α) * (1 / (d.numBands : α)))))
    (fun st => st.numBands = d.numBands) rfl (fun _ _ h => h)
    (fun i st h => by simp only []; rw [h])
  have h2 := key.2 i
  rw [if_pos hi] at h2
  have h3 : (d.updateTilt pow).detectors i
      = (d.detectors i).setGain
        ((dbToAmp pow (-d.tilt)
            + (i : α) / (d.numBands : α) * (dbToAmp pow d.tilt - dbToAmp pow (-d.tilt)))
          * (1 / (d.numBands : α) * (1 / (d.numBands : α)))) := h2
  rw [h3]
  rfl

theorem dbToAmp_rpow_twenty : dbToAmp Real.rpow 20 = 10 := by
  unfold dbToAmp
  rw [show (20 : ℝ) / 20 = 1 by norm_num]
  exact Real.rpow_one 10

theorem dbToAmp_rpow_neg_twenty : dbToAmp Real.rpow (-20) = 1 / 10 := by
  unfold dbToAmp
  rw [show (-20 : ℝ) / 20 = -1 by norm_num]
  have h : (10 : ℝ) ^ (-1 : ℝ) = 10⁻¹ := Real.rpow_neg_one 10
  exact h.trans (by norm_num)

theorem dbToAmp_rpow_zero : dbToAmp Real.rpow 0 = 1 := by
  unfold dbToAmp
  rw [show (0 : ℝ) / 20 = 0 by norm_num]
  exact Real.rpow_zero 10

/-! ## The hold timer over a block -/

theorem OnsetDetector.detect_timer_of_none (sqrt : α → α) (a : OnsetDetector α) (m : Nat)
    (hnone : ∀ s, s < m → ¬ a.threshold < a.strength sqrt s) :
    (a.detect sqrt m).strongHold.timer = a.strongHold.timer := by
  induction m with
  | zero => rfl
  | succ k ih =>
    rw [OnsetDetector.detect_timer_succ', if_neg (hnone k (Nat.lt_succ_self k))]
    exact ih (fun s hs => hnone s (Nat.lt_succ_of_lt hs))

theorem OnsetDetector.detect_timer_of_some (sqrt : α → α) (a : OnsetDetector α) (m s : Nat)
    (hs : s < m) (habove : a.threshold < a.strength sqrt s) :
    (a.detect sqrt m).strongHold.timer = 0 := by
  apply OnsetDetector.detect_timer_zero_of_above sqrt a s m hs
  rw [OnsetDetector.detect_strength, OnsetDetector.detect_threshold]
  exact habove

/-! ## The prepared detector on silence -/

/-- The tracked envelope values of band `0` of the prepared detector after one
sample of silence. -/
theorem prepared_silence_envelopes (length : Int) (gain threshold : α) :
    (((((preparedDetector length gain threshold).analyse silentBlock 1 1).detectors 0).envFols
        0).get 0 = -60)
      ∧ (((((preparedDetector length gain threshold).analyse silentBlock 1 1).detectors 0).envFols
        1).get 0 = -90) := by
  constructor
  · norm_num [preparedDetector, OnsetDetector.analyse, OnsetDetector.analyseInit, OnsetDetector.analyseStep,
    exampleDetector, forLoop,
    OnsetStrongHold.operatorCall, OnsetBuffer.copyFromMid, OnsetBuffer.rectify, OnsetBuffer.set,
    OnsetBuffer.get, OnsetCore.copyFrom, OnsetBuffer.copyFrom, OnsetCore.resonate,
    OnsetCore.synthesizeEnvelopeFollowers, exampleCore, Resonator2.operatorCall, distort,
    EnvelopeFollower.operatorCall, EnvelopeFollower.rectify, EnvelopeFollower.synthesizeEnvelope,
    EnvelopeFollower.synthesizeStep, exampleFollower, OnsetBuffer.construct,
    EnvelopeFollower.processDecay_eq, EnvelopeFollower.processAttack_eq, Lowpass.operatorCall,
    Lowpass.processSample, Lowpass.setX, OnsetCore.strengthAt, EnvelopeFollower.get, rampBlock,
    constBlock, silentBlock, abs_div, abs_mul]
  · norm_num [preparedDetector, OnsetDetector.analyse, OnsetDetector.analyseInit, OnsetDetector.analyseStep,
    exampleDetector, forLoop,
    OnsetStrongHold.operatorCall, OnsetBuffer.copyFromMid, OnsetBuffer.rectify, OnsetBuffer.set,
    OnsetBuffer.get, OnsetCore.copyFrom, OnsetBuffer.copyFrom, OnsetCore.resonate,
    OnsetCore.synthesizeEnvelopeFollowers, exampleCore, Resonator2.operatorCall, distort,
    EnvelopeFollower.operatorCall, EnvelopeFollower.rectify, EnvelopeFollower.synthesizeEnvelope,
    EnvelopeFollower.synthesizeStep, exampleFollower, OnsetBuffer.construct,
    EnvelopeFollower.processDecay_eq, EnvelopeFollower.processAttack_eq, Lowpass.operatorCall,
    Lowpass.processSample, Lowpass.setX, OnsetCore.strengthAt, EnvelopeFollower.get, rampBlock,
    constBlock, silentBlock, abs_div, abs_mul]

/-! ## Resonator coefficients -/

theorem EnvelopeFollower.processCounted_attack (k : Nat) (e : EnvelopeFollower α) (s0 s1 : α) :
    EnvelopeFollower.processCounted (k + 2) true e s0 s1
      = some (e.processAttack s0 s1,
          if s0 ≤ s1 then { crossCalls := 0, switches := 0, lowpassSteps := 1 }
          else { crossCalls := 1, switches := 1, lowpassSteps := 1 }) := by
  rw [EnvelopeFollower.processAttack_eq]
  by_cases h : s0 ≤ s1
  · simp [EnvelopeFollower.processCounted, h]
  · have h' : s0 ≥ s1 := (not_le.mp h).le
    simp [EnvelopeFollower.processCounted, h, h']

theorem EnvelopeFollower.processCounted_decay (k : Nat) (e : EnvelopeFollower α) (s0 s1 : α) :
    EnvelopeFollower.processCounted (k + 2) false e s0 s1
      = some (e.processDecay s0 s1,
          if s1 ≤ s0 then { crossCalls := 0, switches := 0, lowpassSteps := 1 }
          else { crossCalls := 1, switches := 1, lowpassSteps := 1 }) := by
  rw [EnvelopeFollower.processDecay_eq]
  by_cases h : s1 ≤ s0
  · simp [EnvelopeFollower.processCounted, h]
  · have h' : s0 ≤ s1 := (not_le.mp h).le
    simp [EnvelopeFollower.processCounted, h, h']

/-! ## The pitch range -/

/-- What `OnsetDetector::updatePitchRange` does to band `i`. -/
theorem OnsetDetector.updatePitchRange_band (exp cos sqrt log2 : α → α) (d : OnsetDetector α)
    (i : Nat) (hi : i < d.numBands.toNat) :
    (d.updatePitchRange exp cos sqrt log2).detectors i
      = (((d.detectors i).setFreqHz (noteToFreqHz log2 (d.bandPitch i))).setBandwidth
          (noteToFreqHz log2 (d.bandPitch i + 1 / 2)
            - noteToFreqHz log2 (d.bandPitch i - 1 / 2))).updateFilter exp cos sqrt := by
  have key := forLoop_detectors d.numBands.toNat
    (fun i (st : OnsetDetector α) =>
      let iF : α := (i : α)
      let iR := iF / ((st.numBands - 1 : Int) : α)
      let pitch := st.lowestPitch + iR * (d.highestPitch - d.lowestPitch)
      let freqHz := noteToFreqHz log2 pitch
      let pitchLow := pitch - 1 / 2
      let pitchHigh := pitch + 1 / 2
      let freqLow := noteToFreqHz log2 pitchLow
      let freqHigh := noteToFreqHz log2 pitchHigh
      let bwHz := freqHigh - freqLow
      let detector := st.detectors i
      let detector := detector.setFreqHz freqHz
      let detector := detector.setBandwidth bwHz
      let detector := detector.updateFilter exp cos sqrt
      { st with detectors := (Function.update st.detectors i detector) })
    d
    (fun i c => ((c.setFreqHz (noteToFreqHz log2 (d.bandPitch i))).setBandwidth
        (noteToFreqHz log2 (d.bandPitch i + 1 / 2)
          - noteToFreqHz log2 (d.bandPitch i - 1 / 2))).updateFilter exp cos sqrt)
    (fun st => st.numBands = d.numBands ∧ st.lowestPitch = d.lowestPitch) ⟨rfl, rfl⟩
    (fun _ _ h => h)
    (fun i st h => by
      simp only []
      rw [h.1, h.2]
      rfl)
  have h2 := key.2 i
  rw [if_pos hi] at h2
  exact h2

/-! ## Pitch and frequency conversions -/

theorem noteToFreqHz_freqHzToNote (x : ℝ) :
    noteToFreqHz (Real.logb 2) (freqHzToNote Real.rpow x) = x := by
  unfold noteToFreqHz freqHzToNote
  have h1 : 440 * Real.rpow 2 ((x - 69) / 12) / 440 = Real.rpow 2 ((x - 69) / 12) := by
    field_simp
  have h2 : Real.logb 2 (Real.rpow 2 ((x - 69) / 12)) = (x - 69) / 12 :=
    Real.logb_rpow (by norm_num) (by norm_num)
  rw [h1, h2]
  ring

/-- Band `0` sits at the lowest pitch. -/
theorem OnsetDetector.bandPitch_zero (d : OnsetDetector α) : d.bandPitch 0 = d.lowestPitch := by
  simp [OnsetDetector.bandPitch]

/-- The members that `OnsetDetector::updateTilt` leaves unchanged. -/
theorem OnsetDetector.updateTilt_frame (pow : α → α → α) (d : OnsetDetector α) :
    (d.updateTilt pow).numBands = d.numBands
      ∧ (d.updateTilt pow).lowestPitch = d.lowestPitch
      ∧ (d.updateTilt pow).highestPitch = d.highestPitch := by
  unfold OnsetDetector.updateTilt
  exact forLoop_induction
    (fun st : OnsetDetector α => st.numBands = d.numBands ∧ st.lowestPitch = d.lowestPitch
      ∧ st.highestPitch = d.highestPitch) _ _ _ ⟨rfl, rfl, rfl⟩ (fun _ _ h => h)

/-- The members that `OnsetDetector::updatePitchRange` leaves unchanged. -/
theorem OnsetDetector.updatePitchRange_frame (exp cos sqrt log2 : α → α) (d : OnsetDetector α) :
    (d.updatePitchRange exp cos sqrt log2).sampleRate = d.sampleRate
      ∧ (d.updatePitchRange exp cos sqrt log2).numBands = d.numBands
      ∧ (d.updatePitchRange exp cos sqrt log2).lowestPitch = d.lowestPitch
      ∧ (d.updatePitchRange exp cos sqrt log2).highestPitch = d.highestPitch := by
  unfold OnsetDetector.updatePitchRange
  exact forLoop_induction
    (fun st : OnsetDetector α => st.sampleRate = d.sampleRate ∧ st.numBands = d.numBands
      ∧ st.lowestPitch = d.lowestPitch ∧ st.highestPitch = d.highestPitch) _ _ _
    ⟨rfl, rfl, rfl, rfl⟩ (fun _ _ h => h)

/-- The band count and the pitch range that the constructor of `OnsetDetector`
leaves. -/
theorem OnsetDetector.construct_frame (exp : α → α) (pow : α → α → α) (k : OnsetConsts α) :
    (OnsetDetector.construct exp pow k).numBands = k.OnsetNumBandsDefault
      ∧ (OnsetDetector.construct exp pow k).lowestPitch = freqHzToNote pow k.OnsetLowestFreqHz
      ∧ (OnsetDetector.construct exp pow k).highestPitch
        = freqHzToNote pow k.OnsetHighestFreqHz := by
  unfold OnsetDetector.construct OnsetDetector.setTilt
  simp only []
  exact ⟨(OnsetDetector.updateTilt_frame pow _).1.trans rfl,
    (OnsetDetector.updateTilt_frame pow _).2.1.trans rfl,
    (OnsetDetector.updateTilt_frame pow _).2.2.trans rfl⟩

/-! ## Preparing the bands -/

/-- What `OnsetDetector::prepare` does to an active band `i`: the pitch range
update, then `OnsetCore::prepare`. -/
theorem OnsetDetector.prepare_band [FloorRing α] (exp cos sqrt log2 : α → α)
    (d : OnsetDetector α) (Fs : α) (i : Nat) (hi : i < d.numBands.toNat) :
    (d.prepare exp cos sqrt log2 Fs).detectors i
      = ((((d.detectors i).setFreqHz (noteToFreqHz log2 (d.bandPitch i))).setBandwidth
          (noteToFreqHz log2 (d.bandPitch i + 1 / 2)
            - noteToFreqHz log2 (d.bandPitch i - 1 / 2))).updateFilter exp cos sqrt).prepare
          exp cos sqrt Fs := by
  have hb := OnsetDetector.updatePitchRange_band exp cos sqrt log2
    ({ d with sampleRate := Fs } : OnsetDetector α) i hi
  have hs := (OnsetDetector.updatePitchRange_frame exp cos sqrt log2
    ({ d with sampleRate := Fs } : OnsetDetector α)).1
  have h : (d.prepare exp cos sqrt log2 Fs).detectors i
      = ((({ d with sampleRate := Fs } : OnsetDetector α).updatePitchRange exp cos sqrt
            log2).detectors i).prepare exp cos sqrt
          (({ d with sampleRate := Fs } : OnsetDetector α).updatePitchRange exp cos sqrt
            log2).sampleRate := rfl
  rw [h, hs, hb]
  rfl

/-- The decay times that `OnsetCore::prepare` stores in the two followers: both
come from the one member `decay`. -/
theorem OnsetCore.prepare_dcyMs (exp cos sqrt : α → α) (c : OnsetCore α) (Fs : α)
    (hFs : Fs ≠ 0) :
    ((c.prepare exp cos sqrt Fs).envFols 0).params.dcyMs = c.decay * (1000 / c.freqHz)
      ∧ ((c.prepare exp cos sqrt Fs).envFols 1).params.dcyMs = c.decay * (1000 / c.freqHz)
      ∧ (c.prepare exp cos sqrt Fs).sampleRate = Fs
      ∧ (c.prepare exp cos sqrt Fs).freqHz = c.freqHz := by
  have hms : samplesToMs (freqHzToSamples c.freqHz Fs) (1 / Fs) = 1000 / c.freqHz := by
    unfold samplesToMs freqHzToSamples
    by_cases hf : c.freqHz = 0
    · simp [hf]
    · field_simp
      ring
  have h10 : (1 : Fin 2) ≠ 0 := by decide
  refine ⟨?_, ?_, rfl, rfl⟩
  · simp only [OnsetCore.prepare, OnsetCore.setDecay, OnsetCore.setAttack, OnsetCore.setFreqHz,
      OnsetCore.setBandwidth, OnsetCore.updateBandwidth, OnsetCore.updateFilter,
      EnvelopeFollower.setDecay, EnvelopeFollower.Params.setDcy, Function.update_same,
      Function.update_noteq h10.symm, hms]
    ring
  · simp only [OnsetCore.prepare, OnsetCore.setDecay, OnsetCore.setAttack, OnsetCore.setFreqHz,
      OnsetCore.setBandwidth, OnsetCore.updateBandwidth, OnsetCore.updateFilter,
      EnvelopeFollower.setDecay, EnvelopeFollower.Params.setDcy, Function.update_same, hms]
    ring

/-- The centre frequency of an active band after `OnsetDetector::prepare`. -/
theorem OnsetDetector.prepare_freqHz [FloorRing α] (exp cos sqrt log2 : α → α)
    (d : OnsetDetector α) (Fs : α) (i : Nat) (hi : i < d.numBands.toNat) :
    ((d.prepare exp cos sqrt log2 Fs).detectors i).freqHz
        = noteToFreqHz log2 (d.bandPitch i)
      ∧ ((d.prepare exp cos sqrt log2 Fs).detectors i).sampleRate = Fs := by
  rw [OnsetDetector.prepare_band exp cos sqrt log2 d Fs i hi]
  exact ⟨rfl, rfl⟩

/-- The decay times of an active band after `setDecay(x)` followed by
`prepare(Fs)`: the value `OnsetDecay0Percent * x`, which `setDecay` stored
last in the member `decay`, reaches both followers. -/
theorem OnsetDetector.setDecay_prepare_dcyMs [FloorRing α] (exp cos sqrt log2 : α → α)
    (decay0Percent : α) (d : OnsetDetector α) (x Fs : α) (i : Nat)
    (hi : i < d.numBands.toNat) (hFs : Fs ≠ 0) :
    ((((d.setDecay exp decay0Percent x).prepare exp cos sqrt log2 Fs).detectors i).envFols
        0).params.dcyMs = decay0Percent * x * (1000 / noteToFreqHz log2 (d.bandPitch i))
      ∧ ((((d.setDecay exp decay0Percent x).prepare exp cos sqrt log2 Fs).detectors i).envFols
        1).params.dcyMs = decay0Percent * x * (1000 / noteToFreqHz log2 (d.bandPitch i)) := by
  have hi' : i < (d.setDecay exp decay0Percent x).numBands.toNat := hi
  rw [OnsetDetector.prepare_band exp cos sqrt log2 (d.setDecay exp decay0Percent x) Fs i hi']
  have h := OnsetCore.prepare_dcyMs exp cos sqrt
    (((((d.setDecay exp decay0Percent x).detectors i).setFreqHz
        (noteToFreqHz log2 ((d.setDecay exp decay0Percent x).bandPitch i))).setBandwidth
      (noteToFreqHz log2 ((d.setDecay exp decay0Percent x).bandPitch i + 1 / 2)
        - noteToFreqHz log2 ((d.setDecay exp decay0Percent x).bandPitch i - 1 / 2))).updateFilter
      exp cos sqrt) Fs hFs
  exact ⟨h.1, h.2.1⟩

/-- The decay times of an active band after `prepare(Fs)` followed by
`setDecay(x)`. -/
theorem OnsetDetector.prepare_setDecay_dcyMs [FloorRing α] (exp cos sqrt log2 : α → α)
    (decay0Percent : α) (d : OnsetDetector α) (x Fs : α) (i : Nat)
    (hi : i < d.numBands.toNat) (hFs : Fs ≠ 0) :
    ((((d.prepare exp cos sqrt log2 Fs).setDecay exp decay0Percent x).detectors i).envFols
        0).params.dcyMs = decay0Percent * x * (1000 / noteToFreqHz log2 (d.bandPitch i))
      ∧ ((((d.prepare exp cos sqrt log2 Fs).setDecay exp decay0Percent x).detectors i).envFols
        1).params.dcyMs = x * (1000 / noteToFreqHz log2 (d.bandPitch i)) := by
  have hp := OnsetDetector.prepare_freqHz exp cos sqrt log2 d Fs i hi
  have hsr : ((d.prepare exp cos sqrt log2 Fs).detectors i).sampleRate ≠ 0 := by
    rw [hp.2]
    exact hFs
  have h := OnsetDetector.setDecay_dcyMs exp decay0Percent (d.prepare exp cos sqrt log2 Fs) x i hsr
  rw [hp.1] at h
  exact h

/-! ## Values inside the range of a format -/

end Lemmas

section Claims

variable {α : Type} [LinearOrderedField α]

/-- C1 (counterexample): with hold length `L = 2`, the example detector
reports an onset at the last sample of the first block (absolute position
`1`) and an onset at the first sample of the next block (absolute position
`2`): the two onsets are `1 < L` samples apart. -/
theorem C1_counterexample_adjacent_onsets :
    (exampleDetector (0 : ℝ) 2 1 (6 / 5)).strongHold.length = 2
      ∧ (exampleDetector (0 : ℝ) 2 1 (6 / 5)).onsetOfBlock Real.sqrt exampleBlocks 0 = 1
      ∧ (exampleDetector (0 : ℝ) 2 1 (6 / 5)).onsetOfBlock Real.sqrt exampleBlocks 1 = 0
      ∧ (blockStart (exampleBlocks : List (Block ℝ)) 1
            + (exampleDetector (0 : ℝ) 2 1 (6 / 5)).onsetOfBlock Real.sqrt exampleBlocks 1)
          - (blockStart (exampleBlocks : List (Block ℝ)) 0
            + (exampleDetector (0 : ℝ) 2 1 (6 / 5)).onsetOfBlock Real.sqrt exampleBlocks 0)
          < (exampleDetector (0 : ℝ) 2 1 (6 / 5)).strongHold.length := by
  have h0 : (exampleDetector (0 : ℝ) 2 1 (6 / 5)).onsetOfBlock Real.sqrt exampleBlocks 0 = 1 :=
    example_run_first.1
  have h1 : (exampleDetector (0 : ℝ) 2 1 (6 / 5)).onsetOfBlock Real.sqrt exampleBlocks 1 = 0 :=
    example_run_second
  have hb0 : blockStart (exampleBlocks : List (Block ℝ)) 0 = 0 := rfl
  have hb1 : blockStart (exampleBlocks : List (Block ℝ)) 1 = 2 := rfl
  have hl : (exampleDetector (0 : ℝ) 2 1 (6 / 5)).strongHold.length = 2 := rfl
  refine ⟨hl, h0, h1, ?_⟩
  rw [h0, h1, hb0, hb1, hl]
  norm_num

/-- C1 (amended): if `OnsetDetector::operator()` reports an onset at absolute
position `p` in block `i` and an onset at absolute position `q` in a later
block `j`, then `p < q`, the blocks after block `i` up to and including block
`j` hold at least `L` samples in total (the end of block `j` lies at least `L`
samples after the end of block `i`), and so `q - p > L - n_j`, where `n_j` is
the number of samples of block `j`; the hold timer advances once per block by
the block size, so the distance `q - p` itself is not bounded below by `L`. -/
theorem C1_onset_spacing_per_block (sqrt : α → α) (d : OnsetDetector α)
    (blocks : List (Block α)) (i j : Nat) (hij : i < j) (hj : j < blocks.length)
    (hi : d.onsetOfBlock sqrt blocks i ≠ -1) (hjo : d.onsetOfBlock sqrt blocks j ≠ -1) :
    blockStart blocks i + d.onsetOfBlock sqrt blocks i
        < blockStart blocks j + d.onsetOfBlock sqrt blocks j
      ∧ d.strongHold.length ≤ blockStart blocks (j + 1) - blockStart blocks (i + 1)
      ∧ d.strongHold.length - (blockStart blocks (j + 1) - blockStart blocks j)
        < (blockStart blocks j + d.onsetOfBlock sqrt blocks j)
          - (blockStart blocks i + d.onsetOfBlock sqrt blocks i) := by
  have hil : i < blocks.length := Nat.lt_trans hij hj
  have ht := OnsetDetector.timer_le_since_onset sqrt d blocks i hi j hij (Nat.le_of_lt hj)
  have hm := blockStart_mono blocks (i + 1) j hij (Nat.le_of_lt hj)
  have hl := OnsetDetector.processBlocks_length sqrt d (blocks.take j)
  have hsi := blockStart_succ blocks i hil
  have hsj := blockStart_succ blocks j hj
  unfold OnsetDetector.onsetOfBlock at hi hjo ⊢
  rw [OnsetDetector.processBlocks_take_succ sqrt d blocks i hil] at hi ⊢
  rw [OnsetDetector.processBlocks_take_succ sqrt d blocks j hj] at hjo ⊢
  rcases OnsetDetector.operatorCall_onset_cases sqrt (d.processBlocks sqrt (blocks.take i))
    blocks[i].samples blocks[i].numChannels blocks[i].numSamples with h1 | h1
  · exact absurd h1 hi
  · rcases OnsetDetector.operatorCall_onset_cases sqrt (d.processBlocks sqrt (blocks.take j))
      blocks[j].samples blocks[j].numChannels blocks[j].numSamples with h2 | h2
    · exact absurd h2 hjo
    · rw [hl] at h2
      have hL : d.strongHold.length ≤ blockStart blocks (j + 1) - blockStart blocks (i + 1) := by
        rcases h2.2.2.2 with h3 | h3
        · omega
        · omega
      exact ⟨by omega, hL, by omega⟩

/-- Witness of C1 (amended): the two onsets of the example run, in blocks `0`
and `1`. -/
theorem C1_onset_spacing_per_block_witness :
    0 < 1 ∧ 1 < (exampleBlocks : List (Block ℝ)).length
      ∧ (exampleDetector (0 : ℝ) 2 1 (6 / 5)).onsetOfBlock Real.sqrt exampleBlocks 0 ≠ -1
      ∧ (exampleDetector (0 : ℝ) 2 1 (6 / 5)).onsetOfBlock Real.sqrt exampleBlocks 1 ≠ -1
      ∧ (blockStart (exampleBlocks : List (Block ℝ)) 0
            + (exampleDetector (0 : ℝ) 2 1 (6 / 5)).onsetOfBlock Real.sqrt exampleBlocks 0
          < blockStart (exampleBlocks : List (Block ℝ)) 1
            + (exampleDetector (0 : ℝ) 2 1 (6 / 5)).onsetOfBlock Real.sqrt exampleBlocks 1
        ∧ (exampleDetector (0 : ℝ) 2 1 (6 / 5)).strongHold.length
          ≤ blockStart (exampleBlocks : List (Block ℝ)) (1 + 1)
            - blockStart (exampleBlocks : List (Block ℝ)) (0 + 1)
        ∧ (exampleDetector (0 : ℝ) 2 1 (6 / 5)).strongHold.length
            - (blockStart (exampleBlocks : List (Block ℝ)) (1 + 1)
              - blockStart (exampleBlocks : List (Block ℝ)) 1)
          < (blockStart (exampleBlocks : List (Block ℝ)) 1
              + (exampleDetector (0 : ℝ) 2 1 (6 / 5)).onsetOfBlock Real.sqrt exampleBlocks 1)
            - (blockStart (exampleBlocks : List (Block ℝ)) 0
              + (exampleDetector (0 : ℝ) 2 1 (6 / 5)).onsetOfBlock Real.sqrt exampleBlocks 0)) :=
  have h0 : (exampleDetector (0 : ℝ) 2 1 (6 / 5)).onsetOfBlock Real.sqrt exampleBlocks 0 ≠ -1 := by
    have h : (exampleDetector (0 : ℝ) 2 1 (6 / 5)).onsetOfBlock Real.sqrt exampleBlocks 0 = 1 :=
      example_run_first.1
    rw [h]; decide
  have h1 : (exampleDetector (0 : ℝ) 2 1 (6 / 5)).onsetOfBlock Real.sqrt exampleBlocks 1 ≠ -1 := by
    have h : (exampleDetector (0 : ℝ) 2 1 (6 / 5)).onsetOfBlock Real.sqrt exampleBlocks 1 = 0 :=
      example_run_second
    rw [h]; decide
  ⟨by decide, by decide, h0, h1,
    C1_onset_spacing_per_block Real.sqrt (exampleDetector (0 : ℝ) 2 1 (6 / 5)) exampleBlocks 0 1
      (by decide) (by decide) h0 h1⟩

/-- C2 (counterexample): with hold length `0` the gate never closes; in the
ramp block both samples qualify and the onset index after the block is `1`,
the last qualifying sample, not the first one. -/
theorem C2_counterexample_last_sample_latched :
    ((exampleDetector (0 : ℝ) 0 4 (6 / 5)).analyse rampBlock 1 2).QualifiesAt Real.sqrt 0
      ∧ ((exampleDetector (0 : ℝ) 0 4 (6 / 5)).analyse rampBlock 1 2).QualifiesAt Real.sqrt 1
      ∧ ((exampleDetector (0 : ℝ) 0 4 (6 / 5)).operatorCall Real.sqrt rampBlock 1 2).onset = 1 := by
  have hn := example_analyse_numBands (0 : ℝ) 0 4 (6 / 5) rampBlock 1 2
  have hv := example_ramp_strength (0 : Int) (4 : ℝ) (6 / 5)
  have hf := (exampleDetector (0 : ℝ) 0 4 (6 / 5)).analyse_frame rampBlock 1 2
  have h0 : (6 / 5 : ℝ) < Real.sqrt 4 := (Real.lt_sqrt (by norm_num)).mpr (by norm_num)
  have h1 : (6 / 5 : ℝ) < Real.sqrt (4 * (375001 / 1000000) / (750007 / 4000000)) :=
    (Real.lt_sqrt (by norm_num)).mpr (by norm_num)
  have ht : (exampleDetector (0 : ℝ) 0 4 (6 / 5)).threshold = 6 / 5 := rfl
  have hl : (exampleDetector (0 : ℝ) 0 4 (6 / 5)).strongHold.length = 0 := rfl
  have hT : (exampleDetector (0 : ℝ) 0 4 (6 / 5)).strongHold.timer = 0 := rfl
  have hs0 := OnsetDetector.strength_single_band Real.sqrt _ 0 hn
  have hs1 := OnsetDetector.strength_single_band Real.sqrt _ 1 hn
  rw [hv.1] at hs0
  rw [hv.2] at hs1
  refine ⟨?_, ?_, ?_⟩
  · rw [OnsetDetector.qualifiesAt_iff, hs0, hf.2.2.2.1, hf.2.2.1, ht, hl]
    refine ⟨h0, ?_⟩
    show (0 : Int) ≤ ((exampleDetector (0 : ℝ) 0 4 (6 / 5)).analyse rampBlock 1 2).strongHold.timer
    rw [hf.2.1, hT]
    norm_num
  · rw [OnsetDetector.qualifiesAt_iff, hs1, hf.2.2.2.1, hf.2.2.1, ht, hl,
      OnsetDetector.detect_timer_succ', hs0, hf.2.2.2.1, ht, if_pos h0]
    exact ⟨h1, le_refl _⟩
  · have h2 := OnsetDetector.operatorCall_two Real.sqrt (exampleDetector (0 : ℝ) 0 4 (6 / 5))
      rampBlock 1
    rw [hs0, hs1, ht, hl, hT] at h2
    rw [h2.1, if_pos ⟨h1, by rw [if_pos h0]⟩]

/-- C2 (amended): for every detector state whose hold length is at least one
sample, every threshold and every block, after `OnsetDetector::operator()` the
onset index is `-1` if no sample `s` of the block has `strength[s] > threshold`
while the hold gate is open at `s`, and otherwise it equals the smallest such
`s`, which is then the only such sample of the block. -/
theorem C2_first_qualifying_sample_latched (sqrt : α → α) (d : OnsetDetector α)
    (samples : Nat → Nat → α) (numChannels : Int) (numSamples : Nat)
    (hlen : 1 ≤ d.strongHold.length) :
    ((∀ s, s < numSamples → ¬ (d.analyse samples numChannels numSamples).QualifiesAt sqrt s) →
        (d.operatorCall sqrt samples numChannels numSamples).onset = -1)
      ∧ (∀ s, s < numSamples → (d.analyse samples numChannels numSamples).QualifiesAt sqrt s →
          (∀ t, t < s → ¬ (d.analyse samples numChannels numSamples).QualifiesAt sqrt t) →
          (d.operatorCall sqrt samples numChannels numSamples).onset = s)
      ∧ (∀ s t, (d.analyse samples numChannels numSamples).QualifiesAt sqrt s →
          (d.analyse samples numChannels numSamples).QualifiesAt sqrt t → s = t) := by
  have hf := d.analyse_frame samples numChannels numSamples
  have hlen2 : 1 ≤ (d.analyse samples numChannels numSamples).strongHold.length := by
    rw [hf.2.2.1]; exact hlen
  refine ⟨?_, ?_, ?_⟩
  · intro hnone
    unfold OnsetDetector.operatorCall
    rw [OnsetDetector.detect_onset_none sqrt _ numSamples hnone, hf.1]
  · intro s hs hq _
    unfold OnsetDetector.operatorCall
    apply OnsetDetector.detect_onset_last sqrt _ numSamples s hs hq
    intro t hst _ ht
    have := OnsetDetector.qualifiesAt_unique sqrt _ hlen2 s t hq ht
    omega
  · intro s t hs ht
    exact OnsetDetector.qualifiesAt_unique sqrt _ hlen2 s t hs ht

/-- Witness of C2 (amended): the example detector with hold length `2` on the
ramp block. -/
theorem C2_first_qualifying_sample_latched_witness :
    1 ≤ (exampleDetector (0 : ℝ) 2 1 (6 / 5)).strongHold.length
      ∧ (((∀ s, s < 2 →
            ¬ ((exampleDetector (0 : ℝ) 2 1 (6 / 5)).analyse rampBlock 1 2).QualifiesAt Real.sqrt s) →
          ((exampleDetector (0 : ℝ) 2 1 (6 / 5)).operatorCall Real.sqrt rampBlock 1 2).onset = -1)
        ∧ (∀ s, s < 2 →
            ((exampleDetector (0 : ℝ) 2 1 (6 / 5)).analyse rampBlock 1 2).QualifiesAt Real.sqrt s →
            (∀ t, t < s →
              ¬ ((exampleDetector (0 : ℝ) 2 1 (6 / 5)).analyse rampBlock 1 2).QualifiesAt
                Real.sqrt t) →
            ((exampleDetector (0 : ℝ) 2 1 (6 / 5)).operatorCall Real.sqrt rampBlock 1 2).onset = s)
        ∧ (∀ s t,
            ((exampleDetector (0 : ℝ) 2 1 (6 / 5)).analyse rampBlock 1 2).QualifiesAt Real.sqrt s →
            ((exampleDetector (0 : ℝ) 2 1 (6 / 5)).analyse rampBlock 1 2).QualifiesAt Real.sqrt t →
            s = t)) :=
  ⟨by decide,
    C2_first_qualifying_sample_latched Real.sqrt (exampleDetector (0 : ℝ) 2 1 (6 / 5)) rampBlock 1
      2 (by decide)⟩

/-- C3: for every integer timer and length, `youShallPass()` is true iff
`timer >= length`, `youShallNotPass()` is its exact negation, the gate is
closed at `timer = length - 1` and open at `timer = length + k` for every
`k >= 0`. -/
theorem C3_hold_gate_predicate {β : Type} (h : OnsetStrongHold β) :
    (h.youShallPass = true ↔ h.timer ≥ h.length)
      ∧ h.youShallNotPass = !h.youShallPass
      ∧ ({ h with timer := h.length - 1 } : OnsetStrongHold β).youShallPass = false
      ∧ ∀ k : Nat, ({ h with timer := h.length + k } : OnsetStrongHold β).youShallPass = true := by
  refine ⟨?_, ?_, ?_, ?_⟩
  · simp [OnsetStrongHold.youShallPass, OnsetStrongHold.youShallNotPass]
  · simp [OnsetStrongHold.youShallPass]
  · simp [OnsetStrongHold.youShallPass, OnsetStrongHold.youShallNotPass]
  · intro k
    simp [OnsetStrongHold.youShallPass, OnsetStrongHold.youShallNotPass]

/-- C4 (counterexample): on the ramp block with threshold `6/5`, the strength
of the example detector first exceeds the threshold at sample `1` and the
reported onset index is `1`; with every band gain multiplied by `k = 4` the
first crossing and the reported onset index are `0`. -/
theorem C4_counterexample_scaling_moves_crossing :
    OnsetDetector.firstCrossing Real.sqrt
        ((exampleDetector (0 : ℝ) 1 1 (6 / 5)).analyse rampBlock 1 2) 2 = some 1
      ∧ OnsetDetector.firstCrossing Real.sqrt
        ((OnsetDetector.scaleGains 4 (exampleDetector (0 : ℝ) 1 1 (6 / 5))).analyse rampBlock 1 2)
          2 = some 0
      ∧ ((exampleDetector (0 : ℝ) 1 1 (6 / 5)).operatorCall Real.sqrt rampBlock 1 2).onset = 1
      ∧ ((OnsetDetector.scaleGains 4 (exampleDetector (0 : ℝ) 1 1 (6 / 5))).operatorCall Real.sqrt
          rampBlock 1 2).onset = 0 := by
  rw [example_scaleGains]
  have hn := example_analyse_numBands (0 : ℝ) 1 1 (6 / 5) rampBlock 1 2
  have hn4 := example_analyse_numBands (0 : ℝ) 1 (4 * 1) (6 / 5) rampBlock 1 2
  have hv := example_ramp_strength (1 : Int) (1 : ℝ) (6 / 5)
  have hv4 := example_ramp_strength (1 : Int) (4 * 1 : ℝ) (6 / 5)
  have hf := (exampleDetector (0 : ℝ) 1 1 (6 / 5)).analyse_frame rampBlock 1 2
  have hf4 := (exampleDetector (0 : ℝ) 1 (4 * 1) (6 / 5)).analyse_frame rampBlock 1 2
  have hs0 := OnsetDetector.strength_single_band Real.sqrt _ 0 hn
  have hs1 := OnsetDetector.strength_single_band Real.sqrt _ 1 hn
  have hq0 := OnsetDetector.strength_single_band Real.sqrt _ 0 hn4
  have hq1 := OnsetDetector.strength_single_band Real.sqrt _ 1 hn4
  rw [hv.1] at hs0
  rw [hv.2] at hs1
  rw [hv4.1] at hq0
  rw [hv4.2] at hq1
  have h0 : ¬ ((6 / 5 : ℝ) < Real.sqrt 1) := by
    rw [Real.sqrt_one]; norm_num
  have h1 : (6 / 5 : ℝ) < Real.sqrt (1 * (375001 / 1000000) / (750007 / 4000000)) :=
    (Real.lt_sqrt (by norm_num)).mpr (by norm_num)
  have g0 : (6 / 5 : ℝ) < Real.sqrt (4 * 1) := (Real.lt_sqrt (by norm_num)).mpr (by norm_num)
  have g1 : (6 / 5 : ℝ) < Real.sqrt (4 * 1 * (375001 / 1000000) / (750007 / 4000000)) :=
    (Real.lt_sqrt (by norm_num)).mpr (by norm_num)
  have ht : (exampleDetector (0 : ℝ) 1 1 (6 / 5)).threshold = 6 / 5 := rfl
  have hl : (exampleDetector (0 : ℝ) 1 1 (6 / 5)).strongHold.length = 1 := rfl
  have hT : (exampleDetector (0 : ℝ) 1 1 (6 / 5)).strongHold.timer = 0 := rfl
  have ht4 : (exampleDetector (0 : ℝ) 1 (4 * 1) (6 / 5)).threshold = 6 / 5 := rfl
  have hl4 : (exampleDetector (0 : ℝ) 1 (4 * 1) (6 / 5)).strongHold.length = 1 := rfl
  have hT4 : (exampleDetector (0 : ℝ) 1 (4 * 1) (6 / 5)).strongHold.timer = 0 := rfl
  have hr : List.range 2 = [0, 1] := rfl
  refine ⟨?_, ?_, ?_, ?_⟩
  · unfold OnsetDetector.firstCrossing
    rw [hr]
    simp only [List.find?, hs0, hs1, hf.2.2.2.1, ht, decide_eq_false h0, decide_eq_true h1]
  · unfold OnsetDetector.firstCrossing
    rw [hr]
    simp only [List.find?, hq0, hf4.2.2.2.1, ht4, decide_eq_true g0]
  · have h2 := OnsetDetector.operatorCall_two Real.sqrt (exampleDetector (0 : ℝ) 1 1 (6 / 5))
      rampBlock 1
    rw [hs0, hs1, ht, hl, hT] at h2
    rw [h2.1, if_pos ⟨h1, by rw [if_neg h0]; norm_num⟩]
  · have h2 := OnsetDetector.operatorCall_two Real.sqrt
      (exampleDetector (0 : ℝ) 1 (4 * 1) (6 / 5)) rampBlock 1
    rw [hq0, hq1, ht4, hl4, hT4] at h2
    rw [h2.1, if_neg (fun h => by rw [if_pos g0] at h; exact absurd h.2 (by norm_num)),
      if_pos ⟨g0, by norm_num⟩]

/-- C4 (amended): for every positive constant `k`, multiplying every band's
gain by `k` multiplies the aggregated strength
`sqrt(sum over bands of processSample(s) / numBands)` by `sqrt(k)`; the first
sample index at which it exceeds the threshold `t`, and the onset index
reported by `OnsetDetector::operator()`, are those of the unscaled detector
with the threshold `t / sqrt(k)`. -/
theorem C4_gain_scaling_rescales_threshold (k : ℝ) (hk : 0 < k) (d : OnsetDetector ℝ)
    (samples : Nat → Nat → ℝ) (numChannels : Int) (numSamples : Nat) :
    (∀ s, ((OnsetDetector.scaleGains k d).analyse samples numChannels numSamples).strength
          Real.sqrt s
        = Real.sqrt k * (d.analyse samples numChannels numSamples).strength Real.sqrt s)
      ∧ OnsetDetector.firstCrossing Real.sqrt
          ((OnsetDetector.scaleGains k d).analyse samples numChannels numSamples) numSamples
        = OnsetDetector.firstCrossing Real.sqrt
          (({ d with threshold := d.threshold / Real.sqrt k } : OnsetDetector ℝ).analyse samples
            numChannels numSamples) numSamples
      ∧ ((OnsetDetector.scaleGains k d).operatorCall Real.sqrt samples numChannels
          numSamples).onset
        = (({ d with threshold := d.threshold / Real.sqrt k } : OnsetDetector ℝ).operatorCall
            Real.sqrt samples numChannels numSamples).onset := by
  have hsk : 0 < Real.sqrt k := Real.sqrt_pos.mpr hk
  have hstr : ∀ s, ((OnsetDetector.scaleGains k d).analyse samples numChannels
      numSamples).strength Real.sqrt s
        = Real.sqrt k * (d.analyse samples numChannels numSamples).strength Real.sqrt s := by
    intro s
    rw [OnsetDetector.analyse_scaleGains, OnsetDetector.strength_scaleGains k hk.le]
  have hthr : ∀ s,
      ((OnsetDetector.scaleGains k d).analyse samples numChannels numSamples).threshold
          < ((OnsetDetector.scaleGains k d).analyse samples numChannels numSamples).strength
            Real.sqrt s
        ↔ (({ d with threshold := d.threshold / Real.sqrt k } : OnsetDetector ℝ).analyse samples
              numChannels numSamples).threshold
          < (({ d with threshold := d.threshold / Real.sqrt k } : OnsetDetector ℝ).analyse samples
              numChannels numSamples).strength Real.sqrt s := by
    intro s
    have e1 : ((OnsetDetector.scaleGains k d).analyse samples numChannels numSamples).threshold
        = d.threshold := (OnsetDetector.analyse_frame _ _ _ _).2.2.2.1
    have e2 : (({ d with threshold := d.threshold / Real.sqrt k } : OnsetDetector ℝ).analyse
        samples numChannels numSamples).threshold = d.threshold / Real.sqrt k :=
      (OnsetDetector.analyse_frame _ _ _ _).2.2.2.1
    have e3 : (({ d with threshold := d.threshold / Real.sqrt k } : OnsetDetector ℝ).analyse
        samples numChannels numSamples).strength Real.sqrt s
        = (d.analyse samples numChannels numSamples).strength Real.sqrt s := by
      rw [OnsetDetector.analyse_setThreshold, OnsetDetector.strength_setThreshold]
    rw [e1, e2, e3, hstr s, div_lt_iff₀ hsk, mul_comm]
  refine ⟨hstr, ?_, ?_⟩
  · unfold OnsetDetector.firstCrossing
    congr 1
    funext s
    exact decide_eq_decide.mpr (hthr s)
  · unfold OnsetDetector.operatorCall
    refine (OnsetDetector.detect_congr Real.sqrt _ _ hthr ?_ ?_ ?_ numSamples).1
    · rw [(OnsetDetector.analyse_frame _ _ _ _).2.2.1, (OnsetDetector.analyse_frame _ _ _ _).2.2.1]
      rfl
    · rw [(OnsetDetector.analyse_frame _ _ _ _).2.1, (OnsetDetector.analyse_frame _ _ _ _).2.1]
      rfl
    · rw [(OnsetDetector.analyse_frame _ _ _ _).1, (OnsetDetector.analyse_frame _ _ _ _).1]

/-- Witness of C4 (amended): the example detector with every gain multiplied
by `4`, on the ramp block. -/
theorem C4_gain_scaling_rescales_threshold_witness :
    (0 : ℝ) < 4
      ∧ ((∀ s, ((OnsetDetector.scaleGains 4 (exampleDetector (0 : ℝ) 1 1 (6 / 5))).analyse rampBlock
              1 2).strength Real.sqrt s
            = Real.sqrt 4
              * ((exampleDetector (0 : ℝ) 1 1 (6 / 5)).analyse rampBlock 1 2).strength Real.sqrt s)
        ∧ OnsetDetector.firstCrossing Real.sqrt
            ((OnsetDetector.scaleGains 4 (exampleDetector (0 : ℝ) 1 1 (6 / 5))).analyse rampBlock
              1 2) 2
          = OnsetDetector.firstCrossing Real.sqrt
            (({ exampleDetector (0 : ℝ) 1 1 (6 / 5) with
                threshold := (exampleDetector (0 : ℝ) 1 1 (6 / 5)).threshold / Real.sqrt 4 } :
              OnsetDetector ℝ).analyse rampBlock 1 2) 2
        ∧ ((OnsetDetector.scaleGains 4 (exampleDetector (0 : ℝ) 1 1 (6 / 5))).operatorCall
            Real.sqrt rampBlock 1 2).onset
          = (({ exampleDetector (0 : ℝ) 1 1 (6 / 5) with
                threshold := (exampleDetector (0 : ℝ) 1 1 (6 / 5)).threshold / Real.sqrt 4 } :
              OnsetDetector ℝ).operatorCall Real.sqrt rampBlock 1 2).onset) :=
  ⟨by norm_num,
    C4_gain_scaling_rescales_threshold 4 (by norm_num) (exampleDetector (0 : ℝ) 1 1 (6 / 5))
      rampBlock 1 2⟩

/-- C5 (the code breaks the claim): a band that `prepare` has just reset has
both follower levels at `-120`, the followers in the decay state and the
resonator registers at `0`; the prepared detector is in that state, and on one
sample of silence, with the positive threshold `1/4`, it reports the onset
index `0`. -/
theorem C5_silence_after_prepare_reports_onset :
    (∀ (exp cos sqrt : ℝ → ℝ) (c : OnsetCore ℝ) (sampleRate : ℝ) (i : Fin 2),
        ((c.prepare exp cos sqrt sampleRate).envFols i).envLP.y1 = -120
          ∧ ((c.prepare exp cos sqrt sampleRate).envFols i).attackState = false
          ∧ (c.prepare exp cos sqrt sampleRate).reso.z1 = 0
          ∧ (c.prepare exp cos sqrt sampleRate).reso.z2 = 0)
      ∧ (∀ (b : Nat) (i : Fin 2),
          ((((preparedDetector 1 (1 / 4) (1 / 4) : OnsetDetector ℝ).detectors b).envFols
              i).envLP.y1 = -120)
            ∧ ((((preparedDetector 1 (1 / 4) (1 / 4) : OnsetDetector ℝ).detectors b).envFols
              i).attackState = false)
            ∧ ((preparedDetector 1 (1 / 4) (1 / 4) : OnsetDetector ℝ).detectors b).reso.z1 = 0
            ∧ ((preparedDetector 1 (1 / 4) (1 / 4) : OnsetDetector ℝ).detectors b).reso.z2 = 0)
      ∧ (0 : ℝ) < (preparedDetector 1 (1 / 4) (1 / 4) : OnsetDetector ℝ).threshold
      ∧ ((preparedDetector 1 (1 / 4) (1 / 4) : OnsetDetector ℝ).operatorCall Real.sqrt silentBlock
          1 1).onset = 0 := by
  refine ⟨?_, ?_, ?_, ?_⟩
  · intro exp cos sqrt c sampleRate i
    refine ⟨?_, ?_, rfl, rfl⟩
    · simp only [OnsetCore.prepare, OnsetCore.setDecay, OnsetCore.setAttack,
        Function.update_apply]
      split_ifs <;> rfl
    · simp only [OnsetCore.prepare, OnsetCore.setDecay, OnsetCore.setAttack,
        Function.update_apply]
      split_ifs <;> rfl
  · intro b i
    refine ⟨?_, ?_, rfl, rfl⟩
    · simp only [preparedDetector, exampleDetector, exampleCore]
      split_ifs <;> rfl
    · simp only [preparedDetector, exampleDetector, exampleCore]
      split_ifs <;> rfl
  · show (0 : ℝ) < 1 / 4
    norm_num
  · have hn : ((preparedDetector 1 (1 / 4) (1 / 4) : OnsetDetector ℝ).analyse silentBlock 1
        1).numBands = 2 := (OnsetDetector.analyse_frame _ _ _ _).2.2.2.2
    have hv := prepared_silence_strength (1 : Int) (1 / 4 : ℝ) (1 / 4)
    have h1 : (1 / 4 : ℝ) < Real.sqrt (1 / 4 * (-60) / (-90 + 1 / 1000000)) :=
      (Real.lt_sqrt (by norm_num)).mpr (by norm_num)
    have h2 := OnsetDetector.operatorCall_one Real.sqrt
      (preparedDetector 1 (1 / 4) (1 / 4) : OnsetDetector ℝ) silentBlock 1
    rw [OnsetDetector.strength_two_bands _ _ _ hn (hv.2.trans hv.1.symm), hv.1] at h2
    have ht : (preparedDetector 1 (1 / 4) (1 / 4) : OnsetDetector ℝ).threshold = 1 / 4 := rfl
    have hl : (preparedDetector 1 (1 / 4) (1 / 4) : OnsetDetector ℝ).strongHold.length = 1 := rfl
    have hT : (preparedDetector 1 (1 / 4) (1 / 4) : OnsetDetector ℝ).strongHold.timer = 0 := rfl
    rw [ht, hl, hT] at h2
    rw [h2.1, if_pos ⟨h1, by norm_num⟩]

/-- C6: the Lowpass coefficient invariant `a0 + b1 = 1` holds after
construction, and from every state that satisfies it, it holds after every
sequence of Lowpass operations (`setX`, the `makeFromDecayIn*` family with
the `d == 0` branch, `copyCutoffFrom` a Lowpass that satisfies it, `reset`,
`processSample`). -/
theorem C6_lowpass_coefficient_invariant (exp : α → α) (startVal : α) (lp : Lowpass α)
    (ops : List (Lowpass.Op α)) (hlp : lp.CoeffInv) (hops : ∀ op ∈ ops, op.Admissible) :
    (Lowpass.construct startVal).CoeffInv ∧ (Lowpass.applyOps exp lp ops).CoeffInv := by
  refine ⟨by simp [Lowpass.CoeffInv, Lowpass.construct], ?_⟩
  unfold Lowpass.applyOps
  induction ops generalizing lp with
  | nil => exact hlp
  | cons op rest ih =>
    rw [List.foldl_cons]
    apply ih
    · exact Lowpass.coeffInv_applyOp exp lp op hlp (hops op (List.mem_cons_self _ _))
    · intro o ho
      exact hops o (List.mem_cons_of_mem _ ho)

/-- Witness of C6: a Lowpass built with `setX(1/4)` and driven through every
kind of operation. -/
theorem C6_lowpass_coefficient_invariant_witness :
    ((Lowpass.construct (0 : ℚ)).setX (1 / 4)).CoeffInv
      ∧ (Lowpass.construct (3 : ℚ)).CoeffInv
      ∧ (Lowpass.applyOps (fun _ => (1 / 2 : ℚ)) ((Lowpass.construct (0 : ℚ)).setX (1 / 4))
          [.processSample 1, .makeFromDecayInSamples 0, .makeFromDecayInMs 5 48000,
            .copyCutoffFrom (Lowpass.construct 7), .reset, .makeFromDecayInHz 100 48000,
            .processSample 2]).CoeffInv :=
  ⟨Lowpass.coeffInv_setX _ _,
    C6_lowpass_coefficient_invariant (fun _ => (1 / 2 : ℚ)) 3 ((Lowpass.construct (0 : ℚ)).setX (1 / 4))
      [.processSample 1, .makeFromDecayInSamples 0, .makeFromDecayInMs 5 48000,
        .copyCutoffFrom (Lowpass.construct 7), .reset, .makeFromDecayInHz 100 48000,
        .processSample 2]
      (Lowpass.coeffInv_setX _ _)
      (by
        intro op hop
        simp only [List.mem_cons, List.mem_singleton, List.not_mem_nil, or_false] at hop
        rcases hop with h | h | h | h | h | h | h <;> subst h <;>
          simp [Lowpass.Op.Admissible, Lowpass.CoeffInv, Lowpass.construct])⟩

/-- C7: for every constant input `c`, every start value `y0` (the `y1` of the
Lowpass) and every `x` in `(0,1)` set with `setX(x)`, the value stored and
returned by the `n`-th call of `processSample(c)` is `c + x^n * (y0 - c)`;
`y_n - c` keeps the sign of `y0 - c`, `|y_n - c|` is strictly decreasing in
`n` when `y0 != c`, and `y_n` tends to `c`. -/
theorem C7_lowpass_monotonic_convergence (lp : Lowpass ℝ) (x c : ℝ) (hx0 : 0 < x) (hx1 : x < 1) :
    (∀ n, ((lp.setX x).iterateSample c n).y1 = c + x ^ n * (lp.y1 - c))
      ∧ (∀ n, (((lp.setX x).iterateSample c n).processSample c).2
          = c + x ^ (n + 1) * (lp.y1 - c))
      ∧ (∀ n, SignType.sign (((lp.setX x).iterateSample c n).y1 - c) = SignType.sign (lp.y1 - c))
      ∧ (lp.y1 ≠ c → ∀ n, |((lp.setX x).iterateSample c (n + 1)).y1 - c|
          < |((lp.setX x).iterateSample c n).y1 - c|)
      ∧ Filter.Tendsto (fun n => ((lp.setX x).iterateSample c n).y1) Filter.atTop (nhds c) := by
  have hcf := Lowpass.iterateSample_closed_form lp x c
  refine ⟨hcf, ?_, ?_, ?_, ?_⟩
  · intro n
    have h := hcf (n + 1)
    rw [Lowpass.iterateSample_succ] at h
    exact h
  · intro n
    rw [hcf n, add_sub_cancel_left, sign_mul, sign_pos (pow_pos hx0 n), one_mul]
  · intro hne n
    rw [hcf n, hcf (n + 1), add_sub_cancel_left, add_sub_cancel_left, abs_mul, abs_mul,
      abs_of_pos (pow_pos hx0 n), abs_of_pos (pow_pos hx0 (n + 1))]
    have hd : 0 < |lp.y1 - c| := abs_pos.mpr (sub_ne_zero.mpr hne)
    have hp : x ^ (n + 1) < x ^ n := by
      rw [pow_succ]
      exact mul_lt_of_lt_one_right (pow_pos hx0 n) hx1
    exact mul_lt_mul_of_pos_right hp hd
  · have hfun : (fun n => ((lp.setX x).iterateSample c n).y1)
        = fun n => c + x ^ n * (lp.y1 - c) := funext hcf
    rw [hfun]
    have h0 : Filter.Tendsto (fun n : ℕ => x ^ n) Filter.atTop (nhds 0) :=
      tendsto_pow_atTop_nhds_zero_of_lt_one hx0.le hx1
    have h1 := (h0.mul_const (lp.y1 - c)).const_add c
    simpa using h1

/-- Witness of C7: a Lowpass starting at `0` with `x = 1/2` and the constant
input `1`. -/
theorem C7_lowpass_monotonic_convergence_witness :
    (0 : ℝ) < 1 / 2 ∧ (1 / 2 : ℝ) < 1
      ∧ ((∀ n, (((Lowpass.construct (0 : ℝ)).setX (1 / 2)).iterateSample 1 n).y1
            = 1 + (1 / 2 : ℝ) ^ n * ((Lowpass.construct (0 : ℝ)).y1 - 1))
        ∧ (∀ n, ((((Lowpass.construct (0 : ℝ)).setX (1 / 2)).iterateSample 1 n).processSample 1).2
            = 1 + (1 / 2 : ℝ) ^ (n + 1) * ((Lowpass.construct (0 : ℝ)).y1 - 1))
        ∧ (∀ n, SignType.sign ((((Lowpass.construct (0 : ℝ)).setX (1 / 2)).iterateSample 1 n).y1 - 1)
            = SignType.sign ((Lowpass.construct (0 : ℝ)).y1 - 1))
        ∧ ((Lowpass.construct (0 : ℝ)).y1 ≠ 1 →
            ∀ n, |(((Lowpass.construct (0 : ℝ)).setX (1 / 2)).iterateSample 1 (n + 1)).y1 - 1|
              < |(((Lowpass.construct (0 : ℝ)).setX (1 / 2)).iterateSample 1 n).y1 - 1|)
        ∧ Filter.Tendsto
            (fun n => (((Lowpass.construct (0 : ℝ)).setX (1 / 2)).iterateSample 1 n).y1)
            Filter.atTop (nhds 1)) :=
  ⟨by norm_num, by norm_num,
    C7_lowpass_monotonic_convergence (Lowpass.construct 0) (1 / 2) 1 (by norm_num) (by norm_num)⟩

/-- C8: for every Lowpass state and every sample rate `Fs`,
`makeFromDecayInSamples(0)`, `makeFromDecayInSecs(0, Fs)` and
`makeFromDecayInMs(0, Fs)` set `a0 = 1`, `b1 = 0` and leave `y1` and
`startVal` unchanged, and afterwards `processSample(x)` returns and stores
exactly `x`. -/
theorem C8_zero_length_decay_is_identity (exp : α → α) (lp : Lowpass α) (Fs x : α) :
    Lowpass.IdentityFrom lp (Lowpass.makeFromDecayInSamples exp lp 0) x
      ∧ Lowpass.IdentityFrom lp (Lowpass.makeFromDecayInSecs exp lp 0 Fs) x
      ∧ Lowpass.IdentityFrom lp (Lowpass.makeFromDecayInMs exp lp 0 Fs) x := by
  have h0 : Lowpass.makeFromDecayInSamples exp lp 0 = { lp with a0 := 1, b1 := 0 } := by
    simp [Lowpass.makeFromDecayInSamples]
  have h1 : Lowpass.makeFromDecayInSecs exp lp 0 Fs = { lp with a0 := 1, b1 := 0 } := by
    simp [Lowpass.makeFromDecayInSecs, h0]
  have h2 : Lowpass.makeFromDecayInMs exp lp 0 Fs = { lp with a0 := 1, b1 := 0 } := by
    simp [Lowpass.makeFromDecayInMs, h1]
  rw [h0, h1, h2]
  simp [Lowpass.IdentityFrom, Lowpass.processSample]

/-- C9: for every coefficient triple, every state with `z1` and `z2` in
`[-1,1]` and every input sequence, each call of `Resonator2::operator()`
returns `distort(a0*x - b1*z1 - b2*z2)`, every output lies in `[-1,1]`, and
`z1`, `z2` stay in `[-1,1]` after every call of the sequence; the reset state
is such a state; `distort` is the identity on `[-1,1]` and idempotent. -/
theorem C9_resonator_clamp_invariant (r : Resonator2 α) (xs : List α) (h : r.Bounded) :
    (∀ (q : Resonator2 α) (x : α),
        (q.operatorCall x).2 = distort (q.a0 * x - q.b1 * q.z1 - q.b2 * q.z2))
      ∧ (∀ y ∈ (r.run xs).2, -1 ≤ y ∧ y ≤ 1)
      ∧ (∀ k : Nat, (r.run (xs.take k)).1.Bounded)
      ∧ r.reset.Bounded
      ∧ (∀ y : α, -1 ≤ y → y ≤ 1 → distort y = y)
      ∧ (∀ y : α, distort (distort y) = distort y) := by
  refine ⟨fun _ _ => rfl, Resonator2.run_outputs_mem r xs,
    fun k => Resonator2.bounded_run r _ h, ?_, distort_of_mem, ?_⟩
  · simp [Resonator2.Bounded, Resonator2.reset]
  · intro y
    exact distort_of_mem _ (distort_mem y).1 (distort_mem y).2

/-- Witness of C9: the reset resonator with coefficients `(2, -3, 5)` driven
by the inputs `4, -7, 1/2`. -/
theorem C9_resonator_clamp_invariant_witness :
    ({ fc := 0, bw := 0, b2 := 5, b1 := -3, a0 := 2, z1 := 0, z2 := 0 } : Resonator2 ℚ).Bounded
      ∧ ((∀ (q : Resonator2 ℚ) (x : ℚ),
            (q.operatorCall x).2 = distort (q.a0 * x - q.b1 * q.z1 - q.b2 * q.z2))
        ∧ (∀ y ∈ (({ fc := 0, bw := 0, b2 := 5, b1 := -3, a0 := 2, z1 := 0, z2 := 0 } :
              Resonator2 ℚ).run [4, -7, 1 / 2]).2, -1 ≤ y ∧ y ≤ 1)
        ∧ (∀ k : Nat, (({ fc := 0, bw := 0, b2 := 5, b1 := -3, a0 := 2, z1 := 0, z2 := 0 } :
              Resonator2 ℚ).run ([4, -7, 1 / 2].take k)).1.Bounded)
        ∧ ({ fc := 0, bw := 0, b2 := 5, b1 := -3, a0 := 2, z1 := 0, z2 := 0 } :
              Resonator2 ℚ).reset.Bounded
        ∧ (∀ y : ℚ, -1 ≤ y → y ≤ 1 → distort y = y)
        ∧ (∀ y : ℚ, distort (distort y) = distort y)) :=
  ⟨by simp [Resonator2.Bounded],
    C9_resonator_clamp_invariant _ [4, -7, 1 / 2] (by simp [Resonator2.Bounded])⟩

/-- C10 (the code breaks the invariant): a freshly constructed follower on
which `setDecay(10.)` is called is in the decay state (`attackState` false)
while the feedback coefficient of its Lowpass is still the constructor's `0`
and `params.dcy` is positive, so the active coefficient does not match
`attackState`. -/
theorem C10_setDecay_leaves_stale_coefficient (pow : ℝ → ℝ → ℝ) (atkMsDefault dcyMsDefault : ℝ) :
    ((EnvelopeFollower.construct pow atkMsDefault dcyMsDefault).applyOp Real.exp
        (.setDecay 10)).attackState = false
      ∧ ((EnvelopeFollower.construct pow atkMsDefault dcyMsDefault).applyOp Real.exp
        (.setDecay 10)).envLP.b1 = 0
      ∧ 0 < ((EnvelopeFollower.construct pow atkMsDefault dcyMsDefault).applyOp Real.exp
        (.setDecay 10)).params.dcy
      ∧ ¬ ((EnvelopeFollower.construct pow atkMsDefault dcyMsDefault).applyOp Real.exp
        (.setDecay 10)).CoeffMatchesState := by
  have hd : 0 < ((EnvelopeFollower.construct pow atkMsDefault dcyMsDefault).applyOp Real.exp
      (.setDecay 10)).params.dcy := Real.exp_pos _
  refine ⟨rfl, rfl, hd, ?_⟩
  intro hm
  have hb : ((EnvelopeFollower.construct pow atkMsDefault dcyMsDefault).applyOp Real.exp
      (.setDecay 10)).envLP.b1 = 0 := rfl
  unfold EnvelopeFollower.CoeffMatchesState at hm
  rw [hb] at hm
  have ha : ((EnvelopeFollower.construct pow atkMsDefault dcyMsDefault).applyOp Real.exp
      (.setDecay 10)).attackState = false := rfl
  rw [ha] at hm
  simp only [Bool.false_eq_true, if_false] at hm
  exact absurd hm.symm (ne_of_gt hd)

/-- C11: for every follower state whose Lowpass coefficients match
`attackState`, with previous level `s0 = envLP.y1` and rectified sample
`s1 = buffer[s]`, one step of `synthesizeEnvelope` stores the new level
`s1*(1-atk) + s0*atk` and `attackState = true` if `s1 > s0`, the new level
`s1*(1-dcy) + s0*dcy` and `attackState = false` if `s1 < s0`, and the level
`s0` with `attackState` unchanged if `s1 = s0`; the coefficients match the
state again afterwards. -/
theorem C11_immediate_attack_decay_transition (e : EnvelopeFollower α) (s : Nat)
    (h : e.CoeffsMatchState) :
    (e.envLP.y1 < e.buffer s →
        (e.synthesizeStep s).envLP.y1
            = e.buffer s * (1 - e.params.atk) + e.envLP.y1 * e.params.atk
          ∧ (e.synthesizeStep s).buffer s
            = e.buffer s * (1 - e.params.atk) + e.envLP.y1 * e.params.atk
          ∧ (e.synthesizeStep s).attackState = true)
      ∧ (e.buffer s < e.envLP.y1 →
        (e.synthesizeStep s).envLP.y1
            = e.buffer s * (1 - e.params.dcy) + e.envLP.y1 * e.params.dcy
          ∧ (e.synthesizeStep s).buffer s
            = e.buffer s * (1 - e.params.dcy) + e.envLP.y1 * e.params.dcy
          ∧ (e.synthesizeStep s).attackState = false)
      ∧ (e.buffer s = e.envLP.y1 →
        (e.synthesizeStep s).envLP.y1 = e.envLP.y1
          ∧ (e.synthesizeStep s).buffer s = e.envLP.y1
          ∧ (e.synthesizeStep s).attackState = e.attackState)
      ∧ (e.synthesizeStep s).CoeffsMatchState := by
  obtain ⟨ha, hb⟩ := h
  simp only [EnvelopeFollower.synthesizeStep, EnvelopeFollower.CoeffsMatchState,
    EnvelopeFollower.processAttack_eq, EnvelopeFollower.processDecay_eq]
  cases hst : e.attackState
  · rw [hst] at ha hb
    simp only [Bool.false_eq_true, if_false] at ha hb ⊢
    refine ⟨?_, ?_, ?_, ?_⟩
    · intro hlt
      rw [if_neg (not_le.mpr hlt)]
      simp [Lowpass.operatorCall, Lowpass.processSample, Lowpass.setX]
    · intro hlt
      rw [if_pos hlt.le]
      simp [Lowpass.operatorCall, Lowpass.processSample, ha, hb, hst]
    · intro heq
      rw [if_pos heq.le]
      simp only [Lowpass.operatorCall, Lowpass.processSample, ha, hb, hst, heq,
        Function.update_same]
      refine ⟨by ring, by ring, trivial⟩
    · by_cases hle : e.buffer s ≤ e.envLP.y1
      · rw [if_pos hle]
        simp [Lowpass.operatorCall, Lowpass.processSample, ha, hb, hst]
      · rw [if_neg hle]
        simp [Lowpass.operatorCall, Lowpass.processSample, Lowpass.setX]
  · rw [hst] at ha hb
    simp only [if_true] at ha hb ⊢
    refine ⟨?_, ?_, ?_, ?_⟩
    · intro hlt
      rw [if_pos hlt.le]
      simp [Lowpass.operatorCall, Lowpass.processSample, ha, hb, hst]
    · intro hlt
      rw [if_neg (not_le.mpr hlt)]
      simp [Lowpass.operatorCall, Lowpass.processSample, Lowpass.setX]
    · intro heq
      rw [if_pos heq.ge]
      simp only [Lowpass.operatorCall, Lowpass.processSample, ha, hb, hst, heq,
        Function.update_same]
      refine ⟨by ring, by ring, trivial⟩
    · by_cases hle : e.envLP.y1 ≤ e.buffer s
      · rw [if_pos hle]
        simp [Lowpass.operatorCall, Lowpass.processSample, ha, hb, hst]
      · rw [if_neg hle]
        simp [Lowpass.operatorCall, Lowpass.processSample, Lowpass.setX]

/-- Witness of C11: a follower in the decay state with decay coefficient
`3/4`, level `0` and rectified sample `1`. -/
theorem C11_immediate_attack_decay_transition_witness :
    ({ exampleFollower (1 / 2) (3 / 4) (0 : ℚ) with
        envLP := { a0 := 1 / 4, b1 := 3 / 4, y1 := 0, startVal := 0 },
        buffer := fun _ => 1 } : EnvelopeFollower ℚ).CoeffsMatchState
      ∧ (({ exampleFollower (1 / 2) (3 / 4) (0 : ℚ) with
            envLP := { a0 := 1 / 4, b1 := 3 / 4, y1 := 0, startVal := 0 },
            buffer := fun _ => 1 } : EnvelopeFollower ℚ).synthesizeStep 0).envLP.y1 = 1 / 2
      ∧ (({ exampleFollower (1 / 2) (3 / 4) (0 : ℚ) with
            envLP := { a0 := 1 / 4, b1 := 3 / 4, y1 := 0, startVal := 0 },
            buffer := fun _ => 1 } : EnvelopeFollower ℚ).synthesizeStep 0).attackState = true :=
  have hm : ({ exampleFollower (1 / 2) (3 / 4) (0 : ℚ) with
        envLP := { a0 := 1 / 4, b1 := 3 / 4, y1 := 0, startVal := 0 },
        buffer := fun _ => 1 } : EnvelopeFollower ℚ).CoeffsMatchState := by
    simp only [EnvelopeFollower.CoeffsMatchState, exampleFollower]
    norm_num
  have hw := (C11_immediate_attack_decay_transition
    ({ exampleFollower (1 / 2) (3 / 4) (0 : ℚ) with
        envLP := { a0 := 1 / 4, b1 := 3 / 4, y1 := 0, startVal := 0 },
        buffer := fun _ => 1 } : EnvelopeFollower ℚ) 0 hm).1
    (by simp only [exampleFollower]; norm_num)
  ⟨hm, by rw [hw.1]; simp only [exampleFollower]; norm_num, hw.2.2⟩

/-- C12 (counterexample): after `setDecay(3)` with `OnsetDecay0Percent = 2`, in
band `0` of the example detector (`freqHz = 5000`) the follower whose value
is the denominator of the strength ratio (`envFols[1]`) has decay time
`3/5 = 3 * (1000/5000)` ms, not `2 * 3 * (1000/5000)` ms, and the follower
whose value is the numerator (`envFols[0]`) has decay time `6/5` ms, not
`3 * (1000/5000)` ms. -/
theorem C12_counterexample_decay0_on_numerator :
    ((((exampleDetector (0 : ℝ) 0 1 1).setDecay Real.exp 2 3).detectors 0).envFols 1).params.dcyMs
        = 3 / 5
      ∧ ((((exampleDetector (0 : ℝ) 0 1 1).setDecay Real.exp 2 3).detectors 0).envFols
          1).params.dcyMs ≠ 2 * 3 * (1000 / ((exampleDetector (0 : ℝ) 0 1 1).detectors 0).freqHz)
      ∧ ((((exampleDetector (0 : ℝ) 0 1 1).setDecay Real.exp 2 3).detectors 0).envFols
          0).params.dcyMs = 6 / 5
      ∧ ((((exampleDetector (0 : ℝ) 0 1 1).setDecay Real.exp 2 3).detectors 0).envFols
          0).params.dcyMs ≠ 3 * (1000 / ((exampleDetector (0 : ℝ) 0 1 1).detectors 0).freqHz) := by
  have hsr : ((exampleDetector (0 : ℝ) 0 1 1).detectors 0).sampleRate ≠ 0 := by
    show (1 : ℝ) ≠ 0
    norm_num
  have hf : ((exampleDetector (0 : ℝ) 0 1 1).detectors 0).freqHz = 5000 := rfl
  have h := OnsetDetector.setDecay_dcyMs Real.exp 2 (exampleDetector (0 : ℝ) 0 1 1) 3 0 hsr
  rw [hf] at h ⊢
  rw [h.1, h.2]
  norm_num

/-- C12 (amended): after `OnsetDetector::setDecay(x)`, in every band (with a
non-zero sample rate) the envelope follower whose value is the numerator of
the strength ratio `gain*v0/(v1+1e-6)` in `OnsetCore::processSample`
(`envFols[0]`) has decay time `OnsetDecay0Percent * x * (1000/freqHz)` ms, and
the follower whose value is the denominator (`envFols[1]`) has decay time
`x * (1000/freqHz)` ms. -/
theorem C12_decay0_scales_numerator_follower (exp : α → α) (decay0Percent : α)
    (d : OnsetDetector α) (x : α) (i s : Nat) (hsr : (d.detectors i).sampleRate ≠ 0) :
    (((d.setDecay exp decay0Percent x).detectors i).processSample s).2
        = ((d.setDecay exp decay0Percent x).detectors i).gain
          * (((d.setDecay exp decay0Percent x).detectors i).envFols 0).get s
          / ((((d.setDecay exp decay0Percent x).detectors i).envFols 1).get s + 1 / 1000000)
      ∧ (((d.setDecay exp decay0Percent x).detectors i).envFols 0).params.dcyMs
        = decay0Percent * x * (1000 / (d.detectors i).freqHz)
      ∧ (((d.setDecay exp decay0Percent x).detectors i).envFols 1).params.dcyMs
        = x * (1000 / (d.detectors i).freqHz) :=
  ⟨rfl, OnsetDetector.setDecay_dcyMs exp decay0Percent d x i hsr⟩

/-- Witness of C12 (amended): band `0` of the example detector, whose sample
rate is `1`. -/
theorem C12_decay0_scales_numerator_follower_witness :
    ((exampleDetector (0 : ℝ) 0 1 1).detectors 0).sampleRate ≠ 0
      ∧ (((((exampleDetector (0 : ℝ) 0 1 1).setDecay Real.exp 2 3).detectors 0).processSample 0).2
          = (((exampleDetector (0 : ℝ) 0 1 1).setDecay Real.exp 2 3).detectors 0).gain
            * ((((exampleDetector (0 : ℝ) 0 1 1).setDecay Real.exp 2 3).detectors 0).envFols
                0).get 0
            / (((((exampleDetector (0 : ℝ) 0 1 1).setDecay Real.exp 2 3).detectors 0).envFols
                1).get 0 + 1 / 1000000)
        ∧ ((((exampleDetector (0 : ℝ) 0 1 1).setDecay Real.exp 2 3).detectors 0).envFols
            0).params.dcyMs = 2 * 3 * (1000 / ((exampleDetector (0 : ℝ) 0 1 1).detectors 0).freqHz)
        ∧ ((((exampleDetector (0 : ℝ) 0 1 1).setDecay Real.exp 2 3).detectors 0).envFols
            1).params.dcyMs = 3 * (1000 / ((exampleDetector (0 : ℝ) 0 1 1).detectors 0).freqHz)) :=
  have hsr : ((exampleDetector (0 : ℝ) 0 1 1).detectors 0).sampleRate ≠ 0 := by
    show (1 : ℝ) ≠ 0
    norm_num
  ⟨hsr, C12_decay0_scales_numerator_follower Real.exp 2 (exampleDetector (0 : ℝ) 0 1 1) 3 0 0 hsr⟩

/-- C13 (counterexample): with `numBands = 3` and `tilt = 20` dB the gain of
the middle band `1` after `setTilt` is `17/45`, while
`dbToAmp(-tilt + 2*tilt*1/(numBands-1)) / numBands^2 = dbToAmp(0)/9 = 1/9`. -/
theorem C13_counterexample_ramp_is_linear_in_amplitude :
    (exampleDetectorBands 3 : OnsetDetector ℝ).numBands = 3
      ∧ (((exampleDetectorBands 3 : OnsetDetector ℝ).setTilt Real.rpow 20).detectors 1).gain
        = 17 / 45
      ∧ dbToAmp Real.rpow (-20 + 2 * 20 * 1 / (3 - 1)) / 3 ^ 2 = 1 / 9
      ∧ (((exampleDetectorBands 3 : OnsetDetector ℝ).setTilt Real.rpow 20).detectors 1).gain
        ≠ dbToAmp Real.rpow (-20 + 2 * 20 * 1 / (3 - 1)) / 3 ^ 2 := by
  have hg : (((exampleDetectorBands 3 : OnsetDetector ℝ).setTilt Real.rpow 20).detectors 1).gain
      = 17 / 45 := by
    have h := OnsetDetector.updateTilt_gain Real.rpow
      ({ (exampleDetectorBands 3 : OnsetDetector ℝ) with tilt := 20 } : OnsetDetector ℝ) 1
      (by decide)
    have h' : (((exampleDetectorBands 3 : OnsetDetector ℝ).setTilt Real.rpow 20).detectors 1).gain
        = (dbToAmp Real.rpow (-20) + ((1 : ℕ) : ℝ) / ((3 : ℤ) : ℝ)
            * (dbToAmp Real.rpow 20 - dbToAmp Real.rpow (-20)))
          * (1 / ((3 : ℤ) : ℝ) * (1 / ((3 : ℤ) : ℝ))) := h
    rw [h', dbToAmp_rpow_twenty, dbToAmp_rpow_neg_twenty]
    norm_num
  have hc : dbToAmp Real.rpow (-20 + 2 * 20 * 1 / (3 - 1)) / 3 ^ 2 = 1 / 9 := by
    rw [show (-20 + 2 * 20 * 1 / (3 - 1) : ℝ) = 0 by norm_num, dbToAmp_rpow_zero]
    norm_num
  refine ⟨rfl, hg, hc, ?_⟩
  rw [hg, hc]
  norm_num

/-- C13 (amended): for every `numBands >= 2` and every tilt (dB), after
`setTilt(tilt)` the band gains form a ramp that is linear in amplitude: there
is a positive step, at most `1/(numBands-1)`, such that band `i` has gain
`(dbToAmp(-tilt) + i*step*(dbToAmp(tilt) - dbToAmp(-tilt))) / numBands^2` for
every `i < numBands`; in particular band `0` has gain
`dbToAmp(-tilt)/numBands^2`. -/
theorem C13_tilt_gain_ramp (pow : α → α → α) (d : OnsetDetector α) (tilt : α)
    (hn : 2 ≤ d.numBands) :
    (∃ step : α, 0 < step ∧ step * ((d.numBands : α) - 1) ≤ 1
        ∧ ∀ i : Nat, (i : Int) < d.numBands →
          ((d.setTilt pow tilt).detectors i).gain
            = (dbToAmp pow (-tilt)
                + (i : α) * step * (dbToAmp pow tilt - dbToAmp pow (-tilt)))
              / (d.numBands : α) ^ 2)
      ∧ ((d.setTilt pow tilt).detectors 0).gain = dbToAmp pow (-tilt) / (d.numBands : α) ^ 2 := by
  have hn2 : (2 : α) ≤ (d.numBands : α) := by exact_mod_cast hn
  have hpos : (0 : α) < (d.numBands : α) := by linarith
  have hgain : ∀ i : Nat, (i : Int) < d.numBands →
      ((d.setTilt pow tilt).detectors i).gain
        = (dbToAmp pow (-tilt)
            + (i : α) * (1 / (d.numBands : α)) * (dbToAmp pow tilt - dbToAmp pow (-tilt)))
          / (d.numBands : α) ^ 2 := by
    intro i hi
    have hi' : i < d.numBands.toNat := by omega
    have h := OnsetDetector.updateTilt_gain pow ({ d with tilt := tilt } : OnsetDetector α) i hi'
    have h' : ((d.setTilt pow tilt).detectors i).gain
        = (dbToAmp pow (-tilt)
            + (i : α) / (d.numBands : α) * (dbToAmp pow tilt - dbToAmp pow (-tilt)))
          * (1 / (d.numBands : α) * (1 / (d.numBands : α))) := h
    rw [h']
    ring
  refine ⟨⟨1 / (d.numBands : α), by positivity, ?_, hgain⟩, ?_⟩
  · rw [div_mul_eq_mul_div, one_mul, div_le_one hpos]
    linarith
  · have h0 := hgain 0 (by omega)
    rw [h0]
    simp

/-- Witness of C13 (amended): the example detector with three bands and a tilt
of `20` dB. -/
theorem C13_tilt_gain_ramp_witness :
    2 ≤ (exampleDetectorBands 3 : OnsetDetector ℝ).numBands
      ∧ ((∃ step : ℝ, 0 < step
            ∧ step * (((exampleDetectorBands 3 : OnsetDetector ℝ).numBands : ℝ) - 1) ≤ 1
            ∧ ∀ i : Nat, (i : Int) < (exampleDetectorBands 3 : OnsetDetector ℝ).numBands →
              (((exampleDetectorBands 3 : OnsetDetector ℝ).setTilt Real.rpow 20).detectors i).gain
                = (dbToAmp Real.rpow (-20)
                    + (i : ℝ) * step * (dbToAmp Real.rpow 20 - dbToAmp Real.rpow (-20)))
                  / ((exampleDetectorBands 3 : OnsetDetector ℝ).numBands : ℝ) ^ 2)
        ∧ (((exampleDetectorBands 3 : OnsetDetector ℝ).setTilt Real.rpow 20).detectors 0).gain
          = dbToAmp Real.rpow (-20) / ((exampleDetectorBands 3 : OnsetDetector ℝ).numBands : ℝ) ^ 2) :=
  ⟨by decide, C13_tilt_gain_ramp Real.rpow (exampleDetectorBands 3 : OnsetDetector ℝ) 20 (by decide)⟩

/-- C14: for every block of `numSamples` samples processed by
`OnsetDetector::operator()`, the timer afterwards is `0` if at least one sample
of the block had strength > threshold, whether the gate was open or closed at
that sample, and otherwise it is the timer before the block plus `numSamples`;
at every point of the sample loop the timer is one of these two values, so it
is never advanced inside the block. -/
theorem C14_hold_timer_after_block (sqrt : α → α) (d : OnsetDetector α)
    (samples : Nat → Nat → α) (numChannels : Int) (numSamples : Nat) :
    ((∃ s, s < numSamples
          ∧ d.threshold < (d.analyse samples numChannels numSamples).strength sqrt s) →
        (d.operatorCall sqrt samples numChannels numSamples).strongHold.timer = 0)
      ∧ ((∀ s, s < numSamples →
          ¬ d.threshold < (d.analyse samples numChannels numSamples).strength sqrt s) →
        (d.operatorCall sqrt samples numChannels numSamples).strongHold.timer
          = d.strongHold.timer + numSamples)
      ∧ (∀ m : Nat,
          ((d.analyse samples numChannels numSamples).detect sqrt m).strongHold.timer
              = d.strongHold.timer + numSamples
            ∨ ((d.analyse samples numChannels numSamples).detect sqrt m).strongHold.timer = 0) := by
  have hf := d.analyse_frame samples numChannels numSamples
  refine ⟨?_, ?_, ?_⟩
  · rintro ⟨s, hs, habove⟩
    unfold OnsetDetector.operatorCall
    apply OnsetDetector.detect_timer_of_some sqrt _ numSamples s hs
    rw [hf.2.2.2.1]
    exact habove
  · intro hnone
    unfold OnsetDetector.operatorCall
    rw [OnsetDetector.detect_timer_of_none sqrt _ numSamples, hf.2.1]
    intro s hs
    rw [hf.2.2.2.1]
    exact hnone s hs
  · intro m
    rcases OnsetDetector.detect_timer_cases sqrt (d.analyse samples numChannels numSamples) m
      with h | h
    · left; rw [h, hf.2.1]
    · exact Or.inr h

/-- C15 (the code breaks the claim): after `prepare`, on one sample of silence
the tracked envelope values of band `0` of the prepared detector are `-60`
(`envFols[0]`) and `-90` (`envFols[1]`), both negative, and the denominator
`envFols[1][0] + 1e-6` of `OnsetCore::processSample` is negative. -/
theorem C15_envelopes_negative_after_prepare :
    (((((preparedDetector 1 (1 / 4) (1 / 4) : OnsetDetector ℝ).analyse silentBlock 1 1).detectors
        0).envFols 0).get 0 = -60)
      ∧ (((((preparedDetector 1 (1 / 4) (1 / 4) : OnsetDetector ℝ).analyse silentBlock 1
        1).detectors 0).envFols 1).get 0 = -90)
      ∧ (((((preparedDetector 1 (1 / 4) (1 / 4) : OnsetDetector ℝ).analyse silentBlock 1
        1).detectors 0).envFols 1).get 0 + 1 / 1000000 < 0) := by
  have h := prepared_silence_envelopes (1 : Int) (1 / 4 : ℝ) (1 / 4)
  refine ⟨h.1, h.2, ?_⟩
  rw [h.2]
  norm_num

/-- C17 (the code breaks the claim): the static helpers
`Lowpass::getXFromSamples(0)`, `getXFromSecs(0, Fs)` and `getXFromMs(0, Fs)`
have no guarded branch and evaluate the division `-1. / lengthSamples` with
`lengthSamples = 0`; only `Lowpass::makeFromDecayInSamples(0)` returns through
the branch `d == 0.` without dividing; `Params::setAtk` and `Params::setDcy`
take their coefficient from `getXFromMs`. -/
theorem C17_static_helpers_divide_by_zero (exp : α → α) (Fs : α) (lp : Lowpass α)
    (p : EnvelopeFollower.Params α) (ms : α) :
    Lowpass.getXFromSamplesChecked exp 0 = none
      ∧ Lowpass.getXFromSecsChecked exp 0 Fs = none
      ∧ Lowpass.getXFromMsChecked exp 0 Fs = none
      ∧ Lowpass.makeFromDecayInSamplesChecked exp lp 0 = some { lp with a0 := 1, b1 := 0 }
      ∧ (∀ L : α, L ≠ 0 →
          Lowpass.getXFromSamplesChecked exp L = some (Lowpass.getXFromSamples exp L))
      ∧ (∀ d : α, d ≠ 0 →
          Lowpass.makeFromDecayInSamplesChecked exp lp d
            = some (Lowpass.makeFromDecayInSamples exp lp d))
      ∧ (p.setAtk exp ms).atk = Lowpass.getXFromMs exp ms p.sampleRate
      ∧ (p.setDcy exp ms).dcy = Lowpass.getXFromMs exp ms p.sampleRate := by
  refine ⟨?_, ?_, ?_, ?_, ?_, ?_, rfl, rfl⟩
  · simp [Lowpass.getXFromSamplesChecked, Lowpass.checkedDiv]
  · simp [Lowpass.getXFromSecsChecked, Lowpass.getXFromSamplesChecked, Lowpass.checkedDiv]
  · simp [Lowpass.getXFromMsChecked, Lowpass.getXFromSecsChecked,
      Lowpass.getXFromSamplesChecked, Lowpass.checkedDiv]
  · simp [Lowpass.makeFromDecayInSamplesChecked]
  · intro L hL
    simp [Lowpass.getXFromSamplesChecked, Lowpass.checkedDiv, hL, Lowpass.getXFromSamples]
  · intro d hd
    simp [Lowpass.makeFromDecayInSamplesChecked, Lowpass.checkedDiv, hd,
      Lowpass.makeFromDecayInSamples]

/-- C18: for every follower state and all `s0`, `s1`,
`EnvelopeFollower::processAttack(s0, s1)` and `processDecay(s0, s1)` return
within a call depth of two: each makes no call to the other function when its
own comparison holds and exactly one call otherwise, which returns without
calling back; so there is at most one state switch and exactly one Lowpass
step per sample. -/
theorem C18_bounded_attack_decay_recursion (fuel : Nat) (e : EnvelopeFollower α) (s0 s1 : α) :
    (∃ c : EnvelopeFollower.CallCount,
        EnvelopeFollower.processCounted (fuel + 2) true e s0 s1 = some (e.processAttack s0 s1, c)
          ∧ c.crossCalls ≤ 1 ∧ c.switches ≤ 1 ∧ c.lowpassSteps = 1
          ∧ (c.crossCalls = 0 ↔ s0 ≤ s1))
      ∧ (∃ c : EnvelopeFollower.CallCount,
        EnvelopeFollower.processCounted (fuel + 2) false e s0 s1 = some (e.processDecay s0 s1, c)
          ∧ c.crossCalls ≤ 1 ∧ c.switches ≤ 1 ∧ c.lowpassSteps = 1
          ∧ (c.crossCalls = 0 ↔ s0 ≥ s1)) := by
  constructor
  · refine ⟨_, EnvelopeFollower.processCounted_attack fuel e s0 s1, ?_⟩
    by_cases h : s0 ≤ s1
    · simp [h]
    · simp [h]
  · refine ⟨_, EnvelopeFollower.processCounted_decay fuel e s0 s1, ?_⟩
    by_cases h : s1 ≤ s0
    · simp [h]
    · simp [h]

/-- C19: for every `numBands >= 2` and every `lowestPitch`, `highestPitch`,
`OnsetDetector::updatePitchRange` gives band `i` (`0 <= i < numBands`) the
pitch `p_i = lowestPitch + i/(numBands-1) * (highestPitch - lowestPitch)`:
band `0` sits at `lowestPitch`, band `numBands-1` at `highestPitch`,
consecutive bands differ by the same pitch step, the band's centre frequency
is `noteToFreqHz(p_i)` and its bandwidth is
`noteToFreqHz(p_i + 0.5) - noteToFreqHz(p_i - 0.5)`. -/
theorem C19_band_pitch_layout (exp cos sqrt log2 : α → α) (d : OnsetDetector α)
    (hn : 2 ≤ d.numBands) :
    (∀ i : Nat, (i : Int) < d.numBands →
        ((d.updatePitchRange exp cos sqrt log2).detectors i).freqHz
            = noteToFreqHz log2 (d.bandPitch i)
          ∧ ((d.updatePitchRange exp cos sqrt log2).detectors i).bwHz
            = noteToFreqHz log2 (d.bandPitch i + 1 / 2)
              - noteToFreqHz log2 (d.bandPitch i - 1 / 2))
      ∧ (∀ i : Nat, d.bandPitch i
          = d.lowestPitch + (i : α) / ((d.numBands : α) - 1) * (d.highestPitch - d.lowestPitch))
      ∧ d.bandPitch 0 = d.lowestPitch
      ∧ d.bandPitch (d.numBands - 1).toNat = d.highestPitch
      ∧ (∀ i : Nat, d.bandPitch (i + 1) - d.bandPitch i
          = (d.highestPitch - d.lowestPitch) / ((d.numBands : α) - 1)) := by
  have hn2 : (2 : α) ≤ (d.numBands : α) := by exact_mod_cast hn
  have hne : ((d.numBands : α) - 1) ≠ 0 := by
    have : (0 : α) < (d.numBands : α) - 1 := by linarith
    exact ne_of_gt this
  have hform : ∀ i : Nat, d.bandPitch i
      = d.lowestPitch + (i : α) / ((d.numBands : α) - 1) * (d.highestPitch - d.lowestPitch) := by
    intro i
    unfold OnsetDetector.bandPitch
    simp only [Int.cast_sub, Int.cast_one]
  refine ⟨?_, hform, ?_, ?_, ?_⟩
  · intro i hi
    have hi' : i < d.numBands.toNat := by omega
    rw [OnsetDetector.updatePitchRange_band exp cos sqrt log2 d i hi']
    exact ⟨rfl, rfl⟩
  · rw [hform 0]
    simp
  · rw [hform]
    have hcast : (((d.numBands - 1).toNat : Nat) : α) = (d.numBands : α) - 1 := by
      have h1 : (((d.numBands - 1).toNat : Nat) : Int) = d.numBands - 1 :=
        Int.toNat_of_nonneg (by omega)
      have h2 : ((((d.numBands - 1).toNat : Nat) : Int) : α) = ((d.numBands - 1 : Int) : α) := by
        rw [h1]
      simpa using h2
    rw [hcast, div_self hne]
    ring
  · intro i
    rw [hform, hform]
    push_cast
    field_simp
    ring

/-- Witness of C19: the example detector with three bands, lowest pitch `40`
and highest pitch `100`. -/
theorem C19_band_pitch_layout_witness :
    2 ≤ (exampleDetectorBands 3 : OnsetDetector ℝ).numBands
      ∧ ((∀ i : Nat, (i : Int) < (exampleDetectorBands 3 : OnsetDetector ℝ).numBands →
            (((exampleDetectorBands 3 : OnsetDetector ℝ).updatePitchRange Real.exp Real.cos
                Real.sqrt (Real.logb 2)).detectors i).freqHz
                = noteToFreqHz (Real.logb 2) ((exampleDetectorBands 3 : OnsetDetector ℝ).bandPitch i)
              ∧ (((exampleDetectorBands 3 : OnsetDetector ℝ).updatePitchRange Real.exp Real.cos
                Real.sqrt (Real.logb 2)).detectors i).bwHz
                = noteToFreqHz (Real.logb 2)
                    ((exampleDetectorBands 3 : OnsetDetector ℝ).bandPitch i + 1 / 2)
                  - noteToFreqHz (Real.logb 2)
                    ((exampleDetectorBands 3 : OnsetDetector ℝ).bandPitch i - 1 / 2))
        ∧ (∀ i : Nat, (exampleDetectorBands 3 : OnsetDetector ℝ).bandPitch i
            = (exampleDetectorBands 3 : OnsetDetector ℝ).lowestPitch
              + (i : ℝ) / (((exampleDetectorBands 3 : OnsetDetector ℝ).numBands : ℝ) - 1)
                * ((exampleDetectorBands 3 : OnsetDetector ℝ).highestPitch
                  - (exampleDetectorBands 3 : OnsetDetector ℝ).lowestPitch))
        ∧ (exampleDetectorBands 3 : OnsetDetector ℝ).bandPitch 0
          = (exampleDetectorBands 3 : OnsetDetector ℝ).lowestPitch
        ∧ (exampleDetectorBands 3 : OnsetDetector ℝ).bandPitch
            ((exampleDetectorBands 3 : OnsetDetector ℝ).numBands - 1).toNat
          = (exampleDetectorBands 3 : OnsetDetector ℝ).highestPitch
        ∧ (∀ i : Nat, (exampleDetectorBands 3 : OnsetDetector ℝ).bandPitch (i + 1)
              - (exampleDetectorBands 3 : OnsetDetector ℝ).bandPitch i
            = ((exampleDetectorBands 3 : OnsetDetector ℝ).highestPitch
                - (exampleDetectorBands 3 : OnsetDetector ℝ).lowestPitch)
              / (((exampleDetectorBands 3 : OnsetDetector ℝ).numBands : ℝ) - 1))) :=
  ⟨by decide,
    C19_band_pitch_layout Real.exp Real.cos Real.sqrt (Real.logb 2)
      (exampleDetectorBands 3 : OnsetDetector ℝ) (by decide)⟩

/-- C20 (the code breaks the claim): the function named `noteToFreqHz`
computes `69 + 12*log2(note/440)`, the logarithmic frequency-to-note map:
`noteToFreqHz(440) = 69` and `noteToFreqHz(440 + 12) < 81`, not
`2 * 69 = 138`; doubling its argument adds `12`. The exponential map, for
which `+12` doubles the value, is the function named `freqHzToNote`. -/
theorem C20_noteToFreqHz_is_logarithmic :
    noteToFreqHz (Real.logb 2) 440 = 69
      ∧ noteToFreqHz (Real.logb 2) (440 + 12) < 81
      ∧ noteToFreqHz (Real.logb 2) (440 + 12) ≠ 2 * noteToFreqHz (Real.logb 2) 440
      ∧ (∀ p : ℝ, 0 < p →
          noteToFreqHz (Real.logb 2) (2 * p) = noteToFreqHz (Real.logb 2) p + 12)
      ∧ (∀ x : ℝ, freqHzToNote Real.rpow (x + 12) = 2 * freqHzToNote Real.rpow x) := by
  have h440 : noteToFreqHz (Real.logb 2) 440 = 69 := by
    unfold noteToFreqHz
    rw [div_self (by norm_num : (440 : ℝ) ≠ 0), Real.logb_one]
    norm_num
  have hlt : Real.logb 2 ((440 + 12) / 440) < 1 := by
    have h1 : Real.logb 2 ((440 + 12) / 440) < Real.logb 2 2 :=
      Real.logb_lt_logb (by norm_num) (by norm_num) (by norm_num)
    rwa [Real.logb_self_eq_one (by norm_num)] at h1
  have h452 : noteToFreqHz (Real.logb 2) (440 + 12) < 81 := by
    unfold noteToFreqHz
    linarith
  refine ⟨h440, h452, ?_, ?_, ?_⟩
  · rw [h440]
    intro h
    rw [h] at h452
    norm_num at h452
  · intro p hp
    unfold noteToFreqHz
    rw [mul_div_assoc, Real.logb_mul (by norm_num) (by positivity),
      Real.logb_self_eq_one (by norm_num)]
    ring
  · intro x
    unfold freqHzToNote
    have h : (x + 12 - 69) / 12 = (x - 69) / 12 + 1 := by ring
    have h2 : Real.rpow 2 ((x - 69) / 12 + 1)
        = Real.rpow 2 ((x - 69) / 12) * Real.rpow 2 1 :=
      Real.rpow_add (by norm_num) _ _
    have h3 : Real.rpow 2 1 = 2 := Real.rpow_one 2
    rw [h, h2, h3]
    ring

/-- C21 (the code breaks the claim): on the constructed detector (band `0` at
`100` Hz after `prepare`, `OnsetDecay0Percent = 2`), `setDecay(3)` followed by
`prepare(48000)` leaves both followers of band `0` with the decay time
`2 * 3 * (1000/100) = 60` ms, while `prepare(48000)` followed by `setDecay(3)`
leaves `envFols[0]` with `60` ms and `envFols[1]` with `3 * (1000/100) = 30`
ms: the two orders differ on `envFols[1]`, and after `prepare` the decay time
of `envFols[1]` is not `x * (1000/freqHz)`. -/
theorem C21_prepare_loses_decay_asymmetry :
    ((((OnsetDetector.construct Real.exp Real.rpow (exampleConsts : OnsetConsts ℝ)).setDecay
          Real.exp (exampleConsts : OnsetConsts ℝ).OnsetDecay0Percent 3).prepare
        Real.exp Real.cos Real.sqrt (Real.logb 2) 48000).detectors 0).freqHz = 100
      ∧ (((((OnsetDetector.construct Real.exp Real.rpow (exampleConsts : OnsetConsts ℝ)).setDecay
          Real.exp (exampleConsts : OnsetConsts ℝ).OnsetDecay0Percent 3).prepare
        Real.exp Real.cos Real.sqrt (Real.logb 2) 48000).detectors 0).envFols 0).params.dcyMs = 60
      ∧ (((((OnsetDetector.construct Real.exp Real.rpow (exampleConsts : OnsetConsts ℝ)).setDecay
          Real.exp (exampleConsts : OnsetConsts ℝ).OnsetDecay0Percent 3).prepare
        Real.exp Real.cos Real.sqrt (Real.logb 2) 48000).detectors 0).envFols 1).params.dcyMs = 60
      ∧ ((((OnsetDetector.construct Real.exp Real.rpow (exampleConsts : OnsetConsts ℝ)).prepare
          Real.exp Real.cos Real.sqrt (Real.logb 2) 48000).setDecay
        Real.exp (exampleConsts : OnsetConsts ℝ).OnsetDecay0Percent 3).detectors 0).freqHz = 100
      ∧ (((((OnsetDetector.construct Real.exp Real.rpow (exampleConsts : OnsetConsts ℝ)).prepare
          Real.exp Real.cos Real.sqrt (Real.logb 2) 48000).setDecay
        Real.exp (exampleConsts : OnsetConsts ℝ).OnsetDecay0Percent 3).detectors 0).envFols
          0).params.dcyMs = 60
      ∧ (((((OnsetDetector.construct Real.exp Real.rpow (exampleConsts : OnsetConsts ℝ)).prepare
          Real.exp Real.cos Real.sqrt (Real.logb 2) 48000).setDecay
        Real.exp (exampleConsts : OnsetConsts ℝ).OnsetDecay0Percent 3).detectors 0).envFols
          1).params.dcyMs = 30
      ∧ (((((OnsetDetector.construct Real.exp Real.rpow (exampleConsts : OnsetConsts ℝ)).setDecay
          Real.exp (exampleConsts : OnsetConsts ℝ).OnsetDecay0Percent 3).prepare
        Real.exp Real.cos Real.sqrt (Real.logb 2) 48000).detectors 0).envFols 1).params.dcyMs
        ≠ (((((OnsetDetector.construct Real.exp Real.rpow
            (exampleConsts : OnsetConsts ℝ)).prepare
          Real.exp Real.cos Real.sqrt (Real.logb 2) 48000).setDecay
        Real.exp (exampleConsts : OnsetConsts ℝ).OnsetDecay0Percent 3).detectors 0).envFols
          1).params.dcyMs
      ∧ (((((OnsetDetector.construct Real.exp Real.rpow (exampleConsts : OnsetConsts ℝ)).setDecay
          Real.exp (exampleConsts : OnsetConsts ℝ).OnsetDecay0Percent 3).prepare
        Real.exp Real.cos Real.sqrt (Real.logb 2) 48000).detectors 0).envFols 1).params.dcyMs
        ≠ 3 * (1000 / ((((OnsetDetector.construct Real.exp Real.rpow
            (exampleConsts : OnsetConsts ℝ)).setDecay
          Real.exp (exampleConsts : OnsetConsts ℝ).OnsetDecay0Percent 3).prepare
        Real.exp Real.cos Real.sqrt (Real.logb 2) 48000).detectors 0).freqHz) := by
  have hfr := OnsetDetector.construct_frame Real.exp Real.rpow (exampleConsts : OnsetConsts ℝ)
  have hi : 0 < (OnsetDetector.construct Real.exp Real.rpow
      (exampleConsts : OnsetConsts ℝ)).numBands.toNat := by
    rw [hfr.1]
    decide
  have hF : noteToFreqHz (Real.logb 2)
      ((OnsetDetector.construct Real.exp Real.rpow (exampleConsts : OnsetConsts ℝ)).bandPitch 0)
      = 100 := by
    rw [OnsetDetector.bandPitch_zero, hfr.2.1]
    exact noteToFreqHz_freqHzToNote 100
  have hd0 : (exampleConsts : OnsetConsts ℝ).OnsetDecay0Percent = 2 := rfl
  have hA := OnsetDetector.setDecay_prepare_dcyMs Real.exp Real.cos Real.sqrt (Real.logb 2)
    (exampleConsts : OnsetConsts ℝ).OnsetDecay0Percent
    (OnsetDetector.construct Real.exp Real.rpow (exampleConsts : OnsetConsts ℝ)) 3 48000 0 hi
    (by norm_num)
  have hB := OnsetDetector.prepare_setDecay_dcyMs Real.exp Real.cos Real.sqrt (Real.logb 2)
    (exampleConsts : OnsetConsts ℝ).OnsetDecay0Percent
    (OnsetDetector.construct Real.exp Real.rpow (exampleConsts : OnsetConsts ℝ)) 3 48000 0 hi
    (by norm_num)
  have hfA := (OnsetDetector.prepare_freqHz Real.exp Real.cos Real.sqrt (Real.logb 2)
    ((OnsetDetector.construct Real.exp Real.rpow (exampleConsts : OnsetConsts ℝ)).setDecay
      Real.exp (exampleConsts : OnsetConsts ℝ).OnsetDecay0Percent 3) 48000 0 hi).1
  have hfB : ((((OnsetDetector.construct Real.exp Real.rpow
        (exampleConsts : OnsetConsts ℝ)).prepare
      Real.exp Real.cos Real.sqrt (Real.logb 2) 48000).setDecay
      Real.exp (exampleConsts : OnsetConsts ℝ).OnsetDecay0Percent 3).detectors 0).freqHz
      = (((OnsetDetector.construct Real.exp Real.rpow (exampleConsts : OnsetConsts ℝ)).prepare
      Real.exp Real.cos Real.sqrt (Real.logb 2) 48000).detectors 0).freqHz := rfl
  have hfB' := (OnsetDetector.prepare_freqHz Real.exp Real.cos Real.sqrt (Real.logb 2)
    (OnsetDetector.construct Real.exp Real.rpow (exampleConsts : OnsetConsts ℝ)) 48000 0 hi).1
  have hbp : ((OnsetDetector.construct Real.exp Real.rpow
        (exampleConsts : OnsetConsts ℝ)).setDecay
      Real.exp (exampleConsts : OnsetConsts ℝ).OnsetDecay0Percent 3).bandPitch 0
      = (OnsetDetector.construct Real.exp Real.rpow (exampleConsts : OnsetConsts ℝ)).bandPitch 0 :=
    rfl
  rw [hbp, hF] at hfA
  rw [hF] at hfB' hA hB
  rw [hd0] at hA hB hfA hfB ⊢
  rw [hfB, hfB', hfA, hA.1, hA.2, hB.1, hB.2]
  norm_num

end Claims

end dsp
